import Mathlib

/-!
ReactOS UEFI boot library: display management (`boot/environ/lib/io/display/display.c`)

A shallow embedding of the display routines.  The globals of `display.c` are the fields of
`State`; everything the file calls but does not define (boot options, heap, console
construction, the console callbacks, the font subsystem) is a field of `Externals`, acting on
an abstract world `W`.  Every call that leaves the file is written to `State.Trace`, in the
order the calls are made.
-/

namespace Display

/-! ## Basic types -/

/-- An NTSTATUS is a signed 32-bit LONG. -/
abbrev NTSTATUS := Int

/-- Pointers are addresses; address 0 is NULL. -/
abbrev PVOID := Nat

/-- A WCHAR is a 16-bit code unit; 0 is the terminating NUL. -/
abbrev WCHAR := Nat

/-- The test `NT_SUCCESS(Status)`, which is `Status >= 0`. -/
def NT_SUCCESS (Status : NTSTATUS) : Bool := decide (0 ≤ Status)

/-- The status 0x00000000. -/
def STATUS_SUCCESS : NTSTATUS := 0
/-- The status 0xC0000001 as a LONG. -/
def STATUS_UNSUCCESSFUL : NTSTATUS := -1073741823
/-- The status 0xC0000002 as a LONG. -/
def STATUS_NOT_IMPLEMENTED : NTSTATUS := -1073741822
/-- The status 0xC000000D as a LONG. -/
def STATUS_INVALID_PARAMETER : NTSTATUS := -1073741811
/-- The status 0xC0000017 as a LONG. -/
def STATUS_NO_MEMORY : NTSTATUS := -1073741801
/-- The status 0xC0000095 as a LONG. -/
def STATUS_INTEGER_OVERFLOW : NTSTATUS := -1073741675
/-- The status 0xC00000BB as a LONG. -/
def STATUS_NOT_SUPPORTED : NTSTATUS := -1073741637

/-- The largest ULONG. -/
def ULONG_MAX : Nat := 4294967295

/-- A wide string pointer: the address it holds (0 for NULL) and the characters found there,
up to and excluding the terminating NUL. -/
structure PWCHAR where
  Pointer : PVOID
  Chars : List WCHAR
deriving DecidableEq, Repr

/-- The structure BL_DISPLAY_MODE. -/
structure BL_DISPLAY_MODE where
  HRes : Nat
  VRes : Nat
  HRes2 : Nat
deriving DecidableEq, Repr

/-- The fields of BL_LIBRARY_PARAMETERS that `display.c` reads. -/
structure BL_LIBRARY_PARAMETERS where
  LibraryFlags : Nat
  FontBaseDirectory : PWCHAR
deriving DecidableEq, Repr

/-- The BCD elements `display.c` looks up. -/
inductive BcdKey where
  | BcdLibraryDevice_ApplicationDevice
  | BcdLibraryBoolean_GraphicsModeDisabled
  | BcdLibraryInteger_GraphicsResolution
  | BcdLibraryBoolean_GraphicsForceHighestMode
  | BcdLibraryString_FontPath
deriving DecidableEq, Repr

/-- The catalog `ConsoleGraphicalResolutionList`. -/
def ConsoleGraphicalResolutionList : List BL_DISPLAY_MODE :=
  [⟨1024, 768, 1024⟩, ⟨800, 600, 800⟩, ⟨1024, 600, 1024⟩]

/-- The value `RTL_NUMBER_OF(ConsoleGraphicalResolutionList)`. -/
def ConsoleGraphicalResolutionListSize : Nat := ConsoleGraphicalResolutionList.length

/-- The catalog `ConsoleTextResolutionList`. -/
def ConsoleTextResolutionList : List BL_DISPLAY_MODE := [⟨80, 25, 80⟩]

/-! ## Calls that leave the file -/

/-- One call made by `display.c` into code it does not define, with the values that came
back, or the return of `DsppLoadFontFile` (one font load attempt, with its status). -/
inductive Event where
  | EfiPrintf (Format : String)
  | BlMmAllocateHeap (Size : Nat) (Result : PVOID)
  | BlMmFreeHeap (Buffer : PVOID)
  | BlGetBootOptionString (Key : BcdKey) (Status : NTSTATUS) (Value : PWCHAR)
  | BlGetBootOptionDevice (Key : BcdKey) (Status : NTSTATUS) (Value : PVOID)
  | BfLoadFontFile (Device : PVOID) (FontPath : List WCHAR) (Status : NTSTATUS)
  | BfiFreeDeferredFontFile (DeferredFont : PVOID)
  | DsppLoadFontFile (FontFileName : List WCHAR) (Status : NTSTATUS)
  | ConsoleGraphicalConstruct (Console : PVOID) (Status : NTSTATUS)
  | ConsoleTextLocalConstruct (Console : PVOID) (Activate : Bool) (Status : NTSTATUS)
  | ConsoleCreateRemoteConsole (Console : PVOID)
  | ConsoleCreateLocalInputConsole (Console : PVOID)
  | RtlFillMemory (Console : PVOID) (Fill : Nat)
  | Enable (Console : PVOID) (Enable : Bool) (Status : NTSTATUS)
  | GetGraphicalResolution (Console : PVOID) (Status : NTSTATUS)
  | Reinitialize (Console : PVOID) (Status : NTSTATUS)
deriving DecidableEq, Repr

/-- Modelled from the spec: what `display.c` uses and `bl.h` or another file of the boot
library defines, none of it in `display.c`.  `W` is the state of those collaborators
(firmware consoles, heap, BCD store).  Queries read the world; the other routines also
change it.
The flag masks and structure sizes are the constants of `bl.h`; the spec's external
interfaces (section 6) give the routines: option lookups report presence by their status,
construction routines report a result, console creation reports the console or NULL. -/
structure Externals (W : Type) where
  BL_LIBRARY_FLAG_REINITIALIZE : Nat
  BL_LIBRARY_FLAG_REINITIALIZE_ALL : Nat
  BL_LIBRARY_FLAG_NO_GRAPHICS_CONSOLE : Nat
  BL_DISPLAY_GRAPHICS_FORCED_VIDEO_MODE_FLAG : Nat
  BL_DISPLAY_GRAPHICS_FORCED_HIGH_RES_MODE_FLAG : Nat
  sizeof_BL_GRAPHICS_CONSOLE : Nat
  sizeof_BL_TEXT_CONSOLE : Nat
  /-- Width of `size_t` in bits. -/
  SIZE_T_BITS : Nat
  /-- Address of the string constant with the firmware font directory. -/
  FontsDirectoryLiteral : PVOID
  BlpLibraryParameters : W → BL_LIBRARY_PARAMETERS
  BlpBootDevice : W → PVOID
  BlGetBootOptionBoolean : W → BcdKey → NTSTATUS × Bool
  BlGetBootOptionInteger : W → BcdKey → NTSTATUS × Nat
  BlGetBootOptionString : W → BcdKey → (NTSTATUS × PWCHAR) × W
  BlGetBootOptionDevice : W → BcdKey → (NTSTATUS × PVOID) × W
  MiscGetBootOption : W → BcdKey → PVOID
  BlMmAllocateHeap : W → Nat → PVOID × W
  BlMmFreeHeap : W → PVOID → W
  ConsoleGraphicalConstruct : W → PVOID → NTSTATUS × W
  ConsoleTextLocalConstruct : W → PVOID → Bool → NTSTATUS × W
  ConsoleCreateRemoteConsole : W → PVOID × W
  /-- Returns the local input console it installed in `DspLocalInputConsole`, or NULL. -/
  ConsoleCreateLocalInputConsole : W → PVOID × W
  /-- Fills the frame buffer of a graphics console. -/
  RtlFillMemory : W → PVOID → Nat → W
  IsEnabled : W → PVOID → Bool
  Enable : W → PVOID → Bool → NTSTATUS × W
  GetGraphicalResolution : W → PVOID → NTSTATUS × BL_DISPLAY_MODE
  Reinitialize : W → PVOID → NTSTATUS × W
  BfLoadFontFile : W → PVOID → List WCHAR → NTSTATUS × W
  BfiFreeDeferredFontFile : W → PVOID → W

/-- The globals of `display.c`, the world of the collaborators, and the calls made so far.
A list head is the list of the entries linked on it, first entry first. -/
structure State (W : Type) where
  World : W
  BfiCachedStrikeData : PVOID
  BfiDeferredListHead : List PVOID
  BfiFontFileListHead : List PVOID
  BfiGraphicsRectangle : PVOID
  ConsoleGraphicalResolutionListFlags : Nat
  DspRemoteInputConsole : PVOID
  DspTextConsole : PVOID
  DspGraphicalConsole : PVOID
  DspLocalInputConsole : PVOID
  Trace : List Event

variable {W : Type}

/-- Record one call at the end of the trace. -/
def State.log (s : State W) (e : Event) : State W :=
  { s with Trace := s.Trace ++ [e] }

/-- The world after a call, with the call recorded. -/
def State.step (s : State W) (w : W) (e : Event) : State W :=
  { s with World := w, Trace := s.Trace ++ [e] }

/-- The call `EfiPrintf(Format, ...)`. -/
def EfiPrintf (s : State W) (Format : String) : State W :=
  s.log (Event.EfiPrintf Format)

/-- The call `BlMmAllocateHeap(Size)`. -/
def BlMmAllocateHeap (E : Externals W) (s : State W) (Size : Nat) : PVOID × State W :=
  let r := E.BlMmAllocateHeap s.World Size
  (r.1, s.step r.2 (Event.BlMmAllocateHeap Size r.1))

/-- The call `BlMmFreeHeap(Buffer)`. -/
def BlMmFreeHeap (E : Externals W) (s : State W) (Buffer : PVOID) : State W :=
  s.step (E.BlMmFreeHeap s.World Buffer) (Event.BlMmFreeHeap Buffer)

/-- The callback `Console->Callbacks->IsEnabled(Console)`. -/
def IsEnabled (E : Externals W) (s : State W) (Console : PVOID) : Bool :=
  E.IsEnabled s.World Console

/-- The callback `Console->Callbacks->Enable(Console, Enable)`. -/
def Enable (E : Externals W) (s : State W) (Console : PVOID) (On : Bool) :
    NTSTATUS × State W :=
  let r := E.Enable s.World Console On
  (r.1, s.step r.2 (Event.Enable Console On r.1))

/-- The callback `Console->Callbacks->GetGraphicalResolution(Console, &Resolution)`. -/
def GetGraphicalResolution (E : Externals W) (s : State W) (Console : PVOID) :
    (NTSTATUS × BL_DISPLAY_MODE) × State W :=
  let r := E.GetGraphicalResolution s.World Console
  (r, s.log (Event.GetGraphicalResolution Console r.1))

/-! ## Strings and checked arithmetic -/

/-- A wide string constant `L"..."`: its characters. -/
def L (Literal : String) : List WCHAR := Literal.toList.map Char.toNat

/-- The CRT routine `wcslen`: the number of characters before the terminating NUL. -/
def wcslen (String : List WCHAR) : Nat := String.length

/-- The CRT routine `towlower` on the characters the locale tags use: the letters A to Z
become a to z. -/
def towlower (c : Nat) : Nat := if 65 ≤ c ∧ c ≤ 90 then c + 32 else c

/-- The CRT routine `_wcsicmp`: compares two strings character by character after lowering
each character, and returns the difference at the first place they differ, 0 when there is
none; the end of a string reads as the NUL character. -/
def _wcsicmp : List Nat → List Nat → Int
  | [], [] => 0
  | [], d :: _ => 0 - (towlower d : Int)
  | c :: _, [] => (towlower c : Int)
  | c :: cs, d :: ds =>
    if towlower c = towlower d then _wcsicmp cs ds
    else (towlower c : Int) - (towlower d : Int)

/-- The routine `RtlULongAdd` of ntintsafe.h: the sum when it fits a ULONG. -/
def RtlULongAdd (Augend Addend : Nat) : NTSTATUS × Nat :=
  if Augend + Addend ≤ ULONG_MAX then (STATUS_SUCCESS, Augend + Addend)
  else (STATUS_INTEGER_OVERFLOW, ULONG_MAX)

/-- The routine `RtlULongLongToULong` of ntintsafe.h: the operand when it fits a ULONG. -/
def RtlULongLongToULong (Operand : Nat) : NTSTATUS × Nat :=
  if Operand ≤ ULONG_MAX then (STATUS_SUCCESS, Operand)
  else (STATUS_INTEGER_OVERFLOW, ULONG_MAX)

/-- The value `sizeof(WCHAR)`, also `sizeof(UNICODE_NULL)`. -/
def sizeof_WCHAR : Nat := 2

/-! ## Font loading -/

/-- The call `BlGetBootOptionString(BlpApplicationEntry.BcdData, Key, &Value)`. -/
def BlGetBootOptionString (E : Externals W) (s : State W) (Key : BcdKey) :
    (NTSTATUS × PWCHAR) × State W :=
  let r := E.BlGetBootOptionString s.World Key
  (r.1, s.step r.2 (Event.BlGetBootOptionString Key r.1.1 r.1.2))

/-- The call `BlGetBootOptionDevice(BlpApplicationEntry.BcdData, Key, &Value, NULL)`. -/
def BlGetBootOptionDevice (E : Externals W) (s : State W) (Key : BcdKey) :
    (NTSTATUS × PVOID) × State W :=
  let r := E.BlGetBootOptionDevice s.World Key
  (r.1, s.step r.2 (Event.BlGetBootOptionDevice Key r.1.1 r.1.2))

/-- The call `BfLoadFontFile(Device, FontPath)`; the path is passed by its characters. -/
def BfLoadFontFile (E : Externals W) (s : State W) (Device : PVOID) (FontPath : List WCHAR) :
    NTSTATUS × State W :=
  let r := E.BfLoadFontFile s.World Device FontPath
  (r.1, s.step r.2 (Event.BfLoadFontFile Device FontPath r.1))

/-- The routine `DsppGraphicsDisabledByBcd`. -/
def DsppGraphicsDisabledByBcd (E : Externals W) (s : State W) : Bool :=
  /- Get the boot option, and if present, return the result -/
  let r := E.BlGetBootOptionBoolean s.World BcdKey.BcdLibraryBoolean_GraphicsModeDisabled
  NT_SUCCESS r.1 && r.2

/-- The code of `DsppLoadFontFile` from the label `Quickie` on: the three conditional frees
and the return.  The return is recorded as one font load attempt. -/
def DsppLoadFontFile.Quickie (E : Externals W) (s : State W) (FontFileName : List WCHAR)
    (CustomDevice : Bool) (FontDevice : PVOID) (CustomDirectory : Bool)
    (FontDirectory : PWCHAR) (FontPath : PVOID) (Status : NTSTATUS) : NTSTATUS × State W :=
  /- Check if we had a custom font device allocated and free it -/
  let s1 := if CustomDevice = true ∧ FontDevice ≠ 0 then BlMmFreeHeap E s FontDevice else s
  /- Check if we had a custom font directory allocated and free it -/
  let s2 :=
    if FontDirectory.Pointer ≠ 0 ∧ CustomDirectory = true then
      BlMmFreeHeap E s1 FontDirectory.Pointer
    else s1
  /- Check if we had allocated a font path and free it -/
  let s3 := if FontPath ≠ 0 then BlMmFreeHeap E s2 FontPath else s2
  /- Return back -/
  (Status, s3.log (Event.DsppLoadFontFile FontFileName Status))

/-- The code of `DsppLoadFontFile` from the length computation to the load, once the
directory and the device are known. -/
def DsppLoadFontFile.Load (E : Externals W) (s : State W) (FontFileName : List WCHAR)
    (CustomDevice : Bool) (FontDevice : PVOID) (CustomDirectory : Bool)
    (FontDirectory : PWCHAR) : NTSTATUS × State W :=
  /- Figure out the length of the file name, and of the directory -/
  let NameLength := wcslen FontFileName % 2 ^ 32
  let DirectoryLength := wcslen FontDirectory.Chars % 2 ^ 32
  /- Safely add them up -/
  let a := RtlULongAdd NameLength DirectoryLength
  if NT_SUCCESS a.1 = false then
    DsppLoadFontFile.Quickie E s FontFileName CustomDevice FontDevice CustomDirectory
      FontDirectory 0 a.1
  else
    /- Convert to bytes -/
    let b := RtlULongLongToULong ((a.2 * sizeof_WCHAR) % 2 ^ E.SIZE_T_BITS)
    if NT_SUCCESS b.1 = false then
      DsppLoadFontFile.Quickie E s FontFileName CustomDevice FontDevice CustomDirectory
        FontDirectory 0 b.1
    else
      /- Add a terminating NUL -/
      let c := RtlULongAdd b.2 sizeof_WCHAR
      if NT_SUCCESS c.1 = false then
        DsppLoadFontFile.Quickie E s FontFileName CustomDevice FontDevice CustomDirectory
          FontDirectory 0 c.1
      else
        /- Allocate the final buffer for it -/
        let FontPath := BlMmAllocateHeap E s c.2
        if FontPath.1 = 0 then
          DsppLoadFontFile.Quickie E FontPath.2 FontFileName CustomDevice FontDevice
            CustomDirectory FontDirectory 0 STATUS_NO_MEMORY
        else
          /- Concatenate the directory with the file name, and try to load this font -/
          let l := BfLoadFontFile E FontPath.2 FontDevice (FontDirectory.Chars ++ FontFileName)
          DsppLoadFontFile.Quickie E l.2 FontFileName CustomDevice FontDevice CustomDirectory
            FontDirectory FontPath.1 l.1

/-- The routine `DsppLoadFontFile`. -/
def DsppLoadFontFile (E : Externals W) (s : State W) (FontFileName : List WCHAR) :
    NTSTATUS × State W :=
  /- Check if a custom font path should be used -/
  let o := BlGetBootOptionString E s BcdKey.BcdLibraryString_FontPath
  let CustomDirectory := NT_SUCCESS o.1.1
  /- Nope, use the one configured by the library -/
  let FontDirectory : PWCHAR :=
    if NT_SUCCESS o.1.1 = true then o.1.2 else (E.BlpLibraryParameters o.2.World).FontBaseDirectory
  /- Do we still not have a font directory? -/
  if FontDirectory.Pointer = 0 then
    /- Use the boot device and boot directory -/
    DsppLoadFontFile.Load E o.2 FontFileName false (E.BlpBootDevice o.2.World) CustomDirectory
      ⟨E.FontsDirectoryLiteral, L "\\EFI\\Microsoft\\Boot\\Fonts"⟩
  else
    /- Otherwise, if we have a font directory, what device is the app on? -/
    let d := BlGetBootOptionDevice E o.2 BcdKey.BcdLibraryDevice_ApplicationDevice
    if NT_SUCCESS d.1.1 = false then
      /- If we don't know the device, we can't open the path -/
      DsppLoadFontFile.Quickie E d.2 FontFileName true d.1.2 CustomDirectory FontDirectory 0
        d.1.1
    else
      DsppLoadFontFile.Load E d.2 FontFileName true d.1.2 CustomDirectory FontDirectory

/-- The font choice of `BlpDisplayRegisterLocale` for a locale of at least two characters:
the font file name and the value of `StandardLocale`. -/
def BlpDisplayRegisterLocale.FontFileName (Locale : List WCHAR) : List WCHAR × Bool :=
  /- Check the prefix first, then traditional vs. simplified -/
  let Prefix : List WCHAR := [Locale.getD 0 0, Locale.getD 1 0]
  if _wcsicmp Prefix (L "ja") = 0 then (L "\\jpn_boot.ttf", false)
  else if _wcsicmp Prefix (L "ko") = 0 then (L "\\kor_boot.ttf", false)
  else if _wcsicmp Locale (L "zh-CN") = 0 ∨ _wcsicmp Locale (L "zh-CHS") = 0 ∨
      _wcsicmp Locale (L "zh-Hans") = 0 then (L "\\chs_boot.ttf", false)
  else if _wcsicmp Locale (L "zh-TW") = 0 ∧ _wcsicmp Locale (L "zh-CHT") = 0 ∧
      _wcsicmp Locale (L "zh-HK") = 0 ∧ _wcsicmp Locale (L "zh-Hant") = 0 then
    (L "\\cht_boot.ttf", false)
  else (L "\\wgl4_boot.ttf", true)

/-- The call `RemoveEntryList(&DeferredFont->ListEntry)`: the entry is unlinked from the
deferred list. -/
def RemoveEntryList (s : State W) (DeferredFont : PVOID) : State W :=
  { s with BfiDeferredListHead := s.BfiDeferredListHead.erase DeferredFont }

/-- The call `BfiFreeDeferredFontFile(DeferredFont)`. -/
def BfiFreeDeferredFontFile (E : Externals W) (s : State W) (DeferredFont : PVOID) :
    State W :=
  s.step (E.BfiFreeDeferredFontFile s.World DeferredFont)
    (Event.BfiFreeDeferredFontFile DeferredFont)

/-- The loop of `BlpDisplayRegisterLocale` over the deferred fonts: `Entries` is the chain
from `NextEntry` to the list head; each pass moves to the next entry, removes the current
one and frees it. -/
def BlpDisplayRegisterLocale.Loop (E : Externals W) : List PVOID → State W → State W
  | [], s => s
  | DeferredFont :: NextEntry, s =>
    BlpDisplayRegisterLocale.Loop E NextEntry
      (BfiFreeDeferredFontFile E (RemoveEntryList s DeferredFont) DeferredFont)

/-- The routine `BlpDisplayRegisterLocale`. -/
def BlpDisplayRegisterLocale (E : Externals W) (s : State W) (Locale : List WCHAR) :
    NTSTATUS × State W :=
  /- Bail out if the locale string seems invalid -/
  if wcslen Locale < 2 then (STATUS_INVALID_PARAMETER, s)
  else
    let Font := BlpDisplayRegisterLocale.FontFileName Locale
    let StandardLocale := Font.2
    /- Parse all the currently deferred fonts -/
    let s1 := BlpDisplayRegisterLocale.Loop E s.BfiDeferredListHead s
    /- Load the primary font -/
    let r := DsppLoadFontFile E s1 Font.1
    if NT_SUCCESS r.1 = true ∧ StandardLocale = false then
      /- Also load the standard US one if we loaded a different one -/
      DsppLoadFontFile E r.2 (L "\\wgl4_boot.ttf")
    else
      /- Return back to caller -/
      r

/-! ## Console selection -/

/-- The ULONG operation `a | b`. -/
def ULONG_OR (a b : Nat) : Nat := (a ||| b) % 2 ^ 32

/-- The ULONG operation `a & b`. -/
def ULONG_AND (a b : Nat) : Nat := (a &&& b) % 2 ^ 32

/-- The ULONG operation `~a`. -/
def ULONG_NOT (a : Nat) : Nat := ULONG_MAX - a % 2 ^ 32

/-- The call `ConsoleGraphicalConstruct(GraphicsConsole)`. -/
def ConsoleGraphicalConstruct (E : Externals W) (s : State W) (Console : PVOID) :
    NTSTATUS × State W :=
  let r := E.ConsoleGraphicalConstruct s.World Console
  (r.1, s.step r.2 (Event.ConsoleGraphicalConstruct Console r.1))

/-- The call `ConsoleTextLocalConstruct(TextConsole, Activate)`. -/
def ConsoleTextLocalConstruct (E : Externals W) (s : State W) (Console : PVOID)
    (Activate : Bool) : NTSTATUS × State W :=
  let r := E.ConsoleTextLocalConstruct s.World Console Activate
  (r.1, s.step r.2 (Event.ConsoleTextLocalConstruct Console Activate r.1))

/-- The call `ConsoleCreateRemoteConsole(&Console)` on a NULL `Console`: the console it
stored there, NULL when it stored none. -/
def ConsoleCreateRemoteConsole (E : Externals W) (s : State W) : PVOID × State W :=
  let r := E.ConsoleCreateRemoteConsole s.World
  (r.1, s.step r.2 (Event.ConsoleCreateRemoteConsole r.1))

/-- Modelled from the spec: the call `ConsoleCreateLocalInputConsole()`, whose body is in
another file of the boot library; "ensure a local input console exists, creating one if
absent", so the console it creates is what the local-input slot holds afterwards (NULL when
it created none).  It is only called on a NULL slot. -/
def ConsoleCreateLocalInputConsole (E : Externals W) (s : State W) : State W :=
  let r := E.ConsoleCreateLocalInputConsole s.World
  { s with World := r.2, DspLocalInputConsole := r.1,
           Trace := s.Trace ++ [Event.ConsoleCreateLocalInputConsole r.1] }

/-- The callback `Console->Callbacks->Reinitialize(Console)`. -/
def Reinitialize (E : Externals W) (s : State W) (Console : PVOID) : NTSTATUS × State W :=
  let r := E.Reinitialize s.World Console
  (r.1, s.step r.2 (Event.Reinitialize Console r.1))

/-- The call `RtlFillMemory(GraphicsConsole->FrameBuffer, GraphicsConsole->FrameBufferSize,
Fill)`. -/
def RtlFillMemory (E : Externals W) (s : State W) (Console : PVOID) (Fill : Nat) : State W :=
  s.step (E.RtlFillMemory s.World Console Fill) (Event.RtlFillMemory Console Fill)

/-- The code of `DsppInitialize` under "Do we have a graphics console?": the text-only
console, built only when there is no graphics console; the value is the local
`TextConsole`. -/
def DsppInitialize.Text (E : Externals W) (s : State W) (GraphicsConsole : PVOID) :
    PVOID × State W :=
  /- Do we have a graphics console? -/
  if GraphicsConsole = 0 then
    /- Nope -- go allocate a text console -/
    let a := BlMmAllocateHeap E s E.sizeof_BL_TEXT_CONSOLE
    if a.1 ≠ 0 then
      /- Construct it -/
      let c := ConsoleTextLocalConstruct E a.2 a.1 true
      if NT_SUCCESS c.1 = false then (0, BlMmFreeHeap E c.2 a.1) else (a.1, c.2)
    else (0, a.2)
  else (0, s)

/-- The code of `DsppInitialize` from "Do we have a graphics console?" to its end: the
text-only console, the remote console and the installation in the slots. -/
def DsppInitialize.Install (E : Externals W) (s : State W) (GraphicsConsole : PVOID) :
    NTSTATUS × State W :=
  let t := DsppInitialize.Text E s GraphicsConsole
  let TextConsole := t.1
  /- Initialize all globals to NULL -/
  let s1 : State W :=
    { t.2 with DspRemoteInputConsole := 0, DspTextConsole := 0, DspGraphicalConsole := 0 }
  /- If we don't have a text console, go get a remote console -/
  let r : PVOID × State W :=
    if TextConsole = 0 then ConsoleCreateRemoteConsole E s1 else (0, s1)
  let RemoteConsole := r.1
  /- Do we have a remote console? -/
  if RemoteConsole = 0 then
    /- Nope -- what about a graphical one? -/
    if GraphicsConsole ≠ 0 then
      /- Yes, use it for both graphics and text -/
      (STATUS_SUCCESS,
        { r.2 with DspGraphicalConsole := GraphicsConsole, DspTextConsole := GraphicsConsole })
    else if TextConsole ≠ 0 then
      /- Nope, but we have a text console -/
      (STATUS_SUCCESS, { r.2 with DspTextConsole := TextConsole })
    else
      /- Console has been setup -/
      (STATUS_SUCCESS, r.2)
  else
    /- We have a remote console -- have to figure out how to use it -/
    (STATUS_NOT_SUPPORTED, EfiPrintf r.2 "Display path not handled\r\n")

/-- The code of `DsppInitialize` that builds the graphics console ("Do we need graphics mode
after all?"): the console, NULL when none was built. -/
def DsppInitialize.Graphics (E : Externals W) (s : State W) (NoGraphics : Bool) :
    PVOID × State W :=
  if NoGraphics = false then
    /- Yep -- go allocate it -/
    let a := BlMmAllocateHeap E s E.sizeof_BL_GRAPHICS_CONSOLE
    if a.1 ≠ 0 then
      /- Construct it -/
      let c := ConsoleGraphicalConstruct E a.2 a.1
      if NT_SUCCESS c.1 = false then
        (0, BlMmFreeHeap E (EfiPrintf c.2 "GFX FAILED: %lx\r\n") a.1)
      else
        /- TEST -/
        (a.1, RtlFillMemory E c.2 a.1 85)
    else (0, a.2)
  else (0, s)

/-- The start of `DsppInitialize`: the font data is initialised and the font rectangle
allocated. -/
def DsppInitialize.FontData (E : Externals W) (s : State W) : State W :=
  /- Initialize font data -/
  let s0 : State W :=
    { s with BfiCachedStrikeData := 0, BfiDeferredListHead := [], BfiFontFileListHead := [] }
  /- Allocate the font rectangle -/
  let a := BlMmAllocateHeap E s0 90
  { a.2 with BfiGraphicsRectangle := a.1 }

/-- The statement of `DsppInitialize` under "Mask out all the flags now". -/
def DsppInitialize.Mask (E : Externals W) (s : State W) : State W :=
  { s with ConsoleGraphicalResolutionListFlags :=
      (ULONG_AND s.ConsoleGraphicalResolutionListFlags
        (ULONG_NOT (ULONG_OR E.BL_DISPLAY_GRAPHICS_FORCED_VIDEO_MODE_FLAG
          E.BL_DISPLAY_GRAPHICS_FORCED_HIGH_RES_MODE_FLAG))) }

/-- The routine `DsppInitialize`. -/
def DsppInitialize (E : Externals W) (s : State W) (Flags : Nat) : NTSTATUS × State W :=
  let LibraryParameters := E.BlpLibraryParameters s.World
  let s1 := DsppInitialize.FontData E s
  if s1.BfiGraphicsRectangle = 0 then (STATUS_NO_MEMORY, s1)
  /- Display re-initialization not yet handled -/
  else if LibraryParameters.LibraryFlags &&& E.BL_LIBRARY_FLAG_REINITIALIZE_ALL ≠ 0 then
    (STATUS_NOT_SUPPORTED, EfiPrintf s1 "Display path not handled\r\n")
  else
    /- Check if no graphics console is needed -/
    let NoGraphics : Bool :=
      decide (Flags &&& E.BL_LIBRARY_FLAG_NO_GRAPHICS_CONSOLE ≠ 0) ||
        DsppGraphicsDisabledByBcd E s1
    /- On first load, we always initialize a graphics display -/
    if Flags &&& E.BL_LIBRARY_FLAG_REINITIALIZE_ALL = 0 ∨ NoGraphics = false then
      /- Default to mode 0 (1024x768) -/
      let DisplayMode : Nat := 0
      /- Check what resolution to use -/
      if NT_SUCCESS
          (E.BlGetBootOptionInteger s1.World BcdKey.BcdLibraryInteger_GraphicsResolution).1
          = true then
        (STATUS_NOT_IMPLEMENTED,
          EfiPrintf
            { s1 with ConsoleGraphicalResolutionListFlags :=
                (ULONG_OR s1.ConsoleGraphicalResolutionListFlags
                  E.BL_DISPLAY_GRAPHICS_FORCED_VIDEO_MODE_FLAG) }
            "Display selection not yet handled\r\n")
      /- Check if the highest mode should be forced -/
      else if NT_SUCCESS
          (E.BlGetBootOptionBoolean s1.World
            BcdKey.BcdLibraryBoolean_GraphicsForceHighestMode).1 = true then
        (STATUS_NOT_IMPLEMENTED,
          EfiPrintf
            { s1 with ConsoleGraphicalResolutionListFlags :=
                (ULONG_OR s1.ConsoleGraphicalResolutionListFlags
                  E.BL_DISPLAY_GRAPHICS_FORCED_HIGH_RES_MODE_FLAG) }
            "High res mode not yet handled\r\n")
      else
        /- Do we need graphics mode after all? -/
        let g := DsppInitialize.Graphics E s1 NoGraphics
        /- Are we using something else than the default mode? -/
        if DisplayMode ≠ 0 then
          (STATUS_NOT_SUPPORTED, EfiPrintf g.2 "Display path not handled\r\n")
        else
          /- Mask out all the flags now -/
          DsppInitialize.Install E (DsppInitialize.Mask E g.2) g.1
    else DsppInitialize.Install E s1 0

/-- The code of `DsppReinitialize` from "Check if the force highest mode setting is present"
to its end; `Status` is the status held when it is reached. -/
def DsppReinitialize.HighestMode (E : Externals W) (s : State W) (Status : NTSTATUS) :
    NTSTATUS × State W :=
  /- Check if the force highest mode setting is present -/
  if E.MiscGetBootOption s.World BcdKey.BcdLibraryBoolean_GraphicsForceHighestMode ≠ 0 then
    /- Check what it's set to -/
    let h := E.BlGetBootOptionBoolean s.World BcdKey.BcdLibraryBoolean_GraphicsForceHighestMode
    if NT_SUCCESS h.1 = true ∧ h.2 = true then
      /- Remember that high rest mode is being forced -/
      let f1 := ULONG_OR s.ConsoleGraphicalResolutionListFlags
        E.BL_DISPLAY_GRAPHICS_FORCED_HIGH_RES_MODE_FLAG
      /- All done now -/
      let f2 := ULONG_OR f1 (ULONG_NOT E.BL_DISPLAY_GRAPHICS_FORCED_HIGH_RES_MODE_FLAG)
      (STATUS_NOT_IMPLEMENTED,
        EfiPrintf { s with ConsoleGraphicalResolutionListFlags := f2 }
          "High res mode not yet handled\r\n")
    else (h.1, s)
  else
    /- Return back to the caller -/
    (Status, s)

/-- The code of `DsppReinitialize` from "Check if graphics are disabled in the BCD" to its
end, reached with an enabled graphics console and the full re-initialization flag. -/
def DsppReinitialize.Apply (E : Externals W) (s : State W) (GraphicsConsole : PVOID) :
    NTSTATUS × State W :=
  /- Check if graphics are disabled in the BCD -/
  let e : NTSTATUS × State W :=
    if DsppGraphicsDisabledByBcd E s = true then
      /- Turn off the graphics console, switching back to text mode -/
      Enable E s GraphicsConsole false
    else (STATUS_SUCCESS, s)
  /- Check if a custom graphics resolution is set -/
  if E.MiscGetBootOption e.2.World BcdKey.BcdLibraryInteger_GraphicsResolution ≠ 0 then
    /- Check what it's set to -/
    let i := E.BlGetBootOptionInteger e.2.World BcdKey.BcdLibraryInteger_GraphicsResolution
    if NT_SUCCESS i.1 = false then (i.1, e.2)
    else
      /- Now check our current graphical resolution -/
      let c := GetGraphicalResolution E e.2 GraphicsConsole
      if NT_SUCCESS c.1.1 = false then (c.1.1, c.2)
      else
        /- Remember that we're forcing a video mode -/
        let s1 : State W :=
          { c.2 with ConsoleGraphicalResolutionListFlags :=
              (ULONG_OR c.2.ConsoleGraphicalResolutionListFlags
                E.BL_DISPLAY_GRAPHICS_FORCED_VIDEO_MODE_FLAG) }
        /- Check which resolution to set -/
        if i.2 = 0 then
          /- 1024x768 -/
          (STATUS_NOT_IMPLEMENTED, EfiPrintf s1 "Display selection not yet handled\r\n")
        else if i.2 = 1 then
          /- 800x600 -/
          (STATUS_NOT_IMPLEMENTED, EfiPrintf s1 "Display selection not yet handled\r\n")
        else if i.2 = 2 then
          /- 1024x600 -/
          (STATUS_NOT_IMPLEMENTED, EfiPrintf s1 "Display selection not yet handled\r\n")
        else DsppReinitialize.HighestMode E s1 c.1.1
  else DsppReinitialize.HighestMode E e.2 e.1

/-- The start of `DsppReinitialize`, up to "All good for now": the local input console is
created when the slot is NULL, and a remote console is asked for when a graphics console is
present without one; the value is the local `TextConsole`. -/
def DsppReinitialize.Consoles (E : Externals W) (s : State W) : PVOID × State W :=
  /- Do we have local input yet? -/
  let s1 : State W :=
    if s.DspLocalInputConsole = 0 then
      /- Create it now -/
      ConsoleCreateLocalInputConsole E s
    else s
  /- If a graphics console is present without a remote console... -/
  if s1.DspRemoteInputConsole = 0 ∧ s1.DspGraphicalConsole ≠ 0 then
    /- Try to create a remote console -/
    ConsoleCreateRemoteConsole E s1
  else (0, s1)

/-- The routine `DsppReinitialize`. -/
def DsppReinitialize (E : Externals W) (s : State W) (Flags : Nat) : NTSTATUS × State W :=
  let t := DsppReinitialize.Consoles E s
  let TextConsole := t.1
  /- Now check if we were able to create the remote console -/
  if TextConsole ≠ 0 then
    (STATUS_NOT_IMPLEMENTED, EfiPrintf t.2 "EMS not supported\r\n")
  else
    /- Set a local for the right cast -/
    let GraphicsConsole := t.2.DspGraphicalConsole
    /- Nothing to do without a graphics console being reinitialized -/
    if Flags &&& E.BL_LIBRARY_FLAG_REINITIALIZE_ALL = 0 ∨ GraphicsConsole = 0 ∨
        IsEnabled E t.2 GraphicsConsole = false then
      (STATUS_SUCCESS, EfiPrintf t.2 "Nothing to do for re-init\r\n")
    else DsppReinitialize.Apply E t.2 GraphicsConsole

/-- The routine `BlpDisplayReinitialize`; `Status` is the value its uninitialised local
`Status` holds on entry. -/
def BlpDisplayReinitialize (E : Externals W) (s : State W) (Status : NTSTATUS) :
    NTSTATUS × State W :=
  /- Do we have a local console? -/
  let InputConsole := s.DspLocalInputConsole
  let i : NTSTATUS × State W :=
    if InputConsole ≠ 0 then
      /- Reinitialize it -/
      Reinitialize E s InputConsole
    else (Status, s)
  if InputConsole ≠ 0 ∧ NT_SUCCESS i.1 = false then i
  else
    /- Do we have a text console? -/
    let TextConsole := i.2.DspTextConsole
    if TextConsole ≠ 0 then
      /- Reinitialize it -/
      Reinitialize E i.2 TextConsole
    else
      /- Return status -/
      i

/-- The routine `BlpDisplayInitialize`; `Status` is the value the uninitialised local of
`BlpDisplayReinitialize` holds when that routine is entered. -/
def BlpDisplayInitialize (E : Externals W) (s : State W) (Flags : Nat) (Status : NTSTATUS) :
    NTSTATUS × State W :=
  /- Are we resetting or initializing? -/
  if Flags &&& E.BL_LIBRARY_FLAG_REINITIALIZE ≠ 0 then
    /- This is a reset -/
    let r := DsppReinitialize E s Flags
    if NT_SUCCESS r.1 = true then
      /- Re-initialize the class as well -/
      BlpDisplayReinitialize E r.2 Status
    else r
  else
    /- Initialize the display -/
    DsppInitialize E s Flags

/-! ## The display facade -/

/-- The routine `BlDisplaySetScreenResolution`. -/
def BlDisplaySetScreenResolution (E : Externals W) (s : State W) : NTSTATUS × State W :=
  /- We should've now fallen back to text mode -/
  let Fallback : NTSTATUS × State W :=
    if s.DspTextConsole = 0 then
      /- Then fail, as no display appears active -/
      (STATUS_UNSUCCESSFUL, s)
    else
      /- Assume success -/
      (STATUS_SUCCESS, s)
  /- Do we have a graphics console? -/
  let Console := s.DspGraphicalConsole
  if Console ≠ 0 then
    /- Is it currently active? -/
    if IsEnabled E s Console = true then
      /- If so, disable it -/
      Enable E s Console false
    else Fallback
  else Fallback

/-- The routine `BlDisplayGetScreenResolution`; `HRes` and `VRes` are the contents of the
two output cells before the call, the result carries their contents after it. -/
def BlDisplayGetScreenResolution (E : Externals W) (s : State W) (HRes VRes : Nat) :
    NTSTATUS × (Nat × Nat) × State W :=
  /- Do we have a text console? -/
  if s.DspTextConsole ≠ 0 then
    /- Do we have an active graphics console? -/
    let GraphicsConsole := s.DspGraphicalConsole
    if GraphicsConsole ≠ 0 ∧ IsEnabled E s GraphicsConsole = true then
      /- Get the resolution -/
      let r := GetGraphicalResolution E s GraphicsConsole
      if NT_SUCCESS r.1.1 = true then (r.1.1, (r.1.2.HRes, r.1.2.VRes), r.2)
      else (r.1.1, (HRes, VRes), r.2)
    else
      /- Return defaults -/
      (STATUS_SUCCESS, (640, 200), s)
  else
    /- Assume failure if no consoles are active -/
    (STATUS_UNSUCCESSFUL, (HRes, VRes), s)

/-- The routine `BlDisplayGetTextCellResolution`; an output pointer is `none` when NULL, and
otherwise the content of the cell it points to. -/
def BlDisplayGetTextCellResolution (E : Externals W) (s : State W)
    (TextWidth TextHeight : Option Nat) : (Option Nat × Option Nat) × State W :=
  /- If the caller doesn't want anything, bail out -/
  if TextWidth = none ∨ TextHeight = none then ((TextWidth, TextHeight), s)
  else
    let r : NTSTATUS × State W :=
      /- Do we have a text console? -/
      if s.DspTextConsole ≠ 0 then
        /- Do we have a graphics console? -/
        let GraphicsConsole := s.DspGraphicalConsole
        if GraphicsConsole ≠ 0 then
          /- Is it currently active? -/
          if IsEnabled E s GraphicsConsole = true then
            /- Yep -- query it -/
            (STATUS_NOT_IMPLEMENTED, EfiPrintf s "GFX active, not supported query\r\n")
          else (STATUS_UNSUCCESSFUL, s)
        else (STATUS_UNSUCCESSFUL, s)
      else (STATUS_UNSUCCESSFUL, s)
    /- Check if we failed to get it from the graphics console -/
    if NT_SUCCESS r.1 = true then ((TextWidth, TextHeight), r.2)
    else
      /- Set default text size -/
      ((some 8, some 8), r.2)

/-! ## A concrete firmware to run the routines on -/

/-- The world of a small firmware: whether its graphics console is enabled, and the next
heap address it hands out. -/
structure Firmware where
  GraphicsEnabled : Bool
  NextBlock : Nat
deriving DecidableEq, Repr

/-- Collaborators over `Firmware`: the masks are those of `bl.h`, no boot option is set, the
heap hands out consecutive blocks, construction and font loads succeed, no remote console
exists, and `Enable` switches the graphics console and succeeds. -/
def Firmware.Env : Externals Firmware where
  BL_LIBRARY_FLAG_REINITIALIZE := 2
  BL_LIBRARY_FLAG_REINITIALIZE_ALL := 4
  BL_LIBRARY_FLAG_NO_GRAPHICS_CONSOLE := 2048
  BL_DISPLAY_GRAPHICS_FORCED_VIDEO_MODE_FLAG := 1
  BL_DISPLAY_GRAPHICS_FORCED_HIGH_RES_MODE_FLAG := 2
  sizeof_BL_GRAPHICS_CONSOLE := 128
  sizeof_BL_TEXT_CONSOLE := 64
  SIZE_T_BITS := 64
  FontsDirectoryLiteral := 4096
  BlpLibraryParameters := fun _ => ⟨0, ⟨0, []⟩⟩
  BlpBootDevice := fun _ => 8192
  BlGetBootOptionBoolean := fun _ _ => (STATUS_UNSUCCESSFUL, false)
  BlGetBootOptionInteger := fun _ _ => (STATUS_UNSUCCESSFUL, 0)
  BlGetBootOptionString := fun w _ => ((STATUS_UNSUCCESSFUL, ⟨0, []⟩), w)
  BlGetBootOptionDevice := fun w _ => ((STATUS_UNSUCCESSFUL, 0), w)
  MiscGetBootOption := fun _ _ => 0
  BlMmAllocateHeap := fun w _ => (w.NextBlock, { w with NextBlock := w.NextBlock + 1 })
  BlMmFreeHeap := fun w _ => w
  ConsoleGraphicalConstruct := fun w _ => (STATUS_SUCCESS, { w with GraphicsEnabled := true })
  ConsoleTextLocalConstruct := fun w _ _ => (STATUS_SUCCESS, w)
  ConsoleCreateRemoteConsole := fun w => (0, w)
  ConsoleCreateLocalInputConsole := fun w => (w.NextBlock, { w with NextBlock := w.NextBlock + 1 })
  RtlFillMemory := fun w _ _ => w
  IsEnabled := fun w _ => w.GraphicsEnabled
  Enable := fun w _ On => (STATUS_SUCCESS, { w with GraphicsEnabled := On })
  GetGraphicalResolution := fun _ _ => (STATUS_SUCCESS, ⟨1024, 768, 1024⟩)
  Reinitialize := fun w _ => (STATUS_SUCCESS, w)
  BfLoadFontFile := fun w _ _ => (STATUS_SUCCESS, w)
  BfiFreeDeferredFontFile := fun w _ => w

/-- The state before any routine ran: every slot NULL, both lists empty, no call made; the
heap starts at address 16. -/
def Firmware.Boot : State Firmware where
  World := ⟨false, 16⟩
  BfiCachedStrikeData := 0
  BfiDeferredListHead := []
  BfiFontFileListHead := []
  BfiGraphicsRectangle := 0
  ConsoleGraphicalResolutionListFlags := 0
  DspRemoteInputConsole := 0
  DspTextConsole := 0
  DspGraphicalConsole := 0
  DspLocalInputConsole := 0
  Trace := []

/-- A state with an enabled graphics console at address 17 and nothing in the text slot. -/
def Firmware.GraphicsOnly : State Firmware :=
  { Firmware.Boot with World := ⟨true, 18⟩, DspGraphicalConsole := 17 }

/-- A state with an enabled graphics console at address 17 that also backs text output. -/
def Firmware.GraphicsActive : State Firmware :=
  { Firmware.Boot with World := ⟨true, 18⟩, DspGraphicalConsole := 17, DspTextConsole := 17 }

/-- A state with only a text console, at address 17. -/
def Firmware.TextOnly : State Firmware :=
  { Firmware.Boot with World := ⟨false, 18⟩, DspTextConsole := 17 }

/-- Collaborators whose graphics console refuses to be switched: `Enable` fails with
STATUS_NOT_SUPPORTED and changes nothing. -/
def Firmware.EnableFails : Externals Firmware :=
  { Firmware.Env with Enable := fun w _ _ => (STATUS_NOT_SUPPORTED, w) }

/-- Collaborators whose graphics console cannot report its resolution. -/
def Firmware.ResolutionFails : Externals Firmware :=
  { Firmware.Env with
    GetGraphicalResolution := fun _ _ => (STATUS_NOT_SUPPORTED, ⟨0, 0, 0⟩) }

/-- Collaborators whose font subsystem cannot load any file. -/
def Firmware.LoadFails : Externals Firmware :=
  { Firmware.Env with BfLoadFontFile := fun w _ _ => (STATUS_NO_MEMORY, w) }

/-- A state with two entries, at 40 and 41, waiting on the deferred-font list. -/
def Firmware.Pending : State Firmware :=
  { Firmware.Boot with BfiDeferredListHead := [40, 41] }

/-- Collaborators on which a remote console can be created, at address 99. -/
def Firmware.RemoteAvailable : Externals Firmware :=
  { Firmware.Env with ConsoleCreateRemoteConsole := fun w => (99, w) }

/-- Collaborators whose graphics console cannot be constructed. -/
def Firmware.GraphicsFails : Externals Firmware :=
  { Firmware.Env with ConsoleGraphicalConstruct := fun w _ => (STATUS_UNSUCCESSFUL, w) }

/-- A state with an enabled graphics console at 17 backing text output and a local input
console at 9. -/
def Firmware.Running : State Firmware :=
  { Firmware.GraphicsActive with DspLocalInputConsole := 9 }

/-- A state with a text console at 17, a local input console at 9, and no graphics. -/
def Firmware.RunningText : State Firmware :=
  { Firmware.TextOnly with DspLocalInputConsole := 9 }

/-! ## Reading the trace -/

/-- The font load attempt an event records, when it is the return of `DsppLoadFontFile`: the
font file name and the status returned. -/
def Event.FontLoadAttempt : Event → Option (List WCHAR × NTSTATUS)
  | Event.DsppLoadFontFile FontFileName Status => some (FontFileName, Status)
  | _ => none

/-- The font load attempts of a trace, in order. -/
def FontLoadAttempts (Trace : List Event) : List (List WCHAR × NTSTATUS) :=
  Trace.filterMap Event.FontLoadAttempt

/-- The deferred font an event frees, when it is a call of `BfiFreeDeferredFontFile`. -/
def Event.DeferredFree : Event → Option PVOID
  | Event.BfiFreeDeferredFontFile DeferredFont => some DeferredFont
  | _ => none

/-- The deferred fonts freed in a trace, in order. -/
def DeferredFrees (Trace : List Event) : List PVOID :=
  Trace.filterMap Event.DeferredFree

/-- Two strings are equal ignoring case: they have the same characters once the letters
A to Z are lowered. -/
def EqualIgnoringCase (a b : List Nat) : Prop := a.map towlower = b.map towlower

instance (a b : List Nat) : Decidable (EqualIgnoringCase a b) := by
  unfold EqualIgnoringCase; infer_instance

/-- The buffer an event frees, when it is a call of `BlMmFreeHeap`. -/
def Event.HeapFree : Event → Option PVOID
  | Event.BlMmFreeHeap Buffer => some Buffer
  | _ => none

/-- The buffers freed with `BlMmFreeHeap` in a trace, in order. -/
def HeapFrees (Trace : List Event) : List PVOID :=
  Trace.filterMap Event.HeapFree

/-- The buffer an event allocates, when it is a call of `BlMmAllocateHeap` that did not
return NULL. -/
def Event.HeapAllocation : Event → Option PVOID
  | Event.BlMmAllocateHeap _ Result => if Result = 0 then none else some Result
  | _ => none

/-- The buffers `BlMmAllocateHeap` handed out in a trace, in order. -/
def HeapAllocations (Trace : List Event) : List PVOID :=
  Trace.filterMap Event.HeapAllocation

/-- The load an event asks of the font subsystem, when it is a call of `BfLoadFontFile`:
the device, the path and the status returned. -/
def Event.FontFileLoad : Event → Option (PVOID × List WCHAR × NTSTATUS)
  | Event.BfLoadFontFile Device FontPath Status => some (Device, FontPath, Status)
  | _ => none

/-- The calls of `BfLoadFontFile` in a trace, in order. -/
def FontFileLoads (Trace : List Event) : List (PVOID × List WCHAR × NTSTATUS) :=
  Trace.filterMap Event.FontFileLoad

/-- The device an event looks up, when it is a call of `BlGetBootOptionDevice`. -/
def Event.DeviceLookup : Event → Option (NTSTATUS × PVOID)
  | Event.BlGetBootOptionDevice _ Status Value => some (Status, Value)
  | _ => none

/-- The calls of `BlGetBootOptionDevice` in a trace, in order. -/
def DeviceLookups (Trace : List Event) : List (NTSTATUS × PVOID) :=
  Trace.filterMap Event.DeviceLookup

/-- The console an event enables or disables, when it is a call of the `Enable` callback. -/
def Event.EnableCall : Event → Option (PVOID × Bool × NTSTATUS)
  | Event.Enable Console On Status => some (Console, On, Status)
  | _ => none

/-- The calls of the `Enable` callback in a trace, in order. -/
def EnableCalls (Trace : List Event) : List (PVOID × Bool × NTSTATUS) :=
  Trace.filterMap Event.EnableCall

/-- From state `s` to the result `r`, `BfLoadFontFile` was called at most once: either not
at all, and then `r` is a failure; or once, for `Path` on `Device`, and then the status of
`r` is the status of that call. -/
def LoadsOnly (s : State W) (r : NTSTATUS × State W) (Device : PVOID) (Path : List WCHAR) :
    Prop :=
  (FontFileLoads r.2.Trace = FontFileLoads s.Trace ∧ NT_SUCCESS r.1 = false) ∨
    FontFileLoads r.2.Trace = FontFileLoads s.Trace ++ [(Device, Path, r.1)]

/-- Every bit of `Mask` that fits a ULONG is set in `Flags`. -/
def BitsSet (Flags Mask : Nat) : Prop := ULONG_AND Flags Mask = Mask % 2 ^ 32

/-- No bit of `Mask` is set in `Flags`. -/
def BitsClear (Flags Mask : Nat) : Prop := ULONG_AND Flags Mask = 0

instance (Flags Mask : Nat) : Decidable (BitsSet Flags Mask) := by
  unfold BitsSet; infer_instance

instance (Flags Mask : Nat) : Decidable (BitsClear Flags Mask) := by
  unfold BitsClear; infer_instance

/-- The first step of `DsppReinitialize.Apply`, "Check if graphics are disabled in the
BCD": the status held after it, and the state. -/
def DsppReinitialize.Disable (E : Externals W) (s : State W) (GraphicsConsole : PVOID) :
    NTSTATUS × State W :=
  if DsppGraphicsDisabledByBcd E s = true then
    /- Turn off the graphics console, switching back to text mode -/
    Enable E s GraphicsConsole false
  else (STATUS_SUCCESS, s)

/-- The value of `NoGraphics` in `DsppInitialize`, computed once the font rectangle is
allocated. -/
def DsppInitialize.NoGraphics (E : Externals W) (s : State W) (Flags : Nat) : Bool :=
  decide (Flags &&& E.BL_LIBRARY_FLAG_NO_GRAPHICS_CONSOLE ≠ 0) ||
    DsppGraphicsDisabledByBcd E (DsppInitialize.FontData E s)

/-- What the exit code of `DsppLoadFontFile` frees before the path: the device when it is
custom and not NULL, then the directory when it is not NULL and custom. -/
def DsppLoadFontFile.Released (CustomDevice : Bool) (FontDevice : PVOID)
    (CustomDirectory : Bool) (FontDirectory : PWCHAR) : List PVOID :=
  (if CustomDevice = true ∧ FontDevice ≠ 0 then [FontDevice] else []) ++
    (if FontDirectory.Pointer ≠ 0 ∧ CustomDirectory = true then [FontDirectory.Pointer]
      else [])

/-- The first call of `DsppLoadFontFile`, "Check if a custom font path should be used":
the status, the string and the state after it. -/
def DsppLoadFontFile.FontPathOption (E : Externals W) (s : State W) :
    (NTSTATUS × PWCHAR) × State W :=
  BlGetBootOptionString E s BcdKey.BcdLibraryString_FontPath

/-- The directory `DsppLoadFontFile` reads from the library parameters when the font path
option is absent, `LibraryParameters.FontBaseDirectory`. -/
def DsppLoadFontFile.LibraryDirectory (E : Externals W) (s : State W) : PWCHAR :=
  (E.BlpLibraryParameters (DsppLoadFontFile.FontPathOption E s).2.World).FontBaseDirectory

/-- The second lookup of `DsppLoadFontFile`, "what device is the app on?", made after the
font path lookup: the status, the device and the state after it. -/
def DsppLoadFontFile.ApplicationDevice (E : Externals W) (s : State W) :
    (NTSTATUS × PVOID) × State W :=
  BlGetBootOptionDevice E (DsppLoadFontFile.FontPathOption E s).2
    BcdKey.BcdLibraryDevice_ApplicationDevice

/-- The device `DsppLoadFontFile` borrows when it has no directory, `BlpBootDevice`. -/
def DsppLoadFontFile.BootDevice (E : Externals W) (s : State W) : PVOID :=
  E.BlpBootDevice (DsppLoadFontFile.FontPathOption E s).2.World

/-- Modelled from the spec: the contract of the option lookups that `DsppLoadFontFile`
relies on, "GetString(key) -> (ownedString, present)" and "GetDevice(key) -> (device,
present)": a string lookup that succeeds yields a string, and a device lookup yields a
device exactly when it succeeds (the output stays NULL on failure). -/
def OptionContract (E : Externals W) : Prop :=
  (∀ w k, NT_SUCCESS (E.BlGetBootOptionString w k).1.1 = true →
    (E.BlGetBootOptionString w k).1.2.Pointer ≠ 0) ∧
  (∀ w k, NT_SUCCESS (E.BlGetBootOptionDevice w k).1.1 = true ↔
    (E.BlGetBootOptionDevice w k).1.2 ≠ 0)

/-- Collaborators with the graphics resolution option set to `Value`. -/
def Firmware.ResolutionOption (Value : Nat) : Externals Firmware :=
  { Firmware.Env with
    MiscGetBootOption := fun _ k =>
      if k = BcdKey.BcdLibraryInteger_GraphicsResolution then 300 else 0
    BlGetBootOptionInteger := fun _ k =>
      if k = BcdKey.BcdLibraryInteger_GraphicsResolution then (STATUS_SUCCESS, Value)
      else (STATUS_UNSUCCESSFUL, 0) }

/-- Collaborators with the force-highest-mode option set to `Value`. -/
def Firmware.HighestOption (Value : Bool) : Externals Firmware :=
  { Firmware.Env with
    MiscGetBootOption := fun _ k =>
      if k = BcdKey.BcdLibraryBoolean_GraphicsForceHighestMode then 301 else 0
    BlGetBootOptionBoolean := fun _ k =>
      if k = BcdKey.BcdLibraryBoolean_GraphicsForceHighestMode then (STATUS_SUCCESS, Value)
      else (STATUS_UNSUCCESSFUL, false) }

/-- Collaborators whose BCD disables graphics and whose graphics console refuses to be
switched off; no other option is set. -/
def Firmware.Disabled : Externals Firmware :=
  { Firmware.Env with
    BlGetBootOptionBoolean := fun _ k =>
      if k = BcdKey.BcdLibraryBoolean_GraphicsModeDisabled then (STATUS_SUCCESS, true)
      else (STATUS_UNSUCCESSFUL, false)
    Enable := fun w _ _ => (STATUS_NOT_SUPPORTED, w) }

/-- Collaborators whose BCD disables graphics and sets the force-highest-mode option to
false, and whose graphics console refuses to be switched off. -/
def Firmware.DisabledHighestOff : Externals Firmware :=
  { Firmware.Env with
    MiscGetBootOption := fun _ k =>
      if k = BcdKey.BcdLibraryBoolean_GraphicsForceHighestMode then 301 else 0
    BlGetBootOptionBoolean := fun _ k =>
      if k = BcdKey.BcdLibraryBoolean_GraphicsModeDisabled then (STATUS_SUCCESS, true)
      else if k = BcdKey.BcdLibraryBoolean_GraphicsForceHighestMode then
        (STATUS_SUCCESS, false)
      else (STATUS_UNSUCCESSFUL, false)
    Enable := fun w _ _ => (STATUS_NOT_SUPPORTED, w) }

/-- Collaborators with the font path option set to the string `\Fonts` at 5000 and the
application device option set to the device at 6000. -/
def Firmware.CustomFonts : Externals Firmware :=
  { Firmware.Env with
    BlGetBootOptionString := fun w _ => ((STATUS_SUCCESS, ⟨5000, L "\\Fonts"⟩), w)
    BlGetBootOptionDevice := fun w _ => ((STATUS_SUCCESS, 6000), w) }

/-- Collaborators with the library font directory `\Lib` at 7000 and the application device
option set to the device at 6000. -/
def Firmware.LibraryFonts : Externals Firmware :=
  { Firmware.Env with
    BlpLibraryParameters := fun _ => ⟨0, ⟨7000, L "\\Lib"⟩⟩
    BlGetBootOptionDevice := fun w _ => ((STATUS_SUCCESS, 6000), w) }

/-- Collaborators with the library font directory `\Lib` at 7000 and no application device
option. -/
def Firmware.LibraryFontsNoDevice : Externals Firmware :=
  { Firmware.Env with BlpLibraryParameters := fun _ => ⟨0, ⟨7000, L "\\Lib"⟩⟩ }

/-- Collaborators with the graphics resolution option set to 3, a value with no catalog
entry, and the force-highest-mode option set to true. -/
def Firmware.ResolutionBeyond : Externals Firmware :=
  { Firmware.Env with
    MiscGetBootOption := fun _ k =>
      if k = BcdKey.BcdLibraryInteger_GraphicsResolution then 300
      else if k = BcdKey.BcdLibraryBoolean_GraphicsForceHighestMode then 301 else 0
    BlGetBootOptionInteger := fun _ k =>
      if k = BcdKey.BcdLibraryInteger_GraphicsResolution then (STATUS_SUCCESS, 3)
      else (STATUS_UNSUCCESSFUL, 0)
    BlGetBootOptionBoolean := fun _ k =>
      if k = BcdKey.BcdLibraryBoolean_GraphicsForceHighestMode then (STATUS_SUCCESS, true)
      else (STATUS_UNSUCCESSFUL, false) }

/-! ## Sequences of calls -/

/-- One call into `display.c` from the rest of the boot library, with its arguments.  For
`BlpDisplayInitialize`, `Status` is the value the uninitialised local of
`BlpDisplayReinitialize` holds; for the two queries the arguments are the contents of the
output cells before the call. -/
inductive Call where
  | BlpDisplayInitialize (Flags : Nat) (Status : NTSTATUS)
  | BlpDisplayRegisterLocale (Locale : List WCHAR)
  | BlDisplaySetScreenResolution
  | BlDisplayGetScreenResolution (HRes VRes : Nat)
  | BlDisplayGetTextCellResolution (TextWidth TextHeight : Option Nat)
deriving DecidableEq, Repr

/-- The display state after one call. -/
def Call.run (E : Externals W) (s : State W) : Call → State W
  | Call.BlpDisplayInitialize Flags Status => (Display.BlpDisplayInitialize E s Flags Status).2
  | Call.BlpDisplayRegisterLocale Locale => (Display.BlpDisplayRegisterLocale E s Locale).2
  | Call.BlDisplaySetScreenResolution => (Display.BlDisplaySetScreenResolution E s).2
  | Call.BlDisplayGetScreenResolution HRes VRes =>
    (Display.BlDisplayGetScreenResolution E s HRes VRes).2.2
  | Call.BlDisplayGetTextCellResolution TextWidth TextHeight =>
    (Display.BlDisplayGetTextCellResolution E s TextWidth TextHeight).2

/-- The display state after a sequence of calls, first call first. -/
def Calls (E : Externals W) (s : State W) (Sequence : List Call) : State W :=
  Sequence.foldl (Call.run E) s

/-- The four console slots are NULL. -/
def AllNull (s : State W) : Prop :=
  s.DspTextConsole = 0 ∧ s.DspGraphicalConsole = 0 ∧ s.DspRemoteInputConsole = 0 ∧
    s.DspLocalInputConsole = 0

instance (s : State W) : Decidable (AllNull s) := by
  unfold AllNull; infer_instance

/-- The text slot holds a text console of its own: the object in it was constructed by a
successful call of `ConsoleTextLocalConstruct`, as an active console. -/
def TextStandalone (s : State W) : Prop :=
  ∃ Status, NT_SUCCESS Status = true ∧
    Event.ConsoleTextLocalConstruct s.DspTextConsole true Status ∈ s.Trace

/-- The relation between the slots that the routines of `display.c` maintain: a graphics
console in the graphics slot is also in the text slot; with a NULL graphics slot the text
slot is NULL or holds a text console of its own. -/
def SlotsAgree (s : State W) : Prop :=
  (s.DspGraphicalConsole ≠ 0 → s.DspTextConsole = s.DspGraphicalConsole) ∧
  (s.DspGraphicalConsole = 0 → s.DspTextConsole = 0 ∨ TextStandalone s)

/-- From `s` to `t` the text and graphics slots are unchanged and the trace has only
grown. -/
def Keeps (s t : State W) : Prop :=
  t.DspTextConsole = s.DspTextConsole ∧ t.DspGraphicalConsole = s.DspGraphicalConsole ∧
    s.Trace <+: t.Trace

/-- A session that uses each of the five routines once: a first initialization, the locale
`en-US`, a switch back to text mode, and the two queries. -/
def Firmware.Session : List Call :=
  [Call.BlpDisplayInitialize 0 0, Call.BlpDisplayRegisterLocale (L "en-US"),
    Call.BlDisplaySetScreenResolution, Call.BlDisplayGetScreenResolution 0 0,
    Call.BlDisplayGetTextCellResolution (some 0) (some 0)]

/-! ## The display facade: theorems -/

/-- C1, as stated, fails.  With an enabled graphics console at 17, a NULL text slot and an
`Enable` that succeeds, `BlDisplaySetScreenResolution` returns STATUS_SUCCESS, not
STATUS_UNSUCCESSFUL; with the text slot filled and an `Enable` that fails with
STATUS_NOT_SUPPORTED, it returns that failure, not STATUS_SUCCESS. -/
theorem BlDisplaySetScreenResolution_counterexample :
    (Firmware.GraphicsOnly.DspGraphicalConsole ≠ 0 ∧
      IsEnabled Firmware.Env Firmware.GraphicsOnly 17 = true ∧
      Firmware.GraphicsOnly.DspTextConsole = 0 ∧
      (BlDisplaySetScreenResolution Firmware.Env Firmware.GraphicsOnly).1
        ≠ STATUS_UNSUCCESSFUL) ∧
    (Firmware.GraphicsActive.DspGraphicalConsole ≠ 0 ∧
      IsEnabled Firmware.EnableFails Firmware.GraphicsActive 17 = true ∧
      Firmware.GraphicsActive.DspTextConsole ≠ 0 ∧
      (BlDisplaySetScreenResolution Firmware.EnableFails Firmware.GraphicsActive).1
        ≠ STATUS_SUCCESS) := by
  decide

/-- C1, amended.  In every state whose graphics console is installed and reports enabled,
`BlDisplaySetScreenResolution` makes exactly one call, `Enable(Console, FALSE)` on that
console, and returns the status of that call, whatever the text slot holds; the slots are
left as they were.  In every other state it makes no call, changes nothing, and returns
STATUS_UNSUCCESSFUL for a NULL text slot and STATUS_SUCCESS otherwise. -/
theorem BlDisplaySetScreenResolution_spec (E : Externals W) (s : State W) :
    (s.DspGraphicalConsole ≠ 0 → IsEnabled E s s.DspGraphicalConsole = true →
      (BlDisplaySetScreenResolution E s).1 = (E.Enable s.World s.DspGraphicalConsole false).1 ∧
      (BlDisplaySetScreenResolution E s).2.Trace = s.Trace ++
        [Event.Enable s.DspGraphicalConsole false
          (E.Enable s.World s.DspGraphicalConsole false).1] ∧
      (BlDisplaySetScreenResolution E s).2.DspTextConsole = s.DspTextConsole ∧
      (BlDisplaySetScreenResolution E s).2.DspGraphicalConsole = s.DspGraphicalConsole) ∧
    (¬ (s.DspGraphicalConsole ≠ 0 ∧ IsEnabled E s s.DspGraphicalConsole = true) →
      (BlDisplaySetScreenResolution E s).2 = s ∧
      (s.DspTextConsole = 0 → (BlDisplaySetScreenResolution E s).1 = STATUS_UNSUCCESSFUL) ∧
      (s.DspTextConsole ≠ 0 → (BlDisplaySetScreenResolution E s).1 = STATUS_SUCCESS)) := by
  refine ⟨fun hg he => ?_, fun h => ?_⟩
  · simp [BlDisplaySetScreenResolution, hg, he, Enable, State.step]
  · by_cases hg : s.DspGraphicalConsole = 0
    · by_cases ht : s.DspTextConsole = 0 <;> simp [BlDisplaySetScreenResolution, hg, ht]
    · have he : IsEnabled E s s.DspGraphicalConsole = false := by
        cases hb : IsEnabled E s s.DspGraphicalConsole
        · rfl
        · exact absurd ⟨hg, hb⟩ h
      by_cases ht : s.DspTextConsole = 0 <;> simp [BlDisplaySetScreenResolution, hg, he, ht]

/-- C1, amended, at concrete inputs: an enabled graphics console whose `Enable` fails while a
text console is present, and a text-only state. -/
theorem BlDisplaySetScreenResolution_spec_witness :
    (BlDisplaySetScreenResolution Firmware.EnableFails Firmware.GraphicsActive).1
      = STATUS_NOT_SUPPORTED ∧
    (BlDisplaySetScreenResolution Firmware.Env Firmware.TextOnly).1 = STATUS_SUCCESS :=
  ⟨((BlDisplaySetScreenResolution_spec Firmware.EnableFails Firmware.GraphicsActive).1
      (by decide) (by decide)).1,
   ((BlDisplaySetScreenResolution_spec Firmware.Env Firmware.TextOnly).2
      (by decide)).2.2 (by decide)⟩

/-- C2.  `BlDisplayGetScreenResolution` in every state: with a NULL text slot it returns
STATUS_UNSUCCESSFUL, leaves both outputs as they were and makes no call; with a text console
and no enabled graphics console it returns STATUS_SUCCESS with 640 by 200; with a text
console and an enabled graphics console it returns the status of that console's
`GetGraphicalResolution`, with the console's HRes and VRes in the outputs when that status
is a success and the outputs as they were when it is a failure. -/
theorem BlDisplayGetScreenResolution_spec (E : Externals W) (s : State W) (HRes VRes : Nat) :
    (s.DspTextConsole = 0 →
      BlDisplayGetScreenResolution E s HRes VRes = (STATUS_UNSUCCESSFUL, (HRes, VRes), s)) ∧
    (s.DspTextConsole ≠ 0 →
      (s.DspGraphicalConsole = 0 ∨ IsEnabled E s s.DspGraphicalConsole = false) →
      BlDisplayGetScreenResolution E s HRes VRes = (STATUS_SUCCESS, (640, 200), s)) ∧
    (s.DspTextConsole ≠ 0 → s.DspGraphicalConsole ≠ 0 →
      IsEnabled E s s.DspGraphicalConsole = true →
      (BlDisplayGetScreenResolution E s HRes VRes).1
        = (E.GetGraphicalResolution s.World s.DspGraphicalConsole).1 ∧
      (NT_SUCCESS (E.GetGraphicalResolution s.World s.DspGraphicalConsole).1 = true →
        (BlDisplayGetScreenResolution E s HRes VRes).2.1
          = ((E.GetGraphicalResolution s.World s.DspGraphicalConsole).2.HRes,
             (E.GetGraphicalResolution s.World s.DspGraphicalConsole).2.VRes)) ∧
      (NT_SUCCESS (E.GetGraphicalResolution s.World s.DspGraphicalConsole).1 = false →
        (BlDisplayGetScreenResolution E s HRes VRes).2.1 = (HRes, VRes))) := by
  refine ⟨fun ht => ?_, fun ht hg => ?_, fun ht hg he => ?_⟩
  · simp [BlDisplayGetScreenResolution, ht]
  · rcases hg with hg | hg <;> simp [BlDisplayGetScreenResolution, ht, hg]
  · refine ⟨?_, fun hs => ?_, fun hs => ?_⟩
    · by_cases hs : NT_SUCCESS (E.GetGraphicalResolution s.World s.DspGraphicalConsole).1 = true
        <;> simp [BlDisplayGetScreenResolution, ht, hg, he, GetGraphicalResolution, hs]
    · simp [BlDisplayGetScreenResolution, ht, hg, he, GetGraphicalResolution, hs]
    · simp [BlDisplayGetScreenResolution, ht, hg, he, GetGraphicalResolution, hs]

/-- C2 at concrete inputs: no console at all; a text-only console; an enabled graphics console
reporting 1024 by 768; and one whose query fails with STATUS_NOT_SUPPORTED. -/
theorem BlDisplayGetScreenResolution_spec_witness :
    BlDisplayGetScreenResolution Firmware.Env Firmware.Boot 3 5
      = (STATUS_UNSUCCESSFUL, (3, 5), Firmware.Boot) ∧
    BlDisplayGetScreenResolution Firmware.Env Firmware.TextOnly 3 5
      = (STATUS_SUCCESS, (640, 200), Firmware.TextOnly) ∧
    (BlDisplayGetScreenResolution Firmware.Env Firmware.GraphicsActive 3 5).2.1
      = (1024, 768) ∧
    (BlDisplayGetScreenResolution Firmware.ResolutionFails Firmware.GraphicsActive 3 5).2.1
      = (3, 5) :=
  ⟨(BlDisplayGetScreenResolution_spec Firmware.Env Firmware.Boot 3 5).1 (by decide),
   (BlDisplayGetScreenResolution_spec Firmware.Env Firmware.TextOnly 3 5).2.1 (by decide)
     (Or.inl (by decide)),
   ((BlDisplayGetScreenResolution_spec Firmware.Env Firmware.GraphicsActive 3 5).2.2
     (by decide) (by decide) (by decide)).2.1 (by decide),
   ((BlDisplayGetScreenResolution_spec Firmware.ResolutionFails Firmware.GraphicsActive 3 5).2.2
     (by decide) (by decide) (by decide)).2.2 (by decide)⟩

/-- C6.  `BlDisplayGetTextCellResolution` with two non-NULL output pointers stores width 8
and height 8 in every state, whatever the cells held; with a text console and an enabled
graphics console the only call it makes is the diagnostic of the unsupported query, and on
every other path it makes no call.  With a NULL output pointer it writes nothing and makes
no call. -/
theorem BlDisplayGetTextCellResolution_spec (E : Externals W) (s : State W) :
    (∀ w h : Nat,
      (BlDisplayGetTextCellResolution E s (some w) (some h)).1 = (some 8, some 8) ∧
      ((s.DspTextConsole ≠ 0 ∧ s.DspGraphicalConsole ≠ 0 ∧
          IsEnabled E s s.DspGraphicalConsole = true) →
        (BlDisplayGetTextCellResolution E s (some w) (some h)).2
          = EfiPrintf s "GFX active, not supported query\r\n") ∧
      (¬ (s.DspTextConsole ≠ 0 ∧ s.DspGraphicalConsole ≠ 0 ∧
          IsEnabled E s s.DspGraphicalConsole = true) →
        (BlDisplayGetTextCellResolution E s (some w) (some h)).2 = s)) ∧
    (∀ TextWidth TextHeight : Option Nat, TextWidth = none ∨ TextHeight = none →
      BlDisplayGetTextCellResolution E s TextWidth TextHeight
        = ((TextWidth, TextHeight), s)) := by
  refine ⟨fun w h => ?_, fun tw th hn => ?_⟩
  · by_cases ht : s.DspTextConsole = 0
    · simp [BlDisplayGetTextCellResolution, ht, NT_SUCCESS, STATUS_UNSUCCESSFUL]
    · by_cases hg : s.DspGraphicalConsole = 0
      · simp [BlDisplayGetTextCellResolution, ht, hg, NT_SUCCESS, STATUS_UNSUCCESSFUL]
      · cases he : IsEnabled E s s.DspGraphicalConsole <;>
          simp [BlDisplayGetTextCellResolution, ht, hg, he, NT_SUCCESS, STATUS_UNSUCCESSFUL,
            STATUS_NOT_IMPLEMENTED]
  · simp [BlDisplayGetTextCellResolution, hn]

/-- C6 at concrete inputs: cells holding 1 and 2 end up holding 8 and 8 with the graphics
console active; a NULL height pointer leaves the width cell at 1. -/
theorem BlDisplayGetTextCellResolution_spec_witness :
    (BlDisplayGetTextCellResolution Firmware.Env Firmware.GraphicsActive (some 1) (some 2)).1
      = (some 8, some 8) ∧
    BlDisplayGetTextCellResolution Firmware.Env Firmware.GraphicsActive (some 1) none
      = ((some 1, none), Firmware.GraphicsActive) :=
  ⟨((BlDisplayGetTextCellResolution_spec Firmware.Env Firmware.GraphicsActive).1 1 2).1,
   (BlDisplayGetTextCellResolution_spec Firmware.Env Firmware.GraphicsActive).2
     (some 1) none (Or.inr rfl)⟩

/-! ## Locale registration: theorems -/

/-- C3.  For every locale string of fewer than two characters, `BlpDisplayRegisterLocale`
returns STATUS_INVALID_PARAMETER and leaves the state as it was: the deferred-font list is
untouched, and no call is made, so no entry is freed and no font load is attempted. -/
theorem BlpDisplayRegisterLocale_short (E : Externals W) (s : State W) (Locale : List WCHAR)
    (h : wcslen Locale < 2) :
    (BlpDisplayRegisterLocale E s Locale).1 = STATUS_INVALID_PARAMETER ∧
    (BlpDisplayRegisterLocale E s Locale).2 = s ∧
    (BlpDisplayRegisterLocale E s Locale).2.BfiDeferredListHead = s.BfiDeferredListHead ∧
    (BlpDisplayRegisterLocale E s Locale).2.Trace = s.Trace := by
  simp [BlpDisplayRegisterLocale, h]

/-- C3 at a concrete input: the one-character locale "j" with two deferred entries pending. -/
theorem BlpDisplayRegisterLocale_short_witness :
    (BlpDisplayRegisterLocale Firmware.Env Firmware.Pending (L "j")).1
      = STATUS_INVALID_PARAMETER ∧
    (BlpDisplayRegisterLocale Firmware.Env Firmware.Pending (L "j")).2.BfiDeferredListHead
      = [40, 41] ∧
    (BlpDisplayRegisterLocale Firmware.Env Firmware.Pending (L "j")).2.Trace = [] :=
  have h := BlpDisplayRegisterLocale_short Firmware.Env Firmware.Pending (L "j") (by decide)
  ⟨h.1, h.2.2.1, h.2.2.2⟩

/-! ### The font loader leaves the deferred list alone and records one attempt -/

theorem extends_append_right {t u : List Event} (v : List Event) (h : t <+: u) :
    t <+: u ++ v :=
  h.trans (List.prefix_append u v)

theorem FontLoadAttempts_nil : FontLoadAttempts [] = [] := rfl

theorem FontLoadAttempts_cons (e : Event) (t : List Event) :
    FontLoadAttempts (e :: t) = (Event.FontLoadAttempt e).toList ++ FontLoadAttempts t := by
  cases h : Event.FontLoadAttempt e <;> simp [FontLoadAttempts, List.filterMap_cons, h]

theorem FontLoadAttempts_append (t u : List Event) :
    FontLoadAttempts (t ++ u) = FontLoadAttempts t ++ FontLoadAttempts u := by
  simp [FontLoadAttempts]

theorem DeferredFrees_nil : DeferredFrees [] = [] := rfl

theorem DeferredFrees_cons (e : Event) (t : List Event) :
    DeferredFrees (e :: t) = (Event.DeferredFree e).toList ++ DeferredFrees t := by
  cases h : Event.DeferredFree e <;> simp [DeferredFrees, List.filterMap_cons, h]

theorem DeferredFrees_append (t u : List Event) :
    DeferredFrees (t ++ u) = DeferredFrees t ++ DeferredFrees u := by
  simp [DeferredFrees]

theorem DsppLoadFontFile.Quickie_status (E : Externals W) (s : State W)
    (FontFileName : List WCHAR) (CustomDevice : Bool) (FontDevice : PVOID)
    (CustomDirectory : Bool) (FontDirectory : PWCHAR) (FontPath : PVOID) (Status : NTSTATUS) :
    (DsppLoadFontFile.Quickie E s FontFileName CustomDevice FontDevice CustomDirectory
      FontDirectory FontPath Status).1 = Status := by
  simp only [DsppLoadFontFile.Quickie]

theorem DsppLoadFontFile.Quickie_deferred (E : Externals W) (s : State W)
    (FontFileName : List WCHAR) (CustomDevice : Bool) (FontDevice : PVOID)
    (CustomDirectory : Bool) (FontDirectory : PWCHAR) (FontPath : PVOID) (Status : NTSTATUS) :
    (DsppLoadFontFile.Quickie E s FontFileName CustomDevice FontDevice CustomDirectory
      FontDirectory FontPath Status).2.BfiDeferredListHead = s.BfiDeferredListHead := by
  simp only [DsppLoadFontFile.Quickie]
  split_ifs <;> simp [BlMmFreeHeap, State.step, State.log]

theorem DsppLoadFontFile.Quickie_attempts (E : Externals W) (s : State W)
    (FontFileName : List WCHAR) (CustomDevice : Bool) (FontDevice : PVOID)
    (CustomDirectory : Bool) (FontDirectory : PWCHAR) (FontPath : PVOID) (Status : NTSTATUS) :
    FontLoadAttempts (DsppLoadFontFile.Quickie E s FontFileName CustomDevice FontDevice
      CustomDirectory FontDirectory FontPath Status).2.Trace
      = FontLoadAttempts s.Trace ++ [(FontFileName, Status)] := by
  simp only [DsppLoadFontFile.Quickie]
  split_ifs <;>
    simp [BlMmFreeHeap, State.step, State.log, FontLoadAttempts, Event.FontLoadAttempt]

theorem DsppLoadFontFile.Quickie_frees (E : Externals W) (s : State W)
    (FontFileName : List WCHAR) (CustomDevice : Bool) (FontDevice : PVOID)
    (CustomDirectory : Bool) (FontDirectory : PWCHAR) (FontPath : PVOID) (Status : NTSTATUS) :
    DeferredFrees (DsppLoadFontFile.Quickie E s FontFileName CustomDevice FontDevice
      CustomDirectory FontDirectory FontPath Status).2.Trace = DeferredFrees s.Trace := by
  simp only [DsppLoadFontFile.Quickie]
  split_ifs <;>
    simp [BlMmFreeHeap, State.step, State.log, DeferredFrees, Event.DeferredFree]

theorem DsppLoadFontFile.Quickie_extends (E : Externals W) (s : State W)
    (FontFileName : List WCHAR) (CustomDevice : Bool) (FontDevice : PVOID)
    (CustomDirectory : Bool) (FontDirectory : PWCHAR) (FontPath : PVOID) (Status : NTSTATUS)
    (t : List Event) (h : t <+: s.Trace) :
    t <+: (DsppLoadFontFile.Quickie E s FontFileName CustomDevice FontDevice
      CustomDirectory FontDirectory FontPath Status).2.Trace := by
  simp only [DsppLoadFontFile.Quickie]
  split_ifs <;>
    simp [BlMmFreeHeap, State.step, State.log, extends_append_right, h]

theorem DsppLoadFontFile.Load_deferred (E : Externals W) (s : State W)
    (FontFileName : List WCHAR) (CustomDevice : Bool) (FontDevice : PVOID)
    (CustomDirectory : Bool) (FontDirectory : PWCHAR) :
    (DsppLoadFontFile.Load E s FontFileName CustomDevice FontDevice CustomDirectory
      FontDirectory).2.BfiDeferredListHead = s.BfiDeferredListHead := by
  simp only [DsppLoadFontFile.Load]
  split_ifs <;>
    simp [DsppLoadFontFile.Quickie_deferred, BlMmAllocateHeap, BfLoadFontFile, State.step]

theorem DsppLoadFontFile.Load_attempts (E : Externals W) (s : State W)
    (FontFileName : List WCHAR) (CustomDevice : Bool) (FontDevice : PVOID)
    (CustomDirectory : Bool) (FontDirectory : PWCHAR) :
    FontLoadAttempts (DsppLoadFontFile.Load E s FontFileName CustomDevice FontDevice
      CustomDirectory FontDirectory).2.Trace
      = FontLoadAttempts s.Trace ++ [(FontFileName,
          (DsppLoadFontFile.Load E s FontFileName CustomDevice FontDevice CustomDirectory
            FontDirectory).1)] := by
  simp only [DsppLoadFontFile.Load]
  split_ifs <;>
    simp [DsppLoadFontFile.Quickie_attempts, DsppLoadFontFile.Quickie_status,
      BlMmAllocateHeap, BfLoadFontFile, State.step, FontLoadAttempts_append,
      FontLoadAttempts_cons, FontLoadAttempts_nil, Event.FontLoadAttempt]

theorem DsppLoadFontFile.Load_frees (E : Externals W) (s : State W)
    (FontFileName : List WCHAR) (CustomDevice : Bool) (FontDevice : PVOID)
    (CustomDirectory : Bool) (FontDirectory : PWCHAR) :
    DeferredFrees (DsppLoadFontFile.Load E s FontFileName CustomDevice FontDevice
      CustomDirectory FontDirectory).2.Trace = DeferredFrees s.Trace := by
  simp only [DsppLoadFontFile.Load]
  split_ifs <;>
    simp [DsppLoadFontFile.Quickie_frees, BlMmAllocateHeap, BfLoadFontFile, State.step,
      DeferredFrees_append, DeferredFrees_cons, DeferredFrees_nil, Event.DeferredFree]

theorem DsppLoadFontFile.Load_extends (E : Externals W) (s : State W)
    (FontFileName : List WCHAR) (CustomDevice : Bool) (FontDevice : PVOID)
    (CustomDirectory : Bool) (FontDirectory : PWCHAR) (t : List Event) (h : t <+: s.Trace) :
    t <+: (DsppLoadFontFile.Load E s FontFileName CustomDevice FontDevice CustomDirectory
      FontDirectory).2.Trace := by
  simp only [DsppLoadFontFile.Load]
  split_ifs <;>
    (apply DsppLoadFontFile.Quickie_extends
     simp [BlMmAllocateHeap, BfLoadFontFile, State.step, extends_append_right, h])

theorem DsppLoadFontFile_deferred (E : Externals W) (s : State W) (FontFileName : List WCHAR) :
    (DsppLoadFontFile E s FontFileName).2.BfiDeferredListHead = s.BfiDeferredListHead := by
  simp only [DsppLoadFontFile]
  split_ifs <;>
    simp [DsppLoadFontFile.Quickie_deferred, DsppLoadFontFile.Load_deferred,
      BlGetBootOptionString, BlGetBootOptionDevice, State.step]

theorem DsppLoadFontFile_attempts (E : Externals W) (s : State W) (FontFileName : List WCHAR) :
    FontLoadAttempts (DsppLoadFontFile E s FontFileName).2.Trace
      = FontLoadAttempts s.Trace ++ [(FontFileName, (DsppLoadFontFile E s FontFileName).1)] := by
  simp only [DsppLoadFontFile]
  split_ifs <;>
    simp [DsppLoadFontFile.Quickie_attempts, DsppLoadFontFile.Quickie_status,
      DsppLoadFontFile.Load_attempts, BlGetBootOptionString, BlGetBootOptionDevice,
      State.step, FontLoadAttempts_append, FontLoadAttempts_cons, FontLoadAttempts_nil,
      Event.FontLoadAttempt]

theorem DsppLoadFontFile_frees (E : Externals W) (s : State W) (FontFileName : List WCHAR) :
    DeferredFrees (DsppLoadFontFile E s FontFileName).2.Trace = DeferredFrees s.Trace := by
  simp only [DsppLoadFontFile]
  split_ifs <;>
    simp [DsppLoadFontFile.Quickie_frees, DsppLoadFontFile.Load_frees,
      BlGetBootOptionString, BlGetBootOptionDevice, State.step, DeferredFrees_append,
      DeferredFrees_cons, DeferredFrees_nil, Event.DeferredFree]

/-- The first call of a font load attempt is the lookup of the font path option. -/
theorem DsppLoadFontFile_begins (E : Externals W) (s : State W) (FontFileName : List WCHAR) :
    ∃ rest, (DsppLoadFontFile E s FontFileName).2.Trace
      = s.Trace ++ Event.BlGetBootOptionString BcdKey.BcdLibraryString_FontPath
          (E.BlGetBootOptionString s.World BcdKey.BcdLibraryString_FontPath).1.1
          (E.BlGetBootOptionString s.World BcdKey.BcdLibraryString_FontPath).1.2 :: rest := by
  have key : (BlGetBootOptionString E s BcdKey.BcdLibraryString_FontPath).2.Trace
      <+: (DsppLoadFontFile E s FontFileName).2.Trace := by
    simp only [DsppLoadFontFile]
    split_ifs <;>
      first
      | (apply DsppLoadFontFile.Load_extends
         simp [BlGetBootOptionDevice, State.step])
      | (apply DsppLoadFontFile.Quickie_extends
         simp [BlGetBootOptionDevice, State.step])
  obtain ⟨rest, hrest⟩ := key
  refine ⟨rest, ?_⟩
  rw [← hrest]
  simp [BlGetBootOptionString, State.step]

/-! ### The flush loop -/

theorem BlpDisplayRegisterLocale.Loop_trace (E : Externals W) (l : List PVOID) (s : State W) :
    (BlpDisplayRegisterLocale.Loop E l s).Trace
      = s.Trace ++ l.map Event.BfiFreeDeferredFontFile := by
  induction l generalizing s with
  | nil => simp [BlpDisplayRegisterLocale.Loop]
  | cons x xs ih =>
    simp [BlpDisplayRegisterLocale.Loop, ih, BfiFreeDeferredFontFile, RemoveEntryList,
      State.step]

theorem BlpDisplayRegisterLocale.Loop_deferred (E : Externals W) (l : List PVOID)
    (s : State W) (h : s.BfiDeferredListHead = l) :
    (BlpDisplayRegisterLocale.Loop E l s).BfiDeferredListHead = [] := by
  induction l generalizing s with
  | nil => simpa [BlpDisplayRegisterLocale.Loop] using h
  | cons x xs ih =>
    simp only [BlpDisplayRegisterLocale.Loop]
    apply ih
    simp [BfiFreeDeferredFontFile, RemoveEntryList, State.step, h]

theorem FontLoadAttempts_frees (l : List PVOID) :
    FontLoadAttempts (l.map Event.BfiFreeDeferredFontFile) = [] := by
  induction l with
  | nil => rfl
  | cons x xs ih => simp [FontLoadAttempts_cons, Event.FontLoadAttempt, ih]

theorem DeferredFrees_frees (l : List PVOID) :
    DeferredFrees (l.map Event.BfiFreeDeferredFontFile) = l := by
  induction l with
  | nil => rfl
  | cons x xs ih => simp [DeferredFrees_cons, Event.DeferredFree, ih]

/-! ### Comparing strings -/

theorem towlower_eq_zero (c : Nat) : towlower c = 0 ↔ c = 0 := by
  unfold towlower
  split_ifs with h <;> constructor <;> intro h0 <;> first | contradiction | omega

theorem _wcsicmp_nil_cons (d : Nat) (ds : List Nat) :
    _wcsicmp [] (d :: ds) = 0 ↔ d = 0 := by
  rw [← towlower_eq_zero d]
  simp only [_wcsicmp]
  omega

theorem _wcsicmp_cons_nil (c : Nat) (cs : List Nat) :
    _wcsicmp (c :: cs) [] = 0 ↔ c = 0 := by
  rw [← towlower_eq_zero c]
  simp only [_wcsicmp]
  omega

theorem _wcsicmp_cons_cons (c d : Nat) (cs ds : List Nat) :
    _wcsicmp (c :: cs) (d :: ds) = 0 ↔ towlower c = towlower d ∧ _wcsicmp cs ds = 0 := by
  simp only [_wcsicmp]
  split_ifs with h
  · simp [h]
  · constructor
    · intro h0
      exact absurd (by omega) h
    · intro h0
      exact absurd h0.1 h

/-- Strings that are equal ignoring case compare equal. -/
theorem _wcsicmp_of_equal (a b : List Nat) (h : EqualIgnoringCase a b) :
    _wcsicmp a b = 0 := by
  induction a generalizing b with
  | nil =>
    cases b with
    | nil => rfl
    | cons d ds => simp [EqualIgnoringCase] at h
  | cons c cs ih =>
    cases b with
    | nil => simp [EqualIgnoringCase] at h
    | cons d ds =>
      simp only [EqualIgnoringCase, List.map_cons, List.cons.injEq] at h
      exact (_wcsicmp_cons_cons c d cs ds).2 ⟨h.1, ih ds h.2⟩

/-- Strings without a NUL inside compare equal only when they are equal ignoring case. -/
theorem equal_of__wcsicmp (a b : List Nat) (ha : ∀ c ∈ a, c ≠ 0) (hb : ∀ c ∈ b, c ≠ 0)
    (h : _wcsicmp a b = 0) : EqualIgnoringCase a b := by
  induction a generalizing b with
  | nil =>
    cases b with
    | nil => rfl
    | cons d ds =>
      exact absurd ((_wcsicmp_nil_cons d ds).1 h) (hb d (List.mem_cons_self d ds))
  | cons c cs ih =>
    cases b with
    | nil => exact absurd ((_wcsicmp_cons_nil c cs).1 h) (ha c (List.mem_cons_self c cs))
    | cons d ds =>
      have h2 := (_wcsicmp_cons_cons c d cs ds).1 h
      have := ih ds (fun x hx => ha x (List.mem_cons_of_mem c hx))
        (fun x hx => hb x (List.mem_cons_of_mem d hx)) h2.2
      simp only [EqualIgnoringCase, List.map_cons, List.cons.injEq]
      exact ⟨h2.1, this⟩

/-! ### The font choice -/

theorem _wcsicmp_head (c d : Nat) (cs ds : List Nat) (h : _wcsicmp (c :: cs) (d :: ds) = 0) :
    towlower c = towlower d :=
  ((_wcsicmp_cons_cons c d cs ds).1 h).1

theorem lowered_ja : (L "ja").map towlower = [106, 97] := by decide
theorem lowered_ko : (L "ko").map towlower = [107, 111] := by decide
theorem lowered_zhCN : (L "zh-CN").map towlower = [122, 104, 45, 99, 110] := by decide
theorem lowered_zhCHS : (L "zh-CHS").map towlower = [122, 104, 45, 99, 104, 115] := by decide
theorem lowered_zhHans : (L "zh-Hans").map towlower = [122, 104, 45, 104, 97, 110, 115] := by
  decide

/-- A locale of at least two characters is its first two characters and a rest. -/
theorem locale_split (Locale : List WCHAR) (h : 2 ≤ wcslen Locale) :
    ∃ c0 c1 rest, Locale = c0 :: c1 :: rest := by
  rcases Locale with _ | ⟨c0, _ | ⟨c1, rest⟩⟩
  · simp [wcslen] at h
  · simp [wcslen] at h
  · exact ⟨c0, c1, rest, rfl⟩

theorem FontFileName_ja (Locale : List WCHAR) (h2 : 2 ≤ wcslen Locale)
    (h : EqualIgnoringCase (Locale.take 2) (L "ja")) :
    BlpDisplayRegisterLocale.FontFileName Locale = (L "\\jpn_boot.ttf", false) := by
  obtain ⟨c0, c1, rest, rfl⟩ := locale_split Locale h2
  have hp : _wcsicmp [c0, c1] (L "ja") = 0 := _wcsicmp_of_equal _ _ (by simpa using h)
  simp [BlpDisplayRegisterLocale.FontFileName, hp]

theorem FontFileName_ko (Locale : List WCHAR) (h2 : 2 ≤ wcslen Locale)
    (h : EqualIgnoringCase (Locale.take 2) (L "ko")) :
    BlpDisplayRegisterLocale.FontFileName Locale = (L "\\kor_boot.ttf", false) := by
  obtain ⟨c0, c1, rest, rfl⟩ := locale_split Locale h2
  have hp : _wcsicmp [c0, c1] (L "ko") = 0 := _wcsicmp_of_equal _ _ (by simpa using h)
  have h0 : towlower c0 = 107 := by
    have := h
    simp only [EqualIgnoringCase, lowered_ko, List.take, List.map_cons, List.map_nil,
      List.cons.injEq] at this
    exact this.1
  have hj : _wcsicmp [c0, c1] (L "ja") ≠ 0 := by
    intro hc
    have := _wcsicmp_head c0 106 [c1] [97] hc
    rw [h0] at this
    exact absurd this (by decide)
  simp [BlpDisplayRegisterLocale.FontFileName, hp, hj]

theorem FontFileName_chs (Locale : List WCHAR)
    (h : EqualIgnoringCase Locale (L "zh-CN") ∨ EqualIgnoringCase Locale (L "zh-CHS") ∨
      EqualIgnoringCase Locale (L "zh-Hans")) :
    BlpDisplayRegisterLocale.FontFileName Locale = (L "\\chs_boot.ttf", false) := by
  have hz : ∃ c0 c1 rest, Locale = c0 :: c1 :: rest ∧ towlower c0 = 122 := by
    rcases h with h | h | h
    · rw [EqualIgnoringCase, lowered_zhCN] at h
      rcases Locale with _ | ⟨c0, _ | ⟨c1, rest⟩⟩
      · simp at h
      · simp at h
      · exact ⟨c0, c1, rest, rfl, by simp at h; exact h.1⟩
    · rw [EqualIgnoringCase, lowered_zhCHS] at h
      rcases Locale with _ | ⟨c0, _ | ⟨c1, rest⟩⟩
      · simp at h
      · simp at h
      · exact ⟨c0, c1, rest, rfl, by simp at h; exact h.1⟩
    · rw [EqualIgnoringCase, lowered_zhHans] at h
      rcases Locale with _ | ⟨c0, _ | ⟨c1, rest⟩⟩
      · simp at h
      · simp at h
      · exact ⟨c0, c1, rest, rfl, by simp at h; exact h.1⟩
  obtain ⟨c0, c1, rest, rfl, h0⟩ := hz
  have hj : _wcsicmp [c0, c1] (L "ja") ≠ 0 := by
    intro hc
    have := _wcsicmp_head c0 106 [c1] [97] hc
    rw [h0] at this
    exact absurd this (by decide)
  have hk : _wcsicmp [c0, c1] (L "ko") ≠ 0 := by
    intro hc
    have := _wcsicmp_head c0 107 [c1] [111] hc
    rw [h0] at this
    exact absurd this (by decide)
  have ht : _wcsicmp (c0 :: c1 :: rest) (L "zh-CN") = 0 ∨
      _wcsicmp (c0 :: c1 :: rest) (L "zh-CHS") = 0 ∨
      _wcsicmp (c0 :: c1 :: rest) (L "zh-Hans") = 0 := by
    rcases h with h | h | h
    · exact Or.inl (_wcsicmp_of_equal _ _ h)
    · exact Or.inr (Or.inl (_wcsicmp_of_equal _ _ h))
    · exact Or.inr (Or.inr (_wcsicmp_of_equal _ _ h))
  simp [BlpDisplayRegisterLocale.FontFileName, hj, hk, ht]

/-- No string compares equal to both zh-TW and zh-CHT: the fourth characters differ. -/
theorem not_zhTW_and_zhCHT (Locale : List WCHAR) :
    ¬ (_wcsicmp Locale (L "zh-TW") = 0 ∧ _wcsicmp Locale (L "zh-CHT") = 0) := by
  rintro ⟨h1, h2⟩
  have e1 : L "zh-TW" = [122, 104, 45, 84, 87] := by decide
  have e2 : L "zh-CHT" = [122, 104, 45, 67, 72, 84] := by decide
  rw [e1] at h1
  rw [e2] at h2
  rcases Locale with _ | ⟨c0, _ | ⟨c1, _ | ⟨c2, _ | ⟨c3, rest⟩⟩⟩⟩
  · exact absurd ((_wcsicmp_nil_cons _ _).1 h1) (by decide)
  · have := ((_wcsicmp_cons_cons _ _ _ _).1 h1).2
    exact absurd ((_wcsicmp_nil_cons _ _).1 this) (by decide)
  · have := ((_wcsicmp_cons_cons _ _ _ _).1 ((_wcsicmp_cons_cons _ _ _ _).1 h1).2).2
    exact absurd ((_wcsicmp_nil_cons _ _).1 this) (by decide)
  · have := ((_wcsicmp_cons_cons _ _ _ _).1
      ((_wcsicmp_cons_cons _ _ _ _).1 ((_wcsicmp_cons_cons _ _ _ _).1 h1).2).2).2
    exact absurd ((_wcsicmp_nil_cons _ _).1 this) (by decide)
  · have a1 := ((_wcsicmp_cons_cons _ _ _ _).1 ((_wcsicmp_cons_cons _ _ _ _).1
      ((_wcsicmp_cons_cons _ _ _ _).1 ((_wcsicmp_cons_cons _ _ _ _).1 h1).2).2).2).1
    have a2 := ((_wcsicmp_cons_cons _ _ _ _).1 ((_wcsicmp_cons_cons _ _ _ _).1
      ((_wcsicmp_cons_cons _ _ _ _).1 ((_wcsicmp_cons_cons _ _ _ _).1 h2).2).2).2).1
    exact absurd (a1.symm.trans a2) (by decide)

/-- The font choice is never the traditional-Chinese font. -/
theorem FontFileName_ne_cht (Locale : List WCHAR) :
    (BlpDisplayRegisterLocale.FontFileName Locale).1 ≠ L "\\cht_boot.ttf" := by
  have hd : ¬ (_wcsicmp Locale (L "zh-TW") = 0 ∧ _wcsicmp Locale (L "zh-CHT") = 0 ∧
      _wcsicmp Locale (L "zh-HK") = 0 ∧ _wcsicmp Locale (L "zh-Hant") = 0) :=
    fun h => not_zhTW_and_zhCHT Locale ⟨h.1, h.2.1⟩
  simp only [BlpDisplayRegisterLocale.FontFileName]
  split_ifs <;> decide

/-- A locale that matches neither prefix nor a simplified-Chinese tag gets the default
font and is marked standard. -/
theorem FontFileName_default (Locale : List WCHAR)
    (hj : _wcsicmp [Locale.getD 0 0, Locale.getD 1 0] (L "ja") ≠ 0)
    (hk : _wcsicmp [Locale.getD 0 0, Locale.getD 1 0] (L "ko") ≠ 0)
    (hs : ¬ (_wcsicmp Locale (L "zh-CN") = 0 ∨ _wcsicmp Locale (L "zh-CHS") = 0 ∨
      _wcsicmp Locale (L "zh-Hans") = 0)) :
    BlpDisplayRegisterLocale.FontFileName Locale = (L "\\wgl4_boot.ttf", true) := by
  have hd : ¬ (_wcsicmp Locale (L "zh-TW") = 0 ∧ _wcsicmp Locale (L "zh-CHT") = 0 ∧
      _wcsicmp Locale (L "zh-HK") = 0 ∧ _wcsicmp Locale (L "zh-Hant") = 0) :=
    fun h => not_zhTW_and_zhCHT Locale ⟨h.1, h.2.1⟩
  simp only [BlpDisplayRegisterLocale.FontFileName]
  rw [if_neg hj, if_neg hk, if_neg hs, if_neg hd]

/-! ### Locale registration -/

/-- The font load attempts of one registration: the chosen font, then the default font when
the chosen one loaded and the locale is not standard. -/
theorem BlpDisplayRegisterLocale_attempts (E : Externals W) (s : State W)
    (Locale : List WCHAR) (h2 : 2 ≤ wcslen Locale) :
    FontLoadAttempts (BlpDisplayRegisterLocale E s Locale).2.Trace
      = FontLoadAttempts s.Trace ++
        (if NT_SUCCESS (DsppLoadFontFile E
              (BlpDisplayRegisterLocale.Loop E s.BfiDeferredListHead s)
              (BlpDisplayRegisterLocale.FontFileName Locale).1).1 = true ∧
            (BlpDisplayRegisterLocale.FontFileName Locale).2 = false then
          [((BlpDisplayRegisterLocale.FontFileName Locale).1,
              (DsppLoadFontFile E (BlpDisplayRegisterLocale.Loop E s.BfiDeferredListHead s)
                (BlpDisplayRegisterLocale.FontFileName Locale).1).1),
            (L "\\wgl4_boot.ttf", (BlpDisplayRegisterLocale E s Locale).1)]
        else
          [((BlpDisplayRegisterLocale.FontFileName Locale).1,
              (BlpDisplayRegisterLocale E s Locale).1)]) ∧
    (¬ (NT_SUCCESS (DsppLoadFontFile E
            (BlpDisplayRegisterLocale.Loop E s.BfiDeferredListHead s)
            (BlpDisplayRegisterLocale.FontFileName Locale).1).1 = true ∧
          (BlpDisplayRegisterLocale.FontFileName Locale).2 = false) →
      BlpDisplayRegisterLocale E s Locale
        = DsppLoadFontFile E (BlpDisplayRegisterLocale.Loop E s.BfiDeferredListHead s)
            (BlpDisplayRegisterLocale.FontFileName Locale).1) := by
  have hlen : ¬ wcslen Locale < 2 := not_lt.2 h2
  simp only [BlpDisplayRegisterLocale, if_neg hlen]
  split_ifs with hc
  · refine ⟨?_, fun hn => absurd hc hn⟩
    rw [DsppLoadFontFile_attempts, DsppLoadFontFile_attempts,
      BlpDisplayRegisterLocale.Loop_trace, FontLoadAttempts_append, FontLoadAttempts_frees]
    simp
  · refine ⟨?_, fun _ => rfl⟩
    rw [DsppLoadFontFile_attempts, BlpDisplayRegisterLocale.Loop_trace,
      FontLoadAttempts_append, FontLoadAttempts_frees]
    simp

/-- C7.  A locale of at least two characters whose first two characters are "ja" ignoring
case selects `\jpn_boot.ttf`, one whose first two are "ko" selects `\kor_boot.ttf`, and one
equal to zh-CN, zh-CHS or zh-Hans ignoring case selects `\chs_boot.ttf`.  With `Font` the
font so selected, and the first load being the load of `Font` in the state the flush of the
deferred list leaves: when the first load succeeds, the font load attempts of the call are
exactly `Font` and then `\wgl4_boot.ttf`, and the status returned is that of the second;
when it fails, the only attempt is `Font`, and its failure status is returned. -/
theorem BlpDisplayRegisterLocale_national (E : Externals W) (s : State W)
    (Locale Font : List WCHAR) (h2 : 2 ≤ wcslen Locale)
    (hsel : (EqualIgnoringCase (Locale.take 2) (L "ja") ∧ Font = L "\\jpn_boot.ttf") ∨
      (EqualIgnoringCase (Locale.take 2) (L "ko") ∧ Font = L "\\kor_boot.ttf") ∨
      ((EqualIgnoringCase Locale (L "zh-CN") ∨ EqualIgnoringCase Locale (L "zh-CHS") ∨
        EqualIgnoringCase Locale (L "zh-Hans")) ∧ Font = L "\\chs_boot.ttf")) :
    (NT_SUCCESS (DsppLoadFontFile E (BlpDisplayRegisterLocale.Loop E s.BfiDeferredListHead s)
        Font).1 = true →
      FontLoadAttempts (BlpDisplayRegisterLocale E s Locale).2.Trace
        = FontLoadAttempts s.Trace ++
          [(Font, (DsppLoadFontFile E
              (BlpDisplayRegisterLocale.Loop E s.BfiDeferredListHead s) Font).1),
           (L "\\wgl4_boot.ttf", (BlpDisplayRegisterLocale E s Locale).1)]) ∧
    (NT_SUCCESS (DsppLoadFontFile E (BlpDisplayRegisterLocale.Loop E s.BfiDeferredListHead s)
        Font).1 = false →
      FontLoadAttempts (BlpDisplayRegisterLocale E s Locale).2.Trace
        = FontLoadAttempts s.Trace ++
          [(Font, (DsppLoadFontFile E
              (BlpDisplayRegisterLocale.Loop E s.BfiDeferredListHead s) Font).1)] ∧
      (BlpDisplayRegisterLocale E s Locale).1
        = (DsppLoadFontFile E (BlpDisplayRegisterLocale.Loop E s.BfiDeferredListHead s)
            Font).1) := by
  have hf : BlpDisplayRegisterLocale.FontFileName Locale = (Font, false) := by
    rcases hsel with ⟨h, rfl⟩ | ⟨h, rfl⟩ | ⟨h, rfl⟩
    · exact FontFileName_ja Locale h2 h
    · exact FontFileName_ko Locale h2 h
    · exact FontFileName_chs Locale h
  have key := BlpDisplayRegisterLocale_attempts E s Locale h2
  rw [hf] at key
  refine ⟨fun hs => ?_, fun hs => ?_⟩
  · have := key.1
    rw [if_pos ⟨hs, rfl⟩] at this
    exact this
  · have hn : ¬ (NT_SUCCESS (DsppLoadFontFile E
        (BlpDisplayRegisterLocale.Loop E s.BfiDeferredListHead s) Font).1 = true ∧
        false = false) := by
      rw [hs]
      simp
    have e := key.2 hn
    have := key.1
    rw [if_neg hn, e] at this
    rw [e]
    exact ⟨this, rfl⟩

/-- C7 at concrete inputs: "ja-JP" on a firmware whose loads succeed gives the two attempts
`\jpn_boot.ttf` then `\wgl4_boot.ttf`; "zh-CN" on a firmware whose loads fail gives the
single attempt `\chs_boot.ttf` and returns its failure. -/
theorem BlpDisplayRegisterLocale_national_witness :
    FontLoadAttempts (BlpDisplayRegisterLocale Firmware.Env Firmware.Pending (L "ja-JP")).2.Trace
      = [(L "\\jpn_boot.ttf", STATUS_SUCCESS), (L "\\wgl4_boot.ttf", STATUS_SUCCESS)] ∧
    (FontLoadAttempts
        (BlpDisplayRegisterLocale Firmware.LoadFails Firmware.Pending (L "zh-CN")).2.Trace
      = [(L "\\chs_boot.ttf", STATUS_NO_MEMORY)] ∧
     (BlpDisplayRegisterLocale Firmware.LoadFails Firmware.Pending (L "zh-CN")).1
      = STATUS_NO_MEMORY) :=
  ⟨(BlpDisplayRegisterLocale_national Firmware.Env Firmware.Pending (L "ja-JP")
      (L "\\jpn_boot.ttf") (by decide) (Or.inl ⟨by decide, rfl⟩)).1 (by decide),
   (BlpDisplayRegisterLocale_national Firmware.LoadFails Firmware.Pending (L "zh-CN")
      (L "\\chs_boot.ttf") (by decide) (Or.inr (Or.inr ⟨Or.inl (by decide), rfl⟩))).2
      (by decide)⟩

/-- C8.  A locale of at least two characters (none of them the NUL) whose first two
characters are neither "ja" nor "ko" ignoring case, and which is none of zh-CN, zh-CHS and
zh-Hans ignoring case, gets exactly one font load attempt, for `\wgl4_boot.ttf`; the status
returned is the status of that attempt, whether it succeeded or failed. -/
theorem BlpDisplayRegisterLocale_default (E : Externals W) (s : State W)
    (Locale : List WCHAR) (h2 : 2 ≤ wcslen Locale) (hz : ∀ c ∈ Locale, c ≠ 0)
    (hja : ¬ EqualIgnoringCase (Locale.take 2) (L "ja"))
    (hko : ¬ EqualIgnoringCase (Locale.take 2) (L "ko"))
    (hcn : ¬ EqualIgnoringCase Locale (L "zh-CN"))
    (hchs : ¬ EqualIgnoringCase Locale (L "zh-CHS"))
    (hhans : ¬ EqualIgnoringCase Locale (L "zh-Hans")) :
    FontLoadAttempts (BlpDisplayRegisterLocale E s Locale).2.Trace
      = FontLoadAttempts s.Trace ++
        [(L "\\wgl4_boot.ttf", (BlpDisplayRegisterLocale E s Locale).1)] ∧
    BlpDisplayRegisterLocale E s Locale
      = DsppLoadFontFile E (BlpDisplayRegisterLocale.Loop E s.BfiDeferredListHead s)
          (L "\\wgl4_boot.ttf") := by
  have hf : BlpDisplayRegisterLocale.FontFileName Locale = (L "\\wgl4_boot.ttf", true) := by
    obtain ⟨c0, c1, rest, rfl⟩ := locale_split Locale h2
    have hp : ∀ c ∈ [c0, c1], c ≠ 0 := by
      intro c hc
      apply hz
      simp only [List.mem_cons, List.mem_singleton, List.not_mem_nil, or_false] at hc
      rcases hc with rfl | rfl <;> simp
    apply FontFileName_default
    · intro h
      exact hja (by simpa using equal_of__wcsicmp _ _ hp (by decide) h)
    · intro h
      exact hko (by simpa using equal_of__wcsicmp _ _ hp (by decide) h)
    · rintro (h | h | h)
      · exact hcn (equal_of__wcsicmp _ _ hz (by decide) h)
      · exact hchs (equal_of__wcsicmp _ _ hz (by decide) h)
      · exact hhans (equal_of__wcsicmp _ _ hz (by decide) h)
  have key := BlpDisplayRegisterLocale_attempts E s Locale h2
  rw [hf] at key
  have hn : ¬ (NT_SUCCESS (DsppLoadFontFile E
      (BlpDisplayRegisterLocale.Loop E s.BfiDeferredListHead s)
      (L "\\wgl4_boot.ttf")).1 = true ∧ true = false) := by simp
  have := key.1
  rw [if_neg hn] at this
  exact ⟨this, key.2 hn⟩

/-- C8 at concrete inputs: "fr-FR", with loads that succeed and with loads that fail. -/
theorem BlpDisplayRegisterLocale_default_witness :
    FontLoadAttempts (BlpDisplayRegisterLocale Firmware.Env Firmware.Pending (L "fr-FR")).2.Trace
      = [(L "\\wgl4_boot.ttf", STATUS_SUCCESS)] ∧
    FontLoadAttempts
        (BlpDisplayRegisterLocale Firmware.LoadFails Firmware.Pending (L "fr-FR")).2.Trace
      = [(L "\\wgl4_boot.ttf", STATUS_NO_MEMORY)] :=
  ⟨(BlpDisplayRegisterLocale_default Firmware.Env Firmware.Pending (L "fr-FR") (by decide)
      (by decide) (by decide) (by decide) (by decide) (by decide) (by decide)).1,
   (BlpDisplayRegisterLocale_default Firmware.LoadFails Firmware.Pending (L "fr-FR")
      (by decide) (by decide) (by decide) (by decide) (by decide) (by decide) (by decide)).1⟩

/-- C9.  For every locale of at least two characters and every deferred-font list,
`BlpDisplayRegisterLocale` first removes and frees the deferred entries, each once and in
list order, and only then starts the first font load attempt, whose first call is the
lookup of the font path option; that attempt starts in a state whose deferred list is
empty; no deferred entry is freed after it; and the deferred list is empty on return,
whatever the loads returned. -/
theorem BlpDisplayRegisterLocale_flush (E : Externals W) (s : State W)
    (Locale : List WCHAR) (h2 : 2 ≤ wcslen Locale) :
    (BlpDisplayRegisterLocale.Loop E s.BfiDeferredListHead s).BfiDeferredListHead = [] ∧
    (BlpDisplayRegisterLocale.Loop E s.BfiDeferredListHead s).Trace
      = s.Trace ++ s.BfiDeferredListHead.map Event.BfiFreeDeferredFontFile ∧
    (∃ Status Value rest,
      (BlpDisplayRegisterLocale E s Locale).2.Trace
        = (BlpDisplayRegisterLocale.Loop E s.BfiDeferredListHead s).Trace ++
          Event.BlGetBootOptionString BcdKey.BcdLibraryString_FontPath Status Value :: rest ∧
      DeferredFrees rest = []) ∧
    DeferredFrees (BlpDisplayRegisterLocale E s Locale).2.Trace
      = DeferredFrees s.Trace ++ s.BfiDeferredListHead ∧
    (BlpDisplayRegisterLocale E s Locale).2.BfiDeferredListHead = [] := by
  have hlen : ¬ wcslen Locale < 2 := not_lt.2 h2
  have hl := BlpDisplayRegisterLocale.Loop_deferred E s.BfiDeferredListHead s rfl
  have ht := BlpDisplayRegisterLocale.Loop_trace E s.BfiDeferredListHead s
  have hfrees : DeferredFrees (BlpDisplayRegisterLocale E s Locale).2.Trace
      = DeferredFrees (BlpDisplayRegisterLocale.Loop E s.BfiDeferredListHead s).Trace := by
    simp only [BlpDisplayRegisterLocale, if_neg hlen]
    split_ifs <;> simp [DsppLoadFontFile_frees]
  have hbegin : ∃ Status Value rest,
      (BlpDisplayRegisterLocale E s Locale).2.Trace
        = (BlpDisplayRegisterLocale.Loop E s.BfiDeferredListHead s).Trace ++
          Event.BlGetBootOptionString BcdKey.BcdLibraryString_FontPath Status Value :: rest := by
    simp only [BlpDisplayRegisterLocale, if_neg hlen]
    obtain ⟨r1, hr1⟩ := DsppLoadFontFile_begins E
      (BlpDisplayRegisterLocale.Loop E s.BfiDeferredListHead s)
      (BlpDisplayRegisterLocale.FontFileName Locale).1
    split_ifs
    · obtain ⟨r2, hr2⟩ := DsppLoadFontFile_begins E
        (DsppLoadFontFile E (BlpDisplayRegisterLocale.Loop E s.BfiDeferredListHead s)
          (BlpDisplayRegisterLocale.FontFileName Locale).1).2 (L "\\wgl4_boot.ttf")
      generalize (E.BlGetBootOptionString _ _).1.1 = st2 at hr2
      generalize (E.BlGetBootOptionString _ _).1.2 = v2 at hr2
      refine ⟨(E.BlGetBootOptionString
          (BlpDisplayRegisterLocale.Loop E s.BfiDeferredListHead s).World
          BcdKey.BcdLibraryString_FontPath).1.1,
        (E.BlGetBootOptionString
          (BlpDisplayRegisterLocale.Loop E s.BfiDeferredListHead s).World
          BcdKey.BcdLibraryString_FontPath).1.2,
        r1 ++ Event.BlGetBootOptionString BcdKey.BcdLibraryString_FontPath st2 v2 :: r2, ?_⟩
      rw [hr2, hr1]
      simp
    · exact ⟨_, _, r1, hr1⟩
  refine ⟨hl, ht, ?_, ?_, ?_⟩
  · obtain ⟨st, v, rest, hrest⟩ := hbegin
    refine ⟨st, v, rest, hrest, ?_⟩
    have h := hfrees
    rw [hrest, DeferredFrees_append, DeferredFrees_cons] at h
    simpa [Event.DeferredFree] using h
  · rw [hfrees, ht, DeferredFrees_append, DeferredFrees_frees]
  · simp only [BlpDisplayRegisterLocale, if_neg hlen]
    split_ifs <;> simp [DsppLoadFontFile_deferred, hl]

/-- C9 at a concrete input: with entries 40 and 41 pending and loads that fail, registering
"ja-JP" frees 40 then 41 and leaves the list empty. -/
theorem BlpDisplayRegisterLocale_flush_witness :
    DeferredFrees (BlpDisplayRegisterLocale Firmware.LoadFails Firmware.Pending
      (L "ja-JP")).2.Trace = [40, 41] ∧
    (BlpDisplayRegisterLocale Firmware.LoadFails Firmware.Pending
      (L "ja-JP")).2.BfiDeferredListHead = [] :=
  have h := BlpDisplayRegisterLocale_flush Firmware.LoadFails Firmware.Pending (L "ja-JP")
    (by decide)
  ⟨h.2.2.2.1, h.2.2.2.2⟩

/-- C10.  The four-way conjunction that guards the traditional-Chinese font is false for
every string, so `\cht_boot.ttf` is never the font chosen and never appears in a font load
attempt made by `BlpDisplayRegisterLocale`; each of zh-TW, zh-CHT, zh-HK and zh-Hant gets
the default choice, `\wgl4_boot.ttf` with the locale marked standard, and a single font
load attempt for it. -/
theorem BlpDisplayRegisterLocale_never_cht :
    (∀ Locale : List WCHAR,
      ¬ (_wcsicmp Locale (L "zh-TW") = 0 ∧ _wcsicmp Locale (L "zh-CHT") = 0 ∧
        _wcsicmp Locale (L "zh-HK") = 0 ∧ _wcsicmp Locale (L "zh-Hant") = 0)) ∧
    (∀ Locale : List WCHAR,
      (BlpDisplayRegisterLocale.FontFileName Locale).1 ≠ L "\\cht_boot.ttf") ∧
    (∀ (E : Externals W) (s : State W) (Locale : List WCHAR) (Status : NTSTATUS),
      (L "\\cht_boot.ttf", Status)
        ∈ FontLoadAttempts (BlpDisplayRegisterLocale E s Locale).2.Trace →
      (L "\\cht_boot.ttf", Status) ∈ FontLoadAttempts s.Trace) ∧
    (∀ Locale ∈ [L "zh-TW", L "zh-CHT", L "zh-HK", L "zh-Hant"],
      BlpDisplayRegisterLocale.FontFileName Locale = (L "\\wgl4_boot.ttf", true) ∧
      ∀ (E : Externals W) (s : State W),
        FontLoadAttempts (BlpDisplayRegisterLocale E s Locale).2.Trace
          = FontLoadAttempts s.Trace ++
            [(L "\\wgl4_boot.ttf", (BlpDisplayRegisterLocale E s Locale).1)]) := by
  refine ⟨fun Locale h => not_zhTW_and_zhCHT Locale ⟨h.1, h.2.1⟩, FontFileName_ne_cht,
    ?_, ?_⟩
  · intro E s Locale Status hmem
    by_cases hlen : wcslen Locale < 2
    · simpa [BlpDisplayRegisterLocale, hlen] using hmem
    · have key := (BlpDisplayRegisterLocale_attempts E s Locale (not_lt.1 hlen)).1
      rw [key] at hmem
      rcases List.mem_append.1 hmem with h | h
      · exact h
      · have hne := FontFileName_ne_cht Locale
        have hw : L "\\cht_boot.ttf" ≠ L "\\wgl4_boot.ttf" := by decide
        split_ifs at h <;>
          simp only [List.mem_cons, List.mem_singleton, List.not_mem_nil, or_false,
            Prod.mk.injEq] at h
        · rcases h with h | h
          · exact absurd h.1.symm hne
          · exact absurd h.1 hw
        · exact absurd h.1.symm hne
  · intro Locale hmem
    have hf : BlpDisplayRegisterLocale.FontFileName Locale = (L "\\wgl4_boot.ttf", true) ∧
        2 ≤ wcslen Locale := by
      simp only [List.mem_cons, List.mem_singleton, List.not_mem_nil, or_false] at hmem
      rcases hmem with rfl | rfl | rfl | rfl <;> decide
    refine ⟨hf.1, fun E s => ?_⟩
    have key := (BlpDisplayRegisterLocale_attempts E s Locale hf.2).1
    rw [hf.1] at key
    rw [key, if_neg (by simp)]

/-! ## Console selection: theorems -/

/-- The start of `DsppReinitialize` leaves the text, graphics and remote-input slots and the
resolution-selection flags alone, and also the local-input slot when it is not NULL. -/
theorem DsppReinitialize.Consoles_frame (E : Externals W) (s : State W) :
    ( DsppReinitialize.Consoles E s).2.DspTextConsole = s.DspTextConsole ∧
    ( DsppReinitialize.Consoles E s).2.DspGraphicalConsole = s.DspGraphicalConsole ∧
    ( DsppReinitialize.Consoles E s).2.DspRemoteInputConsole = s.DspRemoteInputConsole ∧
    ( DsppReinitialize.Consoles E s).2.ConsoleGraphicalResolutionListFlags
      = s.ConsoleGraphicalResolutionListFlags ∧
    (s.DspLocalInputConsole ≠ 0 →
      ( DsppReinitialize.Consoles E s).2.DspLocalInputConsole = s.DspLocalInputConsole) := by
  simp only [ DsppReinitialize.Consoles]
  split_ifs <;>
    simp_all [ConsoleCreateLocalInputConsole, ConsoleCreateRemoteConsole, State.step]

/-- With a local input console, and a remote-input console or no graphics console, the
start of `DsppReinitialize` makes no call. -/
theorem DsppReinitialize.Consoles_quiet (E : Externals W) (s : State W)
    (hl : s.DspLocalInputConsole ≠ 0)
    (hq : s.DspRemoteInputConsole ≠ 0 ∨ s.DspGraphicalConsole = 0) :
    DsppReinitialize.Consoles E s = (0, s) := by
  simp only [ DsppReinitialize.Consoles, if_neg hl]
  rcases hq with hq | hq <;> simp [hq]

/-- C4, as stated, fails.  Without the full-reinit flag, in a state with a graphics console
and no remote-input console, on a firmware where a remote console can be created,
`DsppReinitialize` returns STATUS_NOT_IMPLEMENTED, not STATUS_SUCCESS.  And without the
flag, in a state with a NULL local-input slot, the call fills that slot (with 18 here). -/
theorem DsppReinitialize_noop_counterexample :
    (0 &&& Firmware.RemoteAvailable.BL_LIBRARY_FLAG_REINITIALIZE_ALL = 0 ∧
      ( DsppReinitialize Firmware.RemoteAvailable Firmware.Running 0).1
        = STATUS_NOT_IMPLEMENTED ∧
      STATUS_NOT_IMPLEMENTED ≠ STATUS_SUCCESS) ∧
    (0 &&& Firmware.Env.BL_LIBRARY_FLAG_REINITIALIZE_ALL = 0 ∧
      Firmware.GraphicsActive.DspLocalInputConsole = 0 ∧
      ( DsppReinitialize Firmware.Env Firmware.GraphicsActive 0).2.DspLocalInputConsole
        = 18) := by
  decide

/-- C4, amended.  Whenever the start of `DsppReinitialize` created no remote console, and
the full-reinit flag is absent, or the graphics slot is NULL, or the graphics console
reports not enabled, the call returns STATUS_SUCCESS and leaves the text, graphics and
remote-input slots and the resolution-selection flags unchanged, and the local-input slot
too when it was not NULL.  When moreover the state has a local input console, and a
remote-input console or no graphics console, the only call made is the diagnostic print:
after any number of calls the state is the first one with that many prints added to its
trace, and the next call returns STATUS_SUCCESS again. -/
theorem DsppReinitialize_noop (E : Externals W) (s : State W) (Flags : Nat) :
    (( DsppReinitialize.Consoles E s).1 = 0 →
      (Flags &&& E.BL_LIBRARY_FLAG_REINITIALIZE_ALL = 0 ∨ s.DspGraphicalConsole = 0 ∨
        IsEnabled E ( DsppReinitialize.Consoles E s).2 s.DspGraphicalConsole = false) →
      ( DsppReinitialize E s Flags).1 = STATUS_SUCCESS ∧
      ( DsppReinitialize E s Flags).2.DspTextConsole = s.DspTextConsole ∧
      ( DsppReinitialize E s Flags).2.DspGraphicalConsole = s.DspGraphicalConsole ∧
      ( DsppReinitialize E s Flags).2.DspRemoteInputConsole = s.DspRemoteInputConsole ∧
      ( DsppReinitialize E s Flags).2.ConsoleGraphicalResolutionListFlags
        = s.ConsoleGraphicalResolutionListFlags ∧
      (s.DspLocalInputConsole ≠ 0 →
        ( DsppReinitialize E s Flags).2.DspLocalInputConsole = s.DspLocalInputConsole)) ∧
    (s.DspLocalInputConsole ≠ 0 →
      (s.DspRemoteInputConsole ≠ 0 ∨ s.DspGraphicalConsole = 0) →
      (Flags &&& E.BL_LIBRARY_FLAG_REINITIALIZE_ALL = 0 ∨ s.DspGraphicalConsole = 0 ∨
        IsEnabled E s s.DspGraphicalConsole = false) →
      ∀ n : Nat,
        (fun t => ( DsppReinitialize E t Flags).2)^[n] s
          = { s with Trace :=
                (s.Trace ++
                  List.replicate n (Event.EfiPrintf "Nothing to do for re-init\r\n")) } ∧
        ( DsppReinitialize E ((fun t => ( DsppReinitialize E t Flags).2)^[n] s) Flags).1
          = STATUS_SUCCESS) := by
  constructor
  · intro hr hn
    have hf := DsppReinitialize.Consoles_frame E s
    have hn2 : Flags &&& E.BL_LIBRARY_FLAG_REINITIALIZE_ALL = 0 ∨
        ( DsppReinitialize.Consoles E s).2.DspGraphicalConsole = 0 ∨
        IsEnabled E ( DsppReinitialize.Consoles E s).2
          ( DsppReinitialize.Consoles E s).2.DspGraphicalConsole = false := by
      rw [hf.2.1]; exact hn
    have e : DsppReinitialize E s Flags
        = (STATUS_SUCCESS,
            EfiPrintf ( DsppReinitialize.Consoles E s).2 "Nothing to do for re-init\r\n") := by
      simp only [ DsppReinitialize, hr, ne_eq, not_true_eq_false, if_false, if_pos hn2]
    rw [e]
    exact ⟨rfl, hf.1, hf.2.1, hf.2.2.1, hf.2.2.2.1, hf.2.2.2.2⟩
  · intro hl hq hn
    have step : ∀ t : State W, t.World = s.World → t.DspLocalInputConsole = s.DspLocalInputConsole →
        t.DspRemoteInputConsole = s.DspRemoteInputConsole →
        t.DspGraphicalConsole = s.DspGraphicalConsole →
        DsppReinitialize E t Flags
          = (STATUS_SUCCESS, EfiPrintf t "Nothing to do for re-init\r\n") := by
      intro t hw h1 h2 h3
      have hq' : DsppReinitialize.Consoles E t = (0, t) :=
        DsppReinitialize.Consoles_quiet E t (by rw [h1]; exact hl) (by rw [h2, h3]; exact hq)
      have hn' : Flags &&& E.BL_LIBRARY_FLAG_REINITIALIZE_ALL = 0 ∨ t.DspGraphicalConsole = 0 ∨
          IsEnabled E t t.DspGraphicalConsole = false := by
        rw [h3]
        simpa [IsEnabled, hw] using hn
      simp only [ DsppReinitialize, hq', ne_eq, not_true_eq_false, if_false, if_pos hn']
    have iter : ∀ n : Nat, (fun t => ( DsppReinitialize E t Flags).2)^[n] s
        = { s with Trace :=
              (s.Trace ++
                List.replicate n (Event.EfiPrintf "Nothing to do for re-init\r\n")) } := by
      intro n
      induction n with
      | zero => simp
      | succ n ih =>
        have e := step { s with Trace := (s.Trace ++
          List.replicate n (Event.EfiPrintf "Nothing to do for re-init\r\n")) } rfl rfl rfl rfl
        rw [Function.iterate_succ_apply', ih, e]
        simp [EfiPrintf, State.log, List.replicate_succ']
    intro n
    refine ⟨iter n, ?_⟩
    have e := step { s with Trace := (s.Trace ++
      List.replicate n (Event.EfiPrintf "Nothing to do for re-init\r\n")) } rfl rfl rfl rfl
    rw [iter n, e]

/-- C4, amended, at concrete inputs: a first call on a state with a graphics console and a
NULL local-input slot, without the flag; and three calls on a text-only state that has a
local input console. -/
theorem DsppReinitialize_noop_witness :
    ( DsppReinitialize Firmware.Env Firmware.GraphicsActive 0).1 = STATUS_SUCCESS ∧
    (fun t => ( DsppReinitialize Firmware.Env t 4).2)^[3] Firmware.RunningText
      = { Firmware.RunningText with Trace :=
            (List.replicate 3 (Event.EfiPrintf "Nothing to do for re-init\r\n")) } :=
  ⟨(( DsppReinitialize_noop Firmware.Env Firmware.GraphicsActive 0).1 (by decide)
      (Or.inl (by decide))).1,
   (( DsppReinitialize_noop Firmware.Env Firmware.RunningText 4).2 (by decide)
      (Or.inr (by decide)) (Or.inr (Or.inl (by decide))) 3).1⟩

/-- C5, as stated, fails.  On a firmware where a remote console can be created, a first
`DsppInitialize` with no flag and no boot option set reaches console construction with
graphics not suppressed and constructs the graphics console at 17 successfully; yet on
return the graphics slot and the text slot are both NULL, and the status is
STATUS_NOT_SUPPORTED. -/
theorem DsppInitialize_slots_counterexample :
    (DsppInitialize.Graphics Firmware.RemoteAvailable
        (DsppInitialize.FontData Firmware.RemoteAvailable Firmware.Boot) false).1 = 17 ∧
    Event.ConsoleGraphicalConstruct 17 STATUS_SUCCESS
      ∈ (DsppInitialize Firmware.RemoteAvailable Firmware.Boot 0).2.Trace ∧
    (DsppInitialize Firmware.RemoteAvailable Firmware.Boot 0).1 = STATUS_NOT_SUPPORTED ∧
    (DsppInitialize Firmware.RemoteAvailable Firmware.Boot 0).2.DspGraphicalConsole = 0 ∧
    (DsppInitialize Firmware.RemoteAvailable Firmware.Boot 0).2.DspTextConsole = 0 := by
  decide

/-- C5, amended.  Take a run of `DsppInitialize` that reaches console construction with
graphics not suppressed (the font rectangle was allocated, the library is not in full
re-initialization, neither the flag nor the BCD suppresses graphics, and neither mode
option is present), and let `G` be what the construction of the graphics console gives:
the allocated console when allocation and `ConsoleGraphicalConstruct` both succeed, NULL
otherwise.  If the console was built and no remote console is then obtained, the call
returns STATUS_SUCCESS with the graphics slot and the text slot both holding that console;
if a remote console is obtained, it returns STATUS_NOT_SUPPORTED with both slots NULL.  If
no graphics console was built, the graphics slot is NULL and the text slot holds what the
construction of the text-only console gives: the allocated text console when allocation and
`ConsoleTextLocalConstruct` both succeed, NULL otherwise. -/
theorem DsppInitialize_slots (E : Externals W) (s : State W) (Flags : Nat)
    (G : PVOID × State W)
    (hG : G = DsppInitialize.Graphics E (DsppInitialize.FontData E s) false)
    (hrect : (DsppInitialize.FontData E s).BfiGraphicsRectangle ≠ 0)
    (hlib : (E.BlpLibraryParameters s.World).LibraryFlags &&&
      E.BL_LIBRARY_FLAG_REINITIALIZE_ALL = 0)
    (hflag : Flags &&& E.BL_LIBRARY_FLAG_NO_GRAPHICS_CONSOLE = 0)
    (hbcd : DsppGraphicsDisabledByBcd E (DsppInitialize.FontData E s) = false)
    (hint : NT_SUCCESS (E.BlGetBootOptionInteger (DsppInitialize.FontData E s).World
      BcdKey.BcdLibraryInteger_GraphicsResolution).1 = false)
    (hbool : NT_SUCCESS (E.BlGetBootOptionBoolean (DsppInitialize.FontData E s).World
      BcdKey.BcdLibraryBoolean_GraphicsForceHighestMode).1 = false) :
    G.1 = (if (E.BlMmAllocateHeap (DsppInitialize.FontData E s).World
              E.sizeof_BL_GRAPHICS_CONSOLE).1 ≠ 0 ∧
            NT_SUCCESS (E.ConsoleGraphicalConstruct
              (E.BlMmAllocateHeap (DsppInitialize.FontData E s).World
                E.sizeof_BL_GRAPHICS_CONSOLE).2
              (E.BlMmAllocateHeap (DsppInitialize.FontData E s).World
                E.sizeof_BL_GRAPHICS_CONSOLE).1).1 = true
          then (E.BlMmAllocateHeap (DsppInitialize.FontData E s).World
              E.sizeof_BL_GRAPHICS_CONSOLE).1
          else 0) ∧
    (G.1 ≠ 0 → (E.ConsoleCreateRemoteConsole G.2.World).1 = 0 →
      (DsppInitialize E s Flags).1 = STATUS_SUCCESS ∧
      (DsppInitialize E s Flags).2.DspGraphicalConsole = G.1 ∧
      (DsppInitialize E s Flags).2.DspTextConsole = G.1) ∧
    (G.1 ≠ 0 → (E.ConsoleCreateRemoteConsole G.2.World).1 ≠ 0 →
      (DsppInitialize E s Flags).1 = STATUS_NOT_SUPPORTED ∧
      (DsppInitialize E s Flags).2.DspGraphicalConsole = 0 ∧
      (DsppInitialize E s Flags).2.DspTextConsole = 0) ∧
    (G.1 = 0 →
      (DsppInitialize E s Flags).2.DspGraphicalConsole = 0 ∧
      (DsppInitialize E s Flags).2.DspTextConsole
        = (DsppInitialize.Text E (DsppInitialize.Mask E G.2) 0).1 ∧
      (DsppInitialize.Text E (DsppInitialize.Mask E G.2) 0).1
        = (if (E.BlMmAllocateHeap G.2.World E.sizeof_BL_TEXT_CONSOLE).1 ≠ 0 ∧
              NT_SUCCESS (E.ConsoleTextLocalConstruct
                (E.BlMmAllocateHeap G.2.World E.sizeof_BL_TEXT_CONSOLE).2
                (E.BlMmAllocateHeap G.2.World E.sizeof_BL_TEXT_CONSOLE).1 true).1 = true
            then (E.BlMmAllocateHeap G.2.World E.sizeof_BL_TEXT_CONSOLE).1
            else 0)) := by
  have hrun : DsppInitialize E s Flags
      = DsppInitialize.Install E (DsppInitialize.Mask E G.2) G.1 := by
    simp [DsppInitialize, hrect, hlib, hflag, hbcd, hint, hbool, hG]
  refine ⟨?_, fun hg hr => ?_, fun hg hr => ?_, fun hg => ?_⟩
  · rw [hG]
    simp only [DsppInitialize.Graphics, BlMmAllocateHeap, ConsoleGraphicalConstruct,
      State.step]
    split_ifs <;> simp_all
  · have hw : (DsppInitialize.Mask E G.2).World = G.2.World := rfl
    rw [hrun]
    simp [DsppInitialize.Install, DsppInitialize.Text, hg, ConsoleCreateRemoteConsole,
      State.step, hw, hr]
  · have hw : (DsppInitialize.Mask E G.2).World = G.2.World := rfl
    rw [hrun]
    simp [DsppInitialize.Install, DsppInitialize.Text, hg, ConsoleCreateRemoteConsole,
      State.step, hw, hr, EfiPrintf, State.log]
  · have hw : (DsppInitialize.Mask E G.2).World = G.2.World := rfl
    rw [hrun, hg]
    refine ⟨?_, ?_, ?_⟩
    · simp only [DsppInitialize.Install]
      split_ifs <;> simp [ConsoleCreateRemoteConsole, State.step, EfiPrintf, State.log]
    · simp only [DsppInitialize.Install]
      split_ifs <;> simp_all [ConsoleCreateRemoteConsole, State.step, EfiPrintf, State.log]
    · simp only [DsppInitialize.Text, BlMmAllocateHeap, ConsoleTextLocalConstruct,
        State.step, hw]
      split_ifs <;> simp_all

/-- C5, amended, at concrete inputs: on the plain firmware the graphics console built at 17
ends up in both slots; where a remote console exists both slots end up NULL; where the
graphics console cannot be constructed the text-only console at 18 is in the text slot. -/
theorem DsppInitialize_slots_witness :
    ((DsppInitialize Firmware.Env Firmware.Boot 0).2.DspGraphicalConsole = 17 ∧
      (DsppInitialize Firmware.Env Firmware.Boot 0).2.DspTextConsole = 17) ∧
    ((DsppInitialize Firmware.RemoteAvailable Firmware.Boot 0).2.DspGraphicalConsole = 0 ∧
      (DsppInitialize Firmware.RemoteAvailable Firmware.Boot 0).2.DspTextConsole = 0) ∧
    ((DsppInitialize Firmware.GraphicsFails Firmware.Boot 0).2.DspGraphicalConsole = 0 ∧
      (DsppInitialize Firmware.GraphicsFails Firmware.Boot 0).2.DspTextConsole = 18) :=
  ⟨((DsppInitialize_slots Firmware.Env Firmware.Boot 0 _ rfl (by decide) (by decide)
      (by decide) (by decide) (by decide) (by decide)).2.1 (by decide) (by decide)).2,
   ((DsppInitialize_slots Firmware.RemoteAvailable Firmware.Boot 0 _ rfl (by decide)
      (by decide) (by decide) (by decide) (by decide) (by decide)).2.2.1 (by decide)
      (by decide)).2,
   ⟨((DsppInitialize_slots Firmware.GraphicsFails Firmware.Boot 0 _ rfl (by decide)
      (by decide) (by decide) (by decide) (by decide) (by decide)).2.2.2 (by decide)).1,
    ((DsppInitialize_slots Firmware.GraphicsFails Firmware.Boot 0 _ rfl (by decide)
      (by decide) (by decide) (by decide) (by decide) (by decide)).2.2.2 (by decide)).2.1⟩⟩

/-! ## The resolution-selection flags -/

theorem testBit_ULONG_NOT (a i : Nat) :
    (ULONG_NOT a).testBit i = (decide (i < 32) && !a.testBit i) := by
  have h : a % 2 ^ 32 < 2 ^ 32 := Nat.mod_lt _ (by norm_num)
  have e : ULONG_NOT a = 2 ^ 32 - (a % 2 ^ 32 + 1) := by
    unfold ULONG_NOT ULONG_MAX; omega
  rw [e, Nat.testBit_two_pow_sub_succ h, Nat.testBit_mod_two_pow]
  by_cases hi : i < 32 <;> simp [hi]

theorem testBit_ULONG_OR (a b i : Nat) :
    (ULONG_OR a b).testBit i = (decide (i < 32) && (a.testBit i || b.testBit i)) := by
  unfold ULONG_OR
  rw [Nat.testBit_mod_two_pow, Nat.testBit_or]

theorem testBit_ULONG_AND (a b i : Nat) :
    (ULONG_AND a b).testBit i = (decide (i < 32) && (a.testBit i && b.testBit i)) := by
  unfold ULONG_AND
  rw [Nat.testBit_mod_two_pow, Nat.testBit_and]

/-- Masking with the complement of `A | B` clears the bits of `A`. -/
theorem BitsClear_mask_left (f A B : Nat) :
    BitsClear (ULONG_AND f (ULONG_NOT (ULONG_OR A B))) A := by
  unfold BitsClear
  apply Nat.eq_of_testBit_eq
  intro i
  simp only [testBit_ULONG_AND, testBit_ULONG_NOT, testBit_ULONG_OR, Nat.zero_testBit]
  cases f.testBit i <;> cases A.testBit i <;> cases B.testBit i <;> simp

/-- Masking with the complement of `A | B` clears the bits of `B`. -/
theorem BitsClear_mask_right (f A B : Nat) :
    BitsClear (ULONG_AND f (ULONG_NOT (ULONG_OR A B))) B := by
  unfold BitsClear
  apply Nat.eq_of_testBit_eq
  intro i
  simp only [testBit_ULONG_AND, testBit_ULONG_NOT, testBit_ULONG_OR, Nat.zero_testBit]
  cases f.testBit i <;> cases A.testBit i <;> cases B.testBit i <;> simp

/-- OR-ing a mask in sets its bits. -/
theorem BitsSet_or (f A : Nat) : BitsSet (ULONG_OR f A) A := by
  unfold BitsSet
  apply Nat.eq_of_testBit_eq
  intro i
  simp only [testBit_ULONG_AND, testBit_ULONG_OR, Nat.testBit_mod_two_pow]
  cases f.testBit i <;> cases A.testBit i <;> simp

/-- OR-ing a mask in and then its complement sets every bit of the ULONG. -/
theorem ULONG_OR_NOT (f H : Nat) : ULONG_OR (ULONG_OR f H) (ULONG_NOT H) = ULONG_MAX := by
  apply Nat.eq_of_testBit_eq
  intro i
  have : ULONG_MAX = 2 ^ 32 - 1 := by unfold ULONG_MAX; norm_num
  rw [this, Nat.testBit_two_pow_sub_one]
  simp only [testBit_ULONG_NOT, testBit_ULONG_OR]
  cases f.testBit i <;> cases H.testBit i <;> simp

/-- Every bit of a mask is set in the all-ones ULONG. -/
theorem BitsSet_ULONG_MAX (A : Nat) : BitsSet ULONG_MAX A := by
  unfold BitsSet
  apply Nat.eq_of_testBit_eq
  intro i
  have : ULONG_MAX = 2 ^ 32 - 1 := by unfold ULONG_MAX; norm_num
  rw [testBit_ULONG_AND, this, Nat.testBit_two_pow_sub_one, Nat.testBit_mod_two_pow]
  cases A.testBit i <;> simp

/-! ## Console selection at first initialization -/

theorem DsppInitialize.FontData_frame (E : Externals W) (s : State W) :
    (DsppInitialize.FontData E s).ConsoleGraphicalResolutionListFlags
      = s.ConsoleGraphicalResolutionListFlags ∧
    (DsppInitialize.FontData E s).DspTextConsole = s.DspTextConsole ∧
    (DsppInitialize.FontData E s).DspGraphicalConsole = s.DspGraphicalConsole ∧
    (DsppInitialize.FontData E s).DspRemoteInputConsole = s.DspRemoteInputConsole ∧
    (DsppInitialize.FontData E s).Trace
      = s.Trace ++ [Event.BlMmAllocateHeap 90 (E.BlMmAllocateHeap s.World 90).1] := by
  simp [DsppInitialize.FontData, BlMmAllocateHeap, State.step]

theorem DsppInitialize.Graphics_flags (E : Externals W) (s : State W) (NoGraphics : Bool) :
    (DsppInitialize.Graphics E s NoGraphics).2.ConsoleGraphicalResolutionListFlags
      = s.ConsoleGraphicalResolutionListFlags := by
  simp only [DsppInitialize.Graphics]
  split_ifs <;>
    simp [BlMmAllocateHeap, ConsoleGraphicalConstruct, BlMmFreeHeap, EfiPrintf, RtlFillMemory,
      State.step, State.log]

theorem DsppInitialize.Text_flags (E : Externals W) (s : State W) (GraphicsConsole : PVOID) :
    (DsppInitialize.Text E s GraphicsConsole).2.ConsoleGraphicalResolutionListFlags
      = s.ConsoleGraphicalResolutionListFlags := by
  simp only [DsppInitialize.Text]
  split_ifs <;>
    simp [BlMmAllocateHeap, ConsoleTextLocalConstruct, BlMmFreeHeap, State.step]

theorem DsppInitialize.Install_flags (E : Externals W) (s : State W)
    (GraphicsConsole : PVOID) :
    (DsppInitialize.Install E s GraphicsConsole).2.ConsoleGraphicalResolutionListFlags
      = s.ConsoleGraphicalResolutionListFlags := by
  simp only [DsppInitialize.Install]
  split_ifs <;>
    simp [ConsoleCreateRemoteConsole, EfiPrintf, State.step, State.log,
      DsppInitialize.Text_flags]

/-- A run of `DsppInitialize` that finds neither mode option goes on to build and install
the consoles. -/
theorem DsppInitialize_constructs (E : Externals W) (s : State W) (Flags : Nat)
    (hrect : (DsppInitialize.FontData E s).BfiGraphicsRectangle ≠ 0)
    (hlib : (E.BlpLibraryParameters s.World).LibraryFlags &&&
      E.BL_LIBRARY_FLAG_REINITIALIZE_ALL = 0)
    (hsel : Flags &&& E.BL_LIBRARY_FLAG_REINITIALIZE_ALL = 0 ∨
      DsppInitialize.NoGraphics E s Flags = false)
    (hint : NT_SUCCESS (E.BlGetBootOptionInteger (DsppInitialize.FontData E s).World
      BcdKey.BcdLibraryInteger_GraphicsResolution).1 = false)
    (hbool : NT_SUCCESS (E.BlGetBootOptionBoolean (DsppInitialize.FontData E s).World
      BcdKey.BcdLibraryBoolean_GraphicsForceHighestMode).1 = false) :
    DsppInitialize E s Flags
      = DsppInitialize.Install E
          (DsppInitialize.Mask E
            (DsppInitialize.Graphics E (DsppInitialize.FontData E s)
              (DsppInitialize.NoGraphics E s Flags)).2)
          (DsppInitialize.Graphics E (DsppInitialize.FontData E s)
            (DsppInitialize.NoGraphics E s Flags)).1 := by
  have hsel' : Flags &&& E.BL_LIBRARY_FLAG_REINITIALIZE_ALL = 0 ∨
      (decide (Flags &&& E.BL_LIBRARY_FLAG_NO_GRAPHICS_CONSOLE ≠ 0) ||
        DsppGraphicsDisabledByBcd E (DsppInitialize.FontData E s)) = false := hsel
  simp only [DsppInitialize, if_neg hrect, hlib, ne_eq, not_true_eq_false, if_false,
    if_pos hsel', hint, hbool, Bool.false_eq_true, DsppInitialize.NoGraphics]

/-- C11, as stated, fails.  With the graphics resolution option present, a first
`DsppInitialize` gets past the rectangle allocation and returns with the forced-video-mode
bit set (the flags word is 1); with the force-highest-mode option present it returns with
the forced-high-res-mode bit set (the flags word is 2). -/
theorem DsppInitialize_flags_counterexample :
    ((DsppInitialize.FontData (Firmware.ResolutionOption 1) Firmware.Boot).BfiGraphicsRectangle
        ≠ 0 ∧
      ¬ BitsClear
        (DsppInitialize (Firmware.ResolutionOption 1) Firmware.Boot
          0).2.ConsoleGraphicalResolutionListFlags
        (Firmware.ResolutionOption 1).BL_DISPLAY_GRAPHICS_FORCED_VIDEO_MODE_FLAG) ∧
    ((DsppInitialize.FontData (Firmware.HighestOption false) Firmware.Boot).BfiGraphicsRectangle
        ≠ 0 ∧
      ¬ BitsClear
        (DsppInitialize (Firmware.HighestOption false) Firmware.Boot
          0).2.ConsoleGraphicalResolutionListFlags
        (Firmware.HighestOption false).BL_DISPLAY_GRAPHICS_FORCED_HIGH_RES_MODE_FLAG) := by
  decide

/-- C11, amended.  Take a run of `DsppInitialize` past the rectangle allocation, with any
flags and any prior value of the resolution-selection flags.  If the library is in full
re-initialization, or the mode-selection step is skipped (a full re-init call with graphics
suppressed), the flags word is returned as it was.  If the step runs and finds the graphics
resolution option present, the call returns STATUS_NOT_IMPLEMENTED with the
forced-video-mode bit OR-ed into the word, so set; if it finds only the force-highest-mode
option present, it returns STATUS_NOT_IMPLEMENTED with the forced-high-res-mode bit OR-ed
in, so set.  If it finds neither, both bits are clear on return, whatever the console
constructions gave. -/
theorem DsppInitialize_flags (E : Externals W) (s : State W) (Flags : Nat)
    (hrect : (DsppInitialize.FontData E s).BfiGraphicsRectangle ≠ 0) :
    ((E.BlpLibraryParameters s.World).LibraryFlags &&& E.BL_LIBRARY_FLAG_REINITIALIZE_ALL ≠ 0 →
      (DsppInitialize E s Flags).2.ConsoleGraphicalResolutionListFlags
        = s.ConsoleGraphicalResolutionListFlags) ∧
    ((E.BlpLibraryParameters s.World).LibraryFlags &&& E.BL_LIBRARY_FLAG_REINITIALIZE_ALL = 0 →
      ((Flags &&& E.BL_LIBRARY_FLAG_REINITIALIZE_ALL ≠ 0 ∧
          DsppInitialize.NoGraphics E s Flags = true) →
        (DsppInitialize E s Flags).2.ConsoleGraphicalResolutionListFlags
          = s.ConsoleGraphicalResolutionListFlags) ∧
      ((Flags &&& E.BL_LIBRARY_FLAG_REINITIALIZE_ALL = 0 ∨
          DsppInitialize.NoGraphics E s Flags = false) →
        (NT_SUCCESS (E.BlGetBootOptionInteger (DsppInitialize.FontData E s).World
            BcdKey.BcdLibraryInteger_GraphicsResolution).1 = true →
          (DsppInitialize E s Flags).1 = STATUS_NOT_IMPLEMENTED ∧
          (DsppInitialize E s Flags).2.ConsoleGraphicalResolutionListFlags
            = ULONG_OR s.ConsoleGraphicalResolutionListFlags
                E.BL_DISPLAY_GRAPHICS_FORCED_VIDEO_MODE_FLAG ∧
          BitsSet (DsppInitialize E s Flags).2.ConsoleGraphicalResolutionListFlags
            E.BL_DISPLAY_GRAPHICS_FORCED_VIDEO_MODE_FLAG) ∧
        (NT_SUCCESS (E.BlGetBootOptionInteger (DsppInitialize.FontData E s).World
            BcdKey.BcdLibraryInteger_GraphicsResolution).1 = false →
          NT_SUCCESS (E.BlGetBootOptionBoolean (DsppInitialize.FontData E s).World
            BcdKey.BcdLibraryBoolean_GraphicsForceHighestMode).1 = true →
          (DsppInitialize E s Flags).1 = STATUS_NOT_IMPLEMENTED ∧
          (DsppInitialize E s Flags).2.ConsoleGraphicalResolutionListFlags
            = ULONG_OR s.ConsoleGraphicalResolutionListFlags
                E.BL_DISPLAY_GRAPHICS_FORCED_HIGH_RES_MODE_FLAG ∧
          BitsSet (DsppInitialize E s Flags).2.ConsoleGraphicalResolutionListFlags
            E.BL_DISPLAY_GRAPHICS_FORCED_HIGH_RES_MODE_FLAG) ∧
        (NT_SUCCESS (E.BlGetBootOptionInteger (DsppInitialize.FontData E s).World
            BcdKey.BcdLibraryInteger_GraphicsResolution).1 = false →
          NT_SUCCESS (E.BlGetBootOptionBoolean (DsppInitialize.FontData E s).World
            BcdKey.BcdLibraryBoolean_GraphicsForceHighestMode).1 = false →
          BitsClear (DsppInitialize E s Flags).2.ConsoleGraphicalResolutionListFlags
            E.BL_DISPLAY_GRAPHICS_FORCED_VIDEO_MODE_FLAG ∧
          BitsClear (DsppInitialize E s Flags).2.ConsoleGraphicalResolutionListFlags
            E.BL_DISPLAY_GRAPHICS_FORCED_HIGH_RES_MODE_FLAG))) := by
  have hfd := (DsppInitialize.FontData_frame E s).1
  refine ⟨fun hlib => ?_, fun hlib => ⟨fun hskip => ?_, fun hsel => ⟨fun hint => ?_,
    fun hint hbool => ?_, fun hint hbool => ?_⟩⟩⟩
  · simp [DsppInitialize, hrect, hlib, EfiPrintf, State.log, hfd]
  · have hno : ¬ (Flags &&& E.BL_LIBRARY_FLAG_REINITIALIZE_ALL = 0 ∨
        (decide (Flags &&& E.BL_LIBRARY_FLAG_NO_GRAPHICS_CONSOLE ≠ 0) ||
          DsppGraphicsDisabledByBcd E (DsppInitialize.FontData E s)) = false) := by
      have h2 : (decide (Flags &&& E.BL_LIBRARY_FLAG_NO_GRAPHICS_CONSOLE ≠ 0) ||
          DsppGraphicsDisabledByBcd E (DsppInitialize.FontData E s)) = true := hskip.2
      rw [h2]
      simp [hskip.1]
    simp only [DsppInitialize, if_neg hrect, hlib, ne_eq, not_true_eq_false, if_false,
      if_neg hno]
    rw [DsppInitialize.Install_flags, hfd]
  · have hsel' : Flags &&& E.BL_LIBRARY_FLAG_REINITIALIZE_ALL = 0 ∨
        (decide (Flags &&& E.BL_LIBRARY_FLAG_NO_GRAPHICS_CONSOLE ≠ 0) ||
          DsppGraphicsDisabledByBcd E (DsppInitialize.FontData E s)) = false := hsel
    have e : DsppInitialize E s Flags
        = (STATUS_NOT_IMPLEMENTED,
            EfiPrintf
              { DsppInitialize.FontData E s with ConsoleGraphicalResolutionListFlags :=
                  (ULONG_OR (DsppInitialize.FontData E s).ConsoleGraphicalResolutionListFlags
                    E.BL_DISPLAY_GRAPHICS_FORCED_VIDEO_MODE_FLAG) }
              "Display selection not yet handled\r\n") := by
      simp only [DsppInitialize, if_neg hrect, hlib, ne_eq, not_true_eq_false, if_false,
        if_pos hsel', hint, if_true]
    rw [e]
    refine ⟨rfl, ?_, BitsSet_or _ _⟩
    show ULONG_OR (DsppInitialize.FontData E s).ConsoleGraphicalResolutionListFlags _ = _
    rw [hfd]
  · have hsel' : Flags &&& E.BL_LIBRARY_FLAG_REINITIALIZE_ALL = 0 ∨
        (decide (Flags &&& E.BL_LIBRARY_FLAG_NO_GRAPHICS_CONSOLE ≠ 0) ||
          DsppGraphicsDisabledByBcd E (DsppInitialize.FontData E s)) = false := hsel
    have e : DsppInitialize E s Flags
        = (STATUS_NOT_IMPLEMENTED,
            EfiPrintf
              { DsppInitialize.FontData E s with ConsoleGraphicalResolutionListFlags :=
                  (ULONG_OR (DsppInitialize.FontData E s).ConsoleGraphicalResolutionListFlags
                    E.BL_DISPLAY_GRAPHICS_FORCED_HIGH_RES_MODE_FLAG) }
              "High res mode not yet handled\r\n") := by
      simp only [DsppInitialize, if_neg hrect, hlib, ne_eq, not_true_eq_false, if_false,
        if_pos hsel', hint, hbool, Bool.false_eq_true, if_true]
    rw [e]
    refine ⟨rfl, ?_, BitsSet_or _ _⟩
    show ULONG_OR (DsppInitialize.FontData E s).ConsoleGraphicalResolutionListFlags _ = _
    rw [hfd]
  · rw [DsppInitialize_constructs E s Flags hrect hlib hsel hint hbool,
      DsppInitialize.Install_flags]
    simp only [DsppInitialize.Mask]
    exact ⟨BitsClear_mask_left _ _ _, BitsClear_mask_right _ _ _⟩

/-- C11, amended, at concrete inputs: a first call with no option set on a flags word of 3
clears both bits, and a call with the resolution option present leaves the video bit set. -/
theorem DsppInitialize_flags_witness :
    (BitsClear
        (DsppInitialize Firmware.Env
          { Firmware.Boot with ConsoleGraphicalResolutionListFlags := 3 }
          0).2.ConsoleGraphicalResolutionListFlags 1 ∧
      BitsClear
        (DsppInitialize Firmware.Env
          { Firmware.Boot with ConsoleGraphicalResolutionListFlags := 3 }
          0).2.ConsoleGraphicalResolutionListFlags 2) ∧
    BitsSet
      (DsppInitialize (Firmware.ResolutionOption 1) Firmware.Boot
        0).2.ConsoleGraphicalResolutionListFlags 1 :=
  ⟨(((DsppInitialize_flags Firmware.Env
        { Firmware.Boot with ConsoleGraphicalResolutionListFlags := 3 } 0 (by decide)).2
        (by decide)).2 (Or.inl (by decide))).2.2 (by decide) (by decide),
   ((((DsppInitialize_flags (Firmware.ResolutionOption 1) Firmware.Boot 0 (by decide)).2
        (by decide)).2 (Or.inl (by decide))).1 (by decide)).2.2⟩

/-- C12.  Take a run of `DsppInitialize` in which the mode-selection step runs: the
rectangle was allocated, the library is not in full re-initialization, and graphics is not
suppressed or the call is not a full re-init.  If the graphics resolution option or the
force-highest-mode option is present (its lookup succeeds, whatever value it gives), the
call returns STATUS_NOT_IMPLEMENTED; the only calls it made are the rectangle allocation
and one diagnostic print, so no console was allocated or constructed; and the text,
graphics and remote-input slots are as they were.  If neither option is present, the call
does not return at this step: it goes on to build and install the consoles. -/
theorem DsppInitialize_selection (E : Externals W) (s : State W) (Flags : Nat)
    (hrect : (DsppInitialize.FontData E s).BfiGraphicsRectangle ≠ 0)
    (hlib : (E.BlpLibraryParameters s.World).LibraryFlags &&&
      E.BL_LIBRARY_FLAG_REINITIALIZE_ALL = 0)
    (hsel : Flags &&& E.BL_LIBRARY_FLAG_REINITIALIZE_ALL = 0 ∨
      DsppInitialize.NoGraphics E s Flags = false) :
    ((NT_SUCCESS (E.BlGetBootOptionInteger (DsppInitialize.FontData E s).World
          BcdKey.BcdLibraryInteger_GraphicsResolution).1 = true ∨
        NT_SUCCESS (E.BlGetBootOptionBoolean (DsppInitialize.FontData E s).World
          BcdKey.BcdLibraryBoolean_GraphicsForceHighestMode).1 = true) →
      (DsppInitialize E s Flags).1 = STATUS_NOT_IMPLEMENTED ∧
      (∃ Format, (DsppInitialize E s Flags).2.Trace
        = s.Trace ++ [Event.BlMmAllocateHeap 90 (E.BlMmAllocateHeap s.World 90).1,
            Event.EfiPrintf Format]) ∧
      (DsppInitialize E s Flags).2.DspTextConsole = s.DspTextConsole ∧
      (DsppInitialize E s Flags).2.DspGraphicalConsole = s.DspGraphicalConsole ∧
      (DsppInitialize E s Flags).2.DspRemoteInputConsole = s.DspRemoteInputConsole) ∧
    (NT_SUCCESS (E.BlGetBootOptionInteger (DsppInitialize.FontData E s).World
        BcdKey.BcdLibraryInteger_GraphicsResolution).1 = false →
      NT_SUCCESS (E.BlGetBootOptionBoolean (DsppInitialize.FontData E s).World
        BcdKey.BcdLibraryBoolean_GraphicsForceHighestMode).1 = false →
      DsppInitialize E s Flags
        = DsppInitialize.Install E
            (DsppInitialize.Mask E
              (DsppInitialize.Graphics E (DsppInitialize.FontData E s)
                (DsppInitialize.NoGraphics E s Flags)).2)
            (DsppInitialize.Graphics E (DsppInitialize.FontData E s)
              (DsppInitialize.NoGraphics E s Flags)).1) := by
  have hfd := DsppInitialize.FontData_frame E s
  have hsel' : Flags &&& E.BL_LIBRARY_FLAG_REINITIALIZE_ALL = 0 ∨
      (decide (Flags &&& E.BL_LIBRARY_FLAG_NO_GRAPHICS_CONSOLE ≠ 0) ||
        DsppGraphicsDisabledByBcd E (DsppInitialize.FontData E s)) = false := hsel
  refine ⟨fun hopt => ?_, fun hint hbool =>
    DsppInitialize_constructs E s Flags hrect hlib hsel hint hbool⟩
  by_cases hint : NT_SUCCESS (E.BlGetBootOptionInteger (DsppInitialize.FontData E s).World
      BcdKey.BcdLibraryInteger_GraphicsResolution).1 = true
  · have e : DsppInitialize E s Flags
        = (STATUS_NOT_IMPLEMENTED,
            EfiPrintf
              { DsppInitialize.FontData E s with ConsoleGraphicalResolutionListFlags :=
                  (ULONG_OR (DsppInitialize.FontData E s).ConsoleGraphicalResolutionListFlags
                    E.BL_DISPLAY_GRAPHICS_FORCED_VIDEO_MODE_FLAG) }
              "Display selection not yet handled\r\n") := by
      simp only [DsppInitialize, if_neg hrect, hlib, ne_eq, not_true_eq_false, if_false,
        if_pos hsel', hint, if_true]
    rw [e]
    refine ⟨rfl, ⟨"Display selection not yet handled\r\n", ?_⟩, hfd.2.1, hfd.2.2.1,
      hfd.2.2.2.1⟩
    simp [EfiPrintf, State.log, hfd.2.2.2.2]
  · have hbool : NT_SUCCESS (E.BlGetBootOptionBoolean (DsppInitialize.FontData E s).World
        BcdKey.BcdLibraryBoolean_GraphicsForceHighestMode).1 = true := by
      rcases hopt with h | h
      · exact absurd h hint
      · exact h
    have e : DsppInitialize E s Flags
        = (STATUS_NOT_IMPLEMENTED,
            EfiPrintf
              { DsppInitialize.FontData E s with ConsoleGraphicalResolutionListFlags :=
                  (ULONG_OR (DsppInitialize.FontData E s).ConsoleGraphicalResolutionListFlags
                    E.BL_DISPLAY_GRAPHICS_FORCED_HIGH_RES_MODE_FLAG) }
              "High res mode not yet handled\r\n") := by
      simp only [DsppInitialize, if_neg hrect, hlib, ne_eq, not_true_eq_false, if_false,
        if_pos hsel', hint, hbool, if_true]
      simp
    rw [e]
    refine ⟨rfl, ⟨"High res mode not yet handled\r\n", ?_⟩, hfd.2.1, hfd.2.2.1, hfd.2.2.2.1⟩
    simp [EfiPrintf, State.log, hfd.2.2.2.2]

/-- C12 at concrete inputs: with the force-highest-mode option present (and false) the call
on a text-only state returns STATUS_NOT_IMPLEMENTED and leaves the text console at 17 in
its slot; with no option set the call on the boot state succeeds. -/
theorem DsppInitialize_selection_witness :
    ((DsppInitialize (Firmware.HighestOption false) Firmware.TextOnly 0).1
        = STATUS_NOT_IMPLEMENTED ∧
      (DsppInitialize (Firmware.HighestOption false) Firmware.TextOnly 0).2.DspTextConsole
        = 17) ∧
    (DsppInitialize Firmware.Env Firmware.Boot 0).1 = STATUS_SUCCESS :=
  have h := (DsppInitialize_selection (Firmware.HighestOption false) Firmware.TextOnly 0
    (by decide) (by decide) (Or.inl (by decide))).1 (Or.inr (by decide))
  have k := (DsppInitialize_selection Firmware.Env Firmware.Boot 0
    (by decide) (by decide) (Or.inl (by decide))).2 (by decide) (by decide)
  ⟨⟨h.1, h.2.2.1⟩, by rw [k]; decide⟩

/-- C15.  Take a run of `DsppInitialize` that reaches the installation of the consoles, in
state `s'` and with the graphics console `G` (NULL when none was built).  If no text-only
console was built and `ConsoleCreateRemoteConsole` yields a console, the call returns
STATUS_NOT_SUPPORTED and the text, graphics and remote-input slots are all NULL on return:
the remote console is in no slot.  If no remote console is obtained, because a text-only
console was built or because `ConsoleCreateRemoteConsole` yields none, the call returns
STATUS_SUCCESS. -/
theorem DsppInitialize_remote (E : Externals W) (s : State W) (Flags : Nat)
    (s' : State W) (G : PVOID)
    (hrun : DsppInitialize E s Flags = DsppInitialize.Install E s' G) :
    ((DsppInitialize.Text E s' G).1 = 0 →
      (E.ConsoleCreateRemoteConsole (DsppInitialize.Text E s' G).2.World).1 ≠ 0 →
      (DsppInitialize E s Flags).1 = STATUS_NOT_SUPPORTED ∧
      (DsppInitialize E s Flags).2.DspTextConsole = 0 ∧
      (DsppInitialize E s Flags).2.DspGraphicalConsole = 0 ∧
      (DsppInitialize E s Flags).2.DspRemoteInputConsole = 0) ∧
    (((DsppInitialize.Text E s' G).1 ≠ 0 ∨
        (E.ConsoleCreateRemoteConsole (DsppInitialize.Text E s' G).2.World).1 = 0) →
      (DsppInitialize E s Flags).1 = STATUS_SUCCESS) := by
  rw [hrun]
  refine ⟨fun ht hr => ?_, fun h => ?_⟩
  · simp [DsppInitialize.Install, ht, ConsoleCreateRemoteConsole, State.step, hr, EfiPrintf,
      State.log]
  · rcases h with ht | hr
    · simp only [DsppInitialize.Install, if_neg ht]
      split_ifs <;> rfl
    · by_cases ht : (DsppInitialize.Text E s' G).1 = 0
      · simp only [DsppInitialize.Install, if_pos ht, ConsoleCreateRemoteConsole, State.step,
          hr]
        split_ifs <;> rfl
      · simp only [DsppInitialize.Install, if_neg ht]
        split_ifs <;> rfl

/-- C15 at concrete inputs: a first call where a remote console exists fails with
STATUS_NOT_SUPPORTED and NULL slots; where the graphics console cannot be constructed the
text-only console is built, no remote console is asked for, and the call succeeds. -/
theorem DsppInitialize_remote_witness :
    ((DsppInitialize Firmware.RemoteAvailable Firmware.Boot 0).1 = STATUS_NOT_SUPPORTED ∧
      (DsppInitialize Firmware.RemoteAvailable Firmware.Boot 0).2.DspTextConsole = 0 ∧
      (DsppInitialize Firmware.RemoteAvailable Firmware.Boot 0).2.DspGraphicalConsole = 0 ∧
      (DsppInitialize Firmware.RemoteAvailable Firmware.Boot 0).2.DspRemoteInputConsole = 0) ∧
    (DsppInitialize Firmware.GraphicsFails Firmware.Boot 0).1 = STATUS_SUCCESS :=
  ⟨(DsppInitialize_remote Firmware.RemoteAvailable Firmware.Boot 0 _ _
      (DsppInitialize_constructs Firmware.RemoteAvailable Firmware.Boot 0 (by decide)
        (by decide) (Or.inl (by decide)) (by decide) (by decide))).1 (by decide) (by decide),
   (DsppInitialize_remote Firmware.GraphicsFails Firmware.Boot 0 _ _
      (DsppInitialize_constructs Firmware.GraphicsFails Firmware.Boot 0 (by decide)
        (by decide) (Or.inl (by decide)) (by decide) (by decide))).2
      (Or.inl (by decide))⟩

/-- C16 fails on the code.  On a firmware where a remote console can be created, a first
`DsppInitialize` with no flag and no boot option returns the failure
STATUS_NOT_SUPPORTED; the graphics console it allocated at 17 and constructed is not freed
(the trace has no `BlMmFreeHeap` at all) and is in no slot. -/
theorem DsppInitialize_leak :
    NT_SUCCESS (DsppInitialize Firmware.RemoteAvailable Firmware.Boot 0).1 = false ∧
    Event.BlMmAllocateHeap Firmware.RemoteAvailable.sizeof_BL_GRAPHICS_CONSOLE 17
      ∈ (DsppInitialize Firmware.RemoteAvailable Firmware.Boot 0).2.Trace ∧
    Event.ConsoleGraphicalConstruct 17 STATUS_SUCCESS
      ∈ (DsppInitialize Firmware.RemoteAvailable Firmware.Boot 0).2.Trace ∧
    HeapFrees (DsppInitialize Firmware.RemoteAvailable Firmware.Boot 0).2.Trace = [] ∧
    (DsppInitialize Firmware.RemoteAvailable Firmware.Boot 0).2.DspGraphicalConsole ≠ 17 ∧
    (DsppInitialize Firmware.RemoteAvailable Firmware.Boot 0).2.DspTextConsole ≠ 17 ∧
    (DsppInitialize Firmware.RemoteAvailable Firmware.Boot 0).2.DspRemoteInputConsole ≠ 17 := by
  decide

/-! ## Re-initialization -/

theorem EnableCalls_nil : EnableCalls [] = [] := rfl

theorem EnableCalls_cons (e : Event) (t : List Event) :
    EnableCalls (e :: t) = (Event.EnableCall e).toList ++ EnableCalls t := by
  cases h : Event.EnableCall e <;> simp [EnableCalls, List.filterMap_cons, h]

theorem EnableCalls_append (t u : List Event) :
    EnableCalls (t ++ u) = EnableCalls t ++ EnableCalls u := by
  simp [EnableCalls]

/-- With no remote console created, the full re-initialization flag set and an enabled
graphics console, `DsppReinitialize` runs its applicable path. -/
theorem DsppReinitialize_applies (E : Externals W) (s : State W) (Flags : Nat)
    (hr : ( DsppReinitialize.Consoles E s).1 = 0)
    (hf : Flags &&& E.BL_LIBRARY_FLAG_REINITIALIZE_ALL ≠ 0)
    (hg : s.DspGraphicalConsole ≠ 0)
    (he : IsEnabled E ( DsppReinitialize.Consoles E s).2 s.DspGraphicalConsole = true) :
    DsppReinitialize E s Flags
      = DsppReinitialize.Apply E ( DsppReinitialize.Consoles E s).2 s.DspGraphicalConsole := by
  have hc := ( DsppReinitialize.Consoles_frame E s).2.1
  have hn : ¬ (Flags &&& E.BL_LIBRARY_FLAG_REINITIALIZE_ALL = 0 ∨
      s.DspGraphicalConsole = 0 ∨
      IsEnabled E ( DsppReinitialize.Consoles E s).2 s.DspGraphicalConsole = false) := by
    rw [he]
    simp [hf, hg]
  simp only [ DsppReinitialize, hr, ne_eq, not_true_eq_false, if_false, hc, if_neg hn]

/-- The disable step leaves the slots and the flags alone, and calls `Enable(FALSE)` once
when the BCD disables graphics, not at all otherwise. -/
theorem DsppReinitialize.Disable_frame (E : Externals W) (s : State W) (G : PVOID) :
    ( DsppReinitialize.Disable E s G).2.ConsoleGraphicalResolutionListFlags
      = s.ConsoleGraphicalResolutionListFlags ∧
    ( DsppReinitialize.Disable E s G).2.DspTextConsole = s.DspTextConsole ∧
    ( DsppReinitialize.Disable E s G).2.DspGraphicalConsole = s.DspGraphicalConsole ∧
    ( DsppReinitialize.Disable E s G).2.DspRemoteInputConsole = s.DspRemoteInputConsole ∧
    (DsppGraphicsDisabledByBcd E s = true →
      DsppReinitialize.Disable E s G = Enable E s G false) ∧
    (DsppGraphicsDisabledByBcd E s = false →
      DsppReinitialize.Disable E s G = (STATUS_SUCCESS, s)) := by
  simp only [ DsppReinitialize.Disable]
  split_ifs with h <;> simp [Enable, State.step, h]

/-- With no graphics resolution option, the applicable path goes from the disable step to
the force-highest-mode step. -/
theorem DsppReinitialize.Apply_absent (E : Externals W) (s : State W) (G : PVOID)
    (hres : E.MiscGetBootOption ( DsppReinitialize.Disable E s G).2.World
      BcdKey.BcdLibraryInteger_GraphicsResolution = 0) :
    DsppReinitialize.Apply E s G
      = DsppReinitialize.HighestMode E ( DsppReinitialize.Disable E s G).2
          ( DsppReinitialize.Disable E s G).1 := by
  have hres' := hres
  simp only [ DsppReinitialize.Disable] at hres'
  simp only [ DsppReinitialize.Apply, DsppReinitialize.Disable, hres', ne_eq,
    not_true_eq_false, if_false]

/-- The force-highest-mode step: what it returns in each of its three cases. -/
theorem DsppReinitialize.HighestMode_cases (E : Externals W) (s : State W)
    (Status : NTSTATUS) :
    (E.MiscGetBootOption s.World BcdKey.BcdLibraryBoolean_GraphicsForceHighestMode ≠ 0 →
      NT_SUCCESS (E.BlGetBootOptionBoolean s.World
        BcdKey.BcdLibraryBoolean_GraphicsForceHighestMode).1 = true →
      (E.BlGetBootOptionBoolean s.World
        BcdKey.BcdLibraryBoolean_GraphicsForceHighestMode).2 = true →
      DsppReinitialize.HighestMode E s Status
        = (STATUS_NOT_IMPLEMENTED,
            EfiPrintf
              { s with ConsoleGraphicalResolutionListFlags :=
                  (ULONG_OR
                    (ULONG_OR s.ConsoleGraphicalResolutionListFlags
                      E.BL_DISPLAY_GRAPHICS_FORCED_HIGH_RES_MODE_FLAG)
                    (ULONG_NOT E.BL_DISPLAY_GRAPHICS_FORCED_HIGH_RES_MODE_FLAG)) }
              "High res mode not yet handled\r\n")) ∧
    (E.MiscGetBootOption s.World BcdKey.BcdLibraryBoolean_GraphicsForceHighestMode ≠ 0 →
      ¬ (NT_SUCCESS (E.BlGetBootOptionBoolean s.World
          BcdKey.BcdLibraryBoolean_GraphicsForceHighestMode).1 = true ∧
        (E.BlGetBootOptionBoolean s.World
          BcdKey.BcdLibraryBoolean_GraphicsForceHighestMode).2 = true) →
      DsppReinitialize.HighestMode E s Status
        = ((E.BlGetBootOptionBoolean s.World
            BcdKey.BcdLibraryBoolean_GraphicsForceHighestMode).1, s)) ∧
    (E.MiscGetBootOption s.World BcdKey.BcdLibraryBoolean_GraphicsForceHighestMode = 0 →
      DsppReinitialize.HighestMode E s Status = (Status, s)) := by
  refine ⟨fun hp hs hv => ?_, fun hp hn => ?_, fun ha => ?_⟩
  · simp only [ DsppReinitialize.HighestMode, if_pos hp, if_pos (And.intro hs hv)]
  · simp only [ DsppReinitialize.HighestMode, if_pos hp, if_neg hn]
  · simp only [ DsppReinitialize.HighestMode, ha, ne_eq, not_true_eq_false, if_false]

theorem DsppReinitialize.HighestMode_enables (E : Externals W) (s : State W)
    (Status : NTSTATUS) :
    EnableCalls ( DsppReinitialize.HighestMode E s Status).2.Trace = EnableCalls s.Trace := by
  simp only [ DsppReinitialize.HighestMode]
  split_ifs <;>
    simp [EfiPrintf, State.log, EnableCalls_append, EnableCalls_cons, EnableCalls_nil,
      Event.EnableCall]

/-- After the disable step the applicable path makes no call of `Enable`. -/
theorem DsppReinitialize.Apply_enables (E : Externals W) (s : State W) (G : PVOID) :
    EnableCalls ( DsppReinitialize.Apply E s G).2.Trace
      = EnableCalls ( DsppReinitialize.Disable E s G).2.Trace := by
  have hd : (if DsppGraphicsDisabledByBcd E s = true then Enable E s G false
      else (STATUS_SUCCESS, s)) = DsppReinitialize.Disable E s G := rfl
  simp only [ DsppReinitialize.Apply, hd]
  generalize DsppReinitialize.Disable E s G = e
  split_ifs <;>
    simp [ DsppReinitialize.HighestMode_enables, GetGraphicalResolution, EfiPrintf, State.log,
      EnableCalls_append, EnableCalls_cons, EnableCalls_nil, Event.EnableCall]

/-- C13, as stated, fails.  With a graphics console installed, no remote-input console,
and a firmware on which the remote console is created (at 99), `DsppReinitialize`
returns a status other than STATUS_NOT_SUPPORTED: it returns STATUS_NOT_IMPLEMENTED. -/
theorem DsppReinitialize_remote_counterexample :
    Firmware.Running.DspGraphicalConsole ≠ 0 ∧
    Firmware.Running.DspRemoteInputConsole = 0 ∧
    ( DsppReinitialize.Consoles Firmware.RemoteAvailable Firmware.Running).1 = 99 ∧
    ( DsppReinitialize Firmware.RemoteAvailable Firmware.Running 4).1 ≠ STATUS_NOT_SUPPORTED ∧
    ( DsppReinitialize Firmware.RemoteAvailable Firmware.Running 4).1
      = STATUS_NOT_IMPLEMENTED := by
  decide

/-- C13, amended.  In `DsppReinitialize`, whenever a graphics console is installed, no
remote-input console exists, and `ConsoleCreateRemoteConsole` (called once the local input
console has been taken care of) yields a console, the call fails with
STATUS_NOT_IMPLEMENTED, whatever the flags; its last call is the diagnostic "EMS not
supported", and the text, graphics and remote-input slots are as they were, so the created
console is installed nowhere. -/
theorem DsppReinitialize_remote (E : Externals W) (s : State W) (Flags : Nat)
    (hg : s.DspGraphicalConsole ≠ 0) (hr : s.DspRemoteInputConsole = 0)
    (hc : (E.ConsoleCreateRemoteConsole
      (if s.DspLocalInputConsole = 0 then (E.ConsoleCreateLocalInputConsole s.World).2
        else s.World)).1 ≠ 0) :
    ( DsppReinitialize E s Flags).1 = STATUS_NOT_IMPLEMENTED ∧
    NT_SUCCESS ( DsppReinitialize E s Flags).1 = false ∧
    ( DsppReinitialize E s Flags).2.Trace
      = ( DsppReinitialize.Consoles E s).2.Trace ++ [Event.EfiPrintf "EMS not supported\r\n"] ∧
    ( DsppReinitialize E s Flags).2.DspTextConsole = s.DspTextConsole ∧
    ( DsppReinitialize E s Flags).2.DspGraphicalConsole = s.DspGraphicalConsole ∧
    ( DsppReinitialize E s Flags).2.DspRemoteInputConsole = 0 := by
  have hf := DsppReinitialize.Consoles_frame E s
  have h1 : ( DsppReinitialize.Consoles E s).1 ≠ 0 := by
    simp only [ DsppReinitialize.Consoles]
    split_ifs at hc ⊢ <;>
      simp_all [ConsoleCreateLocalInputConsole, ConsoleCreateRemoteConsole, State.step]
  have e : DsppReinitialize E s Flags
      = (STATUS_NOT_IMPLEMENTED,
          EfiPrintf ( DsppReinitialize.Consoles E s).2 "EMS not supported\r\n") := by
    simp only [ DsppReinitialize, if_pos h1]
  rw [e]
  exact ⟨rfl, (by decide : NT_SUCCESS STATUS_NOT_IMPLEMENTED = false), rfl, hf.1, hf.2.1,
    hf.2.2.1.trans hr⟩

/-- C13, amended, at a concrete input: a graphics console at 17, no remote-input console,
and a firmware that creates the remote console. -/
theorem DsppReinitialize_remote_witness :
    ( DsppReinitialize Firmware.RemoteAvailable Firmware.Running 4).1
      = STATUS_NOT_IMPLEMENTED ∧
    ( DsppReinitialize Firmware.RemoteAvailable Firmware.Running 4).2.DspRemoteInputConsole
      = 0 :=
  have h := DsppReinitialize_remote Firmware.RemoteAvailable Firmware.Running 4 (by decide)
    (by decide) (by decide)
  ⟨h.1, h.2.2.2.2.2⟩

/-- C14, as stated, fails.  On the applicable path, with graphics disabled by the BCD, an
`Enable(FALSE)` that fails with STATUS_NOT_SUPPORTED, and the force-highest-mode option
present and false, `DsppReinitialize` calls `Enable(FALSE)` and then returns
STATUS_SUCCESS, the status of the option read: the failure is replaced by success. -/
theorem DsppReinitialize_disable_counterexample :
    ( DsppReinitialize.Consoles Firmware.DisabledHighestOff Firmware.Running).1 = 0 ∧
    4 &&& Firmware.DisabledHighestOff.BL_LIBRARY_FLAG_REINITIALIZE_ALL ≠ 0 ∧
    Firmware.Running.DspGraphicalConsole = 17 ∧
    IsEnabled Firmware.DisabledHighestOff
      ( DsppReinitialize.Consoles Firmware.DisabledHighestOff Firmware.Running).2 17 = true ∧
    DsppGraphicsDisabledByBcd Firmware.DisabledHighestOff
      ( DsppReinitialize.Consoles Firmware.DisabledHighestOff Firmware.Running).2 = true ∧
    EnableCalls ( DsppReinitialize Firmware.DisabledHighestOff Firmware.Running 4).2.Trace
      = [(17, false, STATUS_NOT_SUPPORTED)] ∧
    ( DsppReinitialize Firmware.DisabledHighestOff Firmware.Running 4).1 = STATUS_SUCCESS ∧
    STATUS_SUCCESS ≠ STATUS_NOT_SUPPORTED := by
  decide

/-- C14, amended.  In `DsppReinitialize` on the applicable path (full-reinit flag set,
graphics console installed and enabled, no remote console created), whenever the BCD
disables graphics the function calls `Enable(FALSE)` on the graphics console, once.  When
neither the graphics resolution option nor the force-highest-mode option is present, the
value returned is exactly the status `Enable(FALSE)` returned.  When only the
force-highest-mode option is present, the value returned is STATUS_NOT_IMPLEMENTED if the
option reads true, and otherwise the status of the option read, whatever `Enable(FALSE)`
returned. -/
theorem DsppReinitialize_disable (E : Externals W) (s : State W) (Flags : Nat)
    (hr : ( DsppReinitialize.Consoles E s).1 = 0)
    (hf : Flags &&& E.BL_LIBRARY_FLAG_REINITIALIZE_ALL ≠ 0)
    (hg : s.DspGraphicalConsole ≠ 0)
    (he : IsEnabled E ( DsppReinitialize.Consoles E s).2 s.DspGraphicalConsole = true)
    (hbcd : DsppGraphicsDisabledByBcd E ( DsppReinitialize.Consoles E s).2 = true)
    (En : NTSTATUS × W)
    (hEn : En = E.Enable ( DsppReinitialize.Consoles E s).2.World s.DspGraphicalConsole false) :
    EnableCalls ( DsppReinitialize E s Flags).2.Trace
      = EnableCalls ( DsppReinitialize.Consoles E s).2.Trace ++
          [(s.DspGraphicalConsole, false, En.1)] ∧
    (E.MiscGetBootOption En.2 BcdKey.BcdLibraryInteger_GraphicsResolution = 0 →
      (E.MiscGetBootOption En.2 BcdKey.BcdLibraryBoolean_GraphicsForceHighestMode = 0 →
        ( DsppReinitialize E s Flags).1 = En.1) ∧
      (E.MiscGetBootOption En.2 BcdKey.BcdLibraryBoolean_GraphicsForceHighestMode ≠ 0 →
        ((NT_SUCCESS (E.BlGetBootOptionBoolean En.2
              BcdKey.BcdLibraryBoolean_GraphicsForceHighestMode).1 = true ∧
            (E.BlGetBootOptionBoolean En.2
              BcdKey.BcdLibraryBoolean_GraphicsForceHighestMode).2 = true) →
          ( DsppReinitialize E s Flags).1 = STATUS_NOT_IMPLEMENTED) ∧
        (¬ (NT_SUCCESS (E.BlGetBootOptionBoolean En.2
              BcdKey.BcdLibraryBoolean_GraphicsForceHighestMode).1 = true ∧
            (E.BlGetBootOptionBoolean En.2
              BcdKey.BcdLibraryBoolean_GraphicsForceHighestMode).2 = true) →
          ( DsppReinitialize E s Flags).1
            = (E.BlGetBootOptionBoolean En.2
                BcdKey.BcdLibraryBoolean_GraphicsForceHighestMode).1))) := by
  have hrun := DsppReinitialize_applies E s Flags hr hf hg he
  have hd : DsppReinitialize.Disable E ( DsppReinitialize.Consoles E s).2 s.DspGraphicalConsole
      = (En.1, ( DsppReinitialize.Consoles E s).2.step En.2
          (Event.Enable s.DspGraphicalConsole false En.1)) := by
    rw [( DsppReinitialize.Disable_frame E _ _).2.2.2.2.1 hbcd, hEn]
    rfl
  refine ⟨?_, fun hres => ?_⟩
  · rw [hrun, DsppReinitialize.Apply_enables, hd]
    simp [State.step, EnableCalls_append, EnableCalls_cons, EnableCalls_nil,
      Event.EnableCall]
  · have hres' : E.MiscGetBootOption
        ( DsppReinitialize.Disable E ( DsppReinitialize.Consoles E s).2
          s.DspGraphicalConsole).2.World BcdKey.BcdLibraryInteger_GraphicsResolution = 0 := by
      rw [hd]; exact hres
    rw [hrun, DsppReinitialize.Apply_absent E _ _ hres', hd]
    have hcases := DsppReinitialize.HighestMode_cases E
      (( DsppReinitialize.Consoles E s).2.step En.2
        (Event.Enable s.DspGraphicalConsole false En.1)) En.1
    refine ⟨fun ha => ?_, fun hp => ⟨fun ht => ?_, fun hn => ?_⟩⟩
    · exact congrArg Prod.fst (hcases.2.2 ha)
    · exact congrArg Prod.fst (hcases.1 hp ht.1 ht.2)
    · exact congrArg Prod.fst (hcases.2.1 hp hn)

/-- C14, amended, at a concrete input: graphics disabled by the BCD, no other option, and an
`Enable(FALSE)` that fails with STATUS_NOT_SUPPORTED, which is what the call returns. -/
theorem DsppReinitialize_disable_witness :
    EnableCalls ( DsppReinitialize Firmware.Disabled Firmware.Running 4).2.Trace
      = [(17, false, STATUS_NOT_SUPPORTED)] ∧
    ( DsppReinitialize Firmware.Disabled Firmware.Running 4).1 = STATUS_NOT_SUPPORTED :=
  have h := DsppReinitialize_disable Firmware.Disabled Firmware.Running 4 (by decide)
    (by decide) (by decide) (by decide) (by decide) _ rfl
  ⟨h.1, (h.2 (by decide)).1 (by decide)⟩

/-- C19.  In `DsppReinitialize` on the applicable path, let `A` be the state after the
disable step, and let the graphics resolution option be present.  If the read of the
option fails, its status is returned and the flags word is as on entry; if the read
succeeds and the console's `GetGraphicalResolution` fails, that status is returned and the
flags word is as on entry.  Otherwise, for each of the requested values 0, 1 and 2, the
call returns STATUS_NOT_IMPLEMENTED, and on return the flags word is the entry word with the
forced-video-mode bit OR-ed in, so that bit is set. -/
theorem DsppReinitialize_resolution (E : Externals W) (s : State W) (Flags : Nat)
    (hr : ( DsppReinitialize.Consoles E s).1 = 0)
    (hf : Flags &&& E.BL_LIBRARY_FLAG_REINITIALIZE_ALL ≠ 0)
    (hg : s.DspGraphicalConsole ≠ 0)
    (he : IsEnabled E ( DsppReinitialize.Consoles E s).2 s.DspGraphicalConsole = true)
    (A : State W)
    (hA : A = ( DsppReinitialize.Disable E ( DsppReinitialize.Consoles E s).2
      s.DspGraphicalConsole).2)
    (hres : E.MiscGetBootOption A.World BcdKey.BcdLibraryInteger_GraphicsResolution ≠ 0) :
    (NT_SUCCESS (E.BlGetBootOptionInteger A.World
        BcdKey.BcdLibraryInteger_GraphicsResolution).1 = false →
      ( DsppReinitialize E s Flags).1
        = (E.BlGetBootOptionInteger A.World BcdKey.BcdLibraryInteger_GraphicsResolution).1 ∧
      ( DsppReinitialize E s Flags).2.ConsoleGraphicalResolutionListFlags
        = s.ConsoleGraphicalResolutionListFlags) ∧
    (NT_SUCCESS (E.BlGetBootOptionInteger A.World
        BcdKey.BcdLibraryInteger_GraphicsResolution).1 = true →
      NT_SUCCESS (E.GetGraphicalResolution A.World s.DspGraphicalConsole).1 = false →
      ( DsppReinitialize E s Flags).1
        = (E.GetGraphicalResolution A.World s.DspGraphicalConsole).1 ∧
      ( DsppReinitialize E s Flags).2.ConsoleGraphicalResolutionListFlags
        = s.ConsoleGraphicalResolutionListFlags) ∧
    (NT_SUCCESS (E.BlGetBootOptionInteger A.World
        BcdKey.BcdLibraryInteger_GraphicsResolution).1 = true →
      NT_SUCCESS (E.GetGraphicalResolution A.World s.DspGraphicalConsole).1 = true →
      ((E.BlGetBootOptionInteger A.World BcdKey.BcdLibraryInteger_GraphicsResolution).2 = 0 ∨
        (E.BlGetBootOptionInteger A.World BcdKey.BcdLibraryInteger_GraphicsResolution).2 = 1 ∨
        (E.BlGetBootOptionInteger A.World BcdKey.BcdLibraryInteger_GraphicsResolution).2 = 2) →
      ( DsppReinitialize E s Flags).1 = STATUS_NOT_IMPLEMENTED ∧
      ( DsppReinitialize E s Flags).2.ConsoleGraphicalResolutionListFlags
        = ULONG_OR s.ConsoleGraphicalResolutionListFlags
            E.BL_DISPLAY_GRAPHICS_FORCED_VIDEO_MODE_FLAG ∧
      BitsSet ( DsppReinitialize E s Flags).2.ConsoleGraphicalResolutionListFlags
        E.BL_DISPLAY_GRAPHICS_FORCED_VIDEO_MODE_FLAG) := by
  have hrun := DsppReinitialize_applies E s Flags hr hf hg he
  have hd : (if DsppGraphicsDisabledByBcd E ( DsppReinitialize.Consoles E s).2 = true then
        Enable E ( DsppReinitialize.Consoles E s).2 s.DspGraphicalConsole false
      else (STATUS_SUCCESS, ( DsppReinitialize.Consoles E s).2))
      = DsppReinitialize.Disable E ( DsppReinitialize.Consoles E s).2 s.DspGraphicalConsole :=
    rfl
  have hflags : A.ConsoleGraphicalResolutionListFlags
      = s.ConsoleGraphicalResolutionListFlags := by
    rw [hA, ( DsppReinitialize.Disable_frame E _ _).1,
      ( DsppReinitialize.Consoles_frame E s).2.2.2.1]
  rw [hrun]
  simp only [ DsppReinitialize.Apply, hd, ← hA, if_pos hres]
  refine ⟨fun hi => ?_, fun hi hc => ?_, fun hi hc hv => ?_⟩
  · simp [hi, hflags]
  · have hc' : NT_SUCCESS (GetGraphicalResolution E A s.DspGraphicalConsole).1.1 = false := hc
    have hfl : (GetGraphicalResolution E A
        s.DspGraphicalConsole).2.ConsoleGraphicalResolutionListFlags
        = s.ConsoleGraphicalResolutionListFlags := hflags
    have hst : (GetGraphicalResolution E A s.DspGraphicalConsole).1.1
        = (E.GetGraphicalResolution A.World s.DspGraphicalConsole).1 := rfl
    simp [hi, hc, hfl, hst]
  · have hc' : NT_SUCCESS (GetGraphicalResolution E A s.DspGraphicalConsole).1.1 = true := hc
    have hfl : (GetGraphicalResolution E A
        s.DspGraphicalConsole).2.ConsoleGraphicalResolutionListFlags
        = s.ConsoleGraphicalResolutionListFlags := hflags
    rcases hv with hv | hv | hv <;>
      · rw [hv]
        simp only [hi, hc', Bool.true_eq_false, if_false, if_true, OfNat.ofNat_ne_zero,
          OfNat.ofNat_ne_one, one_ne_zero, EfiPrintf, State.log, hfl]
        exact ⟨trivial, trivial, BitsSet_or _ _⟩

/-- C19 at a concrete input: the resolution option set to 1 on a running graphics console;
the call returns STATUS_NOT_IMPLEMENTED with the forced-video-mode bit (mask 1) set. -/
theorem DsppReinitialize_resolution_witness :
    ( DsppReinitialize (Firmware.ResolutionOption 1) Firmware.Running 4).1
      = STATUS_NOT_IMPLEMENTED ∧
    BitsSet
      ( DsppReinitialize (Firmware.ResolutionOption 1) Firmware.Running
        4).2.ConsoleGraphicalResolutionListFlags 1 :=
  have h := ( DsppReinitialize_resolution (Firmware.ResolutionOption 1) Firmware.Running 4
    (by decide) (by decide) (by decide) (by decide) _ rfl (by decide)).2.2 (by decide)
    (by decide) (Or.inr (Or.inl (by decide)))
  ⟨h.1, h.2.2⟩

/-- On the applicable path with no graphics resolution option, `DsppReinitialize` reaches
the force-highest-mode step in the state the disable step left, holding its status. -/
theorem DsppReinitialize_reaches_highest (E : Externals W) (s : State W) (Flags : Nat)
    (hr : ( DsppReinitialize.Consoles E s).1 = 0)
    (hf : Flags &&& E.BL_LIBRARY_FLAG_REINITIALIZE_ALL ≠ 0)
    (hg : s.DspGraphicalConsole ≠ 0)
    (he : IsEnabled E ( DsppReinitialize.Consoles E s).2 s.DspGraphicalConsole = true)
    (hres : E.MiscGetBootOption
      ( DsppReinitialize.Disable E ( DsppReinitialize.Consoles E s).2
        s.DspGraphicalConsole).2.World BcdKey.BcdLibraryInteger_GraphicsResolution = 0) :
    DsppReinitialize E s Flags
      = DsppReinitialize.HighestMode E
          ( DsppReinitialize.Disable E ( DsppReinitialize.Consoles E s).2
            s.DspGraphicalConsole).2
          ( DsppReinitialize.Disable E ( DsppReinitialize.Consoles E s).2
            s.DspGraphicalConsole).1 := by
  rw [ DsppReinitialize_applies E s Flags hr hf hg he,
    DsppReinitialize.Apply_absent E _ _ hres]

/-- On the applicable path with the graphics resolution option present, read, and asking
for a value above 2, `DsppReinitialize` reaches the force-highest-mode step with the
forced-video-mode bit OR-ed into the flags, holding the status of
`GetGraphicalResolution`. -/
theorem DsppReinitialize_reaches_highest_beyond (E : Externals W) (s : State W)
    (Flags : Nat)
    (hr : ( DsppReinitialize.Consoles E s).1 = 0)
    (hf : Flags &&& E.BL_LIBRARY_FLAG_REINITIALIZE_ALL ≠ 0)
    (hg : s.DspGraphicalConsole ≠ 0)
    (he : IsEnabled E ( DsppReinitialize.Consoles E s).2 s.DspGraphicalConsole = true)
    (A : State W)
    (hA : A = ( DsppReinitialize.Disable E ( DsppReinitialize.Consoles E s).2
      s.DspGraphicalConsole).2)
    (hres : E.MiscGetBootOption A.World BcdKey.BcdLibraryInteger_GraphicsResolution ≠ 0)
    (hi : NT_SUCCESS (E.BlGetBootOptionInteger A.World
      BcdKey.BcdLibraryInteger_GraphicsResolution).1 = true)
    (hc : NT_SUCCESS (E.GetGraphicalResolution A.World s.DspGraphicalConsole).1 = true)
    (hv : 2 < (E.BlGetBootOptionInteger A.World
      BcdKey.BcdLibraryInteger_GraphicsResolution).2) :
    DsppReinitialize E s Flags
      = DsppReinitialize.HighestMode E
          { (GetGraphicalResolution E A s.DspGraphicalConsole).2 with
            ConsoleGraphicalResolutionListFlags :=
              (ULONG_OR A.ConsoleGraphicalResolutionListFlags
                E.BL_DISPLAY_GRAPHICS_FORCED_VIDEO_MODE_FLAG) }
          (E.GetGraphicalResolution A.World s.DspGraphicalConsole).1 := by
  have hd : (if DsppGraphicsDisabledByBcd E ( DsppReinitialize.Consoles E s).2 = true then
        Enable E ( DsppReinitialize.Consoles E s).2 s.DspGraphicalConsole false
      else (STATUS_SUCCESS, ( DsppReinitialize.Consoles E s).2))
      = DsppReinitialize.Disable E ( DsppReinitialize.Consoles E s).2 s.DspGraphicalConsole :=
    rfl
  have hc' : NT_SUCCESS (GetGraphicalResolution E A s.DspGraphicalConsole).1.1 = true := hc
  have h0 : (E.BlGetBootOptionInteger A.World
      BcdKey.BcdLibraryInteger_GraphicsResolution).2 ≠ 0 := by omega
  have h1 : (E.BlGetBootOptionInteger A.World
      BcdKey.BcdLibraryInteger_GraphicsResolution).2 ≠ 1 := by omega
  have h2 : (E.BlGetBootOptionInteger A.World
      BcdKey.BcdLibraryInteger_GraphicsResolution).2 ≠ 2 := by omega
  rw [ DsppReinitialize_applies E s Flags hr hf hg he]
  simp only [ DsppReinitialize.Apply, hd, ← hA, if_pos hres, hi, hc', Bool.true_eq_false,
    if_false, if_neg h0, if_neg h1, if_neg h2]
  rfl

/-- C20.  Take a run of `DsppReinitialize` that reaches the force-highest-mode step, in
state `s'` and holding `Status`: a run on the applicable path in which no resolution
dispatch was taken.  If the option is present, reads successfully and is true, the call
returns STATUS_NOT_IMPLEMENTED, its last call is the diagnostic print, and on return the
forced-high-res-mode bit is set in the flags word.  If the option is present and reads
successfully as false, the call returns the success status of that read, not
STATUS_NOT_IMPLEMENTED, and the step changes nothing; if the option is absent, the call
returns the status it held and the step changes nothing. -/
theorem DsppReinitialize_highest (E : Externals W) (s : State W) (Flags : Nat)
    (s' : State W) (Status : NTSTATUS)
    (hreach : DsppReinitialize E s Flags = DsppReinitialize.HighestMode E s' Status) :
    (E.MiscGetBootOption s'.World BcdKey.BcdLibraryBoolean_GraphicsForceHighestMode ≠ 0 →
      NT_SUCCESS (E.BlGetBootOptionBoolean s'.World
        BcdKey.BcdLibraryBoolean_GraphicsForceHighestMode).1 = true →
      (E.BlGetBootOptionBoolean s'.World
        BcdKey.BcdLibraryBoolean_GraphicsForceHighestMode).2 = true →
      ( DsppReinitialize E s Flags).1 = STATUS_NOT_IMPLEMENTED ∧
      BitsSet ( DsppReinitialize E s Flags).2.ConsoleGraphicalResolutionListFlags
        E.BL_DISPLAY_GRAPHICS_FORCED_HIGH_RES_MODE_FLAG ∧
      ( DsppReinitialize E s Flags).2.Trace
        = s'.Trace ++ [Event.EfiPrintf "High res mode not yet handled\r\n"]) ∧
    (E.MiscGetBootOption s'.World BcdKey.BcdLibraryBoolean_GraphicsForceHighestMode ≠ 0 →
      NT_SUCCESS (E.BlGetBootOptionBoolean s'.World
        BcdKey.BcdLibraryBoolean_GraphicsForceHighestMode).1 = true →
      (E.BlGetBootOptionBoolean s'.World
        BcdKey.BcdLibraryBoolean_GraphicsForceHighestMode).2 = false →
      DsppReinitialize E s Flags
        = ((E.BlGetBootOptionBoolean s'.World
            BcdKey.BcdLibraryBoolean_GraphicsForceHighestMode).1, s') ∧
      ( DsppReinitialize E s Flags).1 ≠ STATUS_NOT_IMPLEMENTED) ∧
    (E.MiscGetBootOption s'.World BcdKey.BcdLibraryBoolean_GraphicsForceHighestMode = 0 →
      DsppReinitialize E s Flags = (Status, s')) := by
  have hcases := DsppReinitialize.HighestMode_cases E s' Status
  rw [hreach]
  refine ⟨fun hp hs hv => ?_, fun hp hs hv => ?_, fun ha => hcases.2.2 ha⟩
  · rw [hcases.1 hp hs hv]
    refine ⟨rfl, ?_, rfl⟩
    show BitsSet (ULONG_OR (ULONG_OR s'.ConsoleGraphicalResolutionListFlags
      E.BL_DISPLAY_GRAPHICS_FORCED_HIGH_RES_MODE_FLAG)
      (ULONG_NOT E.BL_DISPLAY_GRAPHICS_FORCED_HIGH_RES_MODE_FLAG)) _
    rw [ULONG_OR_NOT]
    exact BitsSet_ULONG_MAX _
  · have hn : ¬ (NT_SUCCESS (E.BlGetBootOptionBoolean s'.World
          BcdKey.BcdLibraryBoolean_GraphicsForceHighestMode).1 = true ∧
        (E.BlGetBootOptionBoolean s'.World
          BcdKey.BcdLibraryBoolean_GraphicsForceHighestMode).2 = true) := by
      rw [hv]; simp
    rw [hcases.2.1 hp hn]
    refine ⟨rfl, ?_⟩
    intro h
    have h2 : NT_SUCCESS STATUS_NOT_IMPLEMENTED = true := by
      have := hs
      rwa [show (E.BlGetBootOptionBoolean s'.World
        BcdKey.BcdLibraryBoolean_GraphicsForceHighestMode).1 = STATUS_NOT_IMPLEMENTED from h]
        at this
    exact absurd h2 (by decide)

/-- C20 at concrete inputs: on a running graphics console, the force-highest-mode option set
to true gives STATUS_NOT_IMPLEMENTED with the forced-high-res-mode bit (mask 2) set; set to
false it gives STATUS_SUCCESS; absent it gives STATUS_SUCCESS. -/
theorem DsppReinitialize_highest_witness :
    (( DsppReinitialize (Firmware.HighestOption true) Firmware.Running 4).1
        = STATUS_NOT_IMPLEMENTED ∧
      BitsSet
        ( DsppReinitialize (Firmware.HighestOption true) Firmware.Running
          4).2.ConsoleGraphicalResolutionListFlags 2) ∧
    ( DsppReinitialize (Firmware.HighestOption false) Firmware.Running 4).1
      ≠ STATUS_NOT_IMPLEMENTED ∧
    ( DsppReinitialize Firmware.Env Firmware.Running 4).1 = STATUS_SUCCESS :=
  have h1 := ( DsppReinitialize_highest (Firmware.HighestOption true) Firmware.Running 4 _ _
    ( DsppReinitialize_reaches_highest (Firmware.HighestOption true) Firmware.Running 4
      (by decide) (by decide) (by decide) (by decide) (by decide))).1
    (by decide) (by decide) (by decide)
  have h2 := ( DsppReinitialize_highest (Firmware.HighestOption false) Firmware.Running 4 _ _
    ( DsppReinitialize_reaches_highest (Firmware.HighestOption false) Firmware.Running 4
      (by decide) (by decide) (by decide) (by decide) (by decide))).2.1
    (by decide) (by decide) (by decide)
  have h3 := ( DsppReinitialize_highest Firmware.Env Firmware.Running 4 _ _
    ( DsppReinitialize_reaches_highest Firmware.Env Firmware.Running 4
      (by decide) (by decide) (by decide) (by decide) (by decide))).2.2 (by decide)
  ⟨⟨h1.1, h1.2.1⟩, h2.2, by rw [h3]; decide⟩

/-! ## The font loader: directory, device and ownership -/

theorem HeapFrees_nil : HeapFrees [] = [] := rfl

theorem HeapFrees_cons (e : Event) (t : List Event) :
    HeapFrees (e :: t) = (Event.HeapFree e).toList ++ HeapFrees t := by
  cases h : Event.HeapFree e <;> simp [HeapFrees, List.filterMap_cons, h]

theorem HeapFrees_append (t u : List Event) :
    HeapFrees (t ++ u) = HeapFrees t ++ HeapFrees u := by
  simp [HeapFrees]

theorem HeapAllocations_nil : HeapAllocations [] = [] := rfl

theorem HeapAllocations_cons (e : Event) (t : List Event) :
    HeapAllocations (e :: t) = (Event.HeapAllocation e).toList ++ HeapAllocations t := by
  cases h : Event.HeapAllocation e <;> simp [HeapAllocations, List.filterMap_cons, h]

theorem HeapAllocations_append (t u : List Event) :
    HeapAllocations (t ++ u) = HeapAllocations t ++ HeapAllocations u := by
  simp [HeapAllocations]

theorem FontFileLoads_nil : FontFileLoads [] = [] := rfl

theorem FontFileLoads_cons (e : Event) (t : List Event) :
    FontFileLoads (e :: t) = (Event.FontFileLoad e).toList ++ FontFileLoads t := by
  cases h : Event.FontFileLoad e <;> simp [FontFileLoads, List.filterMap_cons, h]

theorem FontFileLoads_append (t u : List Event) :
    FontFileLoads (t ++ u) = FontFileLoads t ++ FontFileLoads u := by
  simp [FontFileLoads]

theorem DeviceLookups_nil : DeviceLookups [] = [] := rfl

theorem DeviceLookups_cons (e : Event) (t : List Event) :
    DeviceLookups (e :: t) = (Event.DeviceLookup e).toList ++ DeviceLookups t := by
  cases h : Event.DeviceLookup e <;> simp [DeviceLookups, List.filterMap_cons, h]

theorem DeviceLookups_append (t u : List Event) :
    DeviceLookups (t ++ u) = DeviceLookups t ++ DeviceLookups u := by
  simp [DeviceLookups]

/-- What the exit code of `DsppLoadFontFile` frees: the device when it is custom and not
NULL, the directory when it is not NULL and custom, the path when it is not NULL, in that
order; it allocates nothing and makes no load and no device lookup. -/
theorem DsppLoadFontFile.Quickie_heap (E : Externals W) (s : State W)
    (FontFileName : List WCHAR) (CustomDevice : Bool) (FontDevice : PVOID)
    (CustomDirectory : Bool) (FontDirectory : PWCHAR) (FontPath : PVOID) (Status : NTSTATUS) :
    HeapFrees (DsppLoadFontFile.Quickie E s FontFileName CustomDevice FontDevice
        CustomDirectory FontDirectory FontPath Status).2.Trace
      = HeapFrees s.Trace ++
        DsppLoadFontFile.Released CustomDevice FontDevice CustomDirectory FontDirectory ++
        (if FontPath ≠ 0 then [FontPath] else []) ∧
    HeapAllocations (DsppLoadFontFile.Quickie E s FontFileName CustomDevice FontDevice
        CustomDirectory FontDirectory FontPath Status).2.Trace = HeapAllocations s.Trace ∧
    FontFileLoads (DsppLoadFontFile.Quickie E s FontFileName CustomDevice FontDevice
        CustomDirectory FontDirectory FontPath Status).2.Trace = FontFileLoads s.Trace ∧
    DeviceLookups (DsppLoadFontFile.Quickie E s FontFileName CustomDevice FontDevice
        CustomDirectory FontDirectory FontPath Status).2.Trace = DeviceLookups s.Trace := by
  simp only [DsppLoadFontFile.Quickie, DsppLoadFontFile.Released]
  split_ifs <;>
    simp [BlMmFreeHeap, State.step, State.log, HeapFrees_append, HeapFrees_cons,
      HeapFrees_nil, Event.HeapFree, HeapAllocations_append, HeapAllocations_cons,
      HeapAllocations_nil, Event.HeapAllocation, FontFileLoads_append, FontFileLoads_cons,
      FontFileLoads_nil, Event.FontFileLoad, DeviceLookups_append, DeviceLookups_cons,
      DeviceLookups_nil, Event.DeviceLookup]

theorem BlMmAllocateHeap_trace (E : Externals W) (s : State W) (Size : Nat) :
    HeapAllocations (BlMmAllocateHeap E s Size).2.Trace
      = HeapAllocations s.Trace ++
        (if (BlMmAllocateHeap E s Size).1 = 0 then [] else [(BlMmAllocateHeap E s Size).1]) ∧
    HeapFrees (BlMmAllocateHeap E s Size).2.Trace = HeapFrees s.Trace ∧
    FontFileLoads (BlMmAllocateHeap E s Size).2.Trace = FontFileLoads s.Trace ∧
    DeviceLookups (BlMmAllocateHeap E s Size).2.Trace = DeviceLookups s.Trace := by
  refine ⟨?_, ?_, ?_, ?_⟩
  · simp only [BlMmAllocateHeap, State.step, HeapAllocations_append, HeapAllocations_cons,
      HeapAllocations_nil, Event.HeapAllocation]
    split_ifs <;> simp
  · simp [BlMmAllocateHeap, State.step, HeapFrees_append, HeapFrees_cons, HeapFrees_nil,
      Event.HeapFree]
  · simp [BlMmAllocateHeap, State.step, FontFileLoads_append, FontFileLoads_cons,
      FontFileLoads_nil, Event.FontFileLoad]
  · simp [BlMmAllocateHeap, State.step, DeviceLookups_append, DeviceLookups_cons,
      DeviceLookups_nil, Event.DeviceLookup]

theorem BfLoadFontFile_trace (E : Externals W) (s : State W) (Device : PVOID)
    (FontPath : List WCHAR) :
    HeapAllocations (BfLoadFontFile E s Device FontPath).2.Trace = HeapAllocations s.Trace ∧
    HeapFrees (BfLoadFontFile E s Device FontPath).2.Trace = HeapFrees s.Trace ∧
    FontFileLoads (BfLoadFontFile E s Device FontPath).2.Trace
      = FontFileLoads s.Trace ++ [(Device, FontPath, (BfLoadFontFile E s Device FontPath).1)] ∧
    DeviceLookups (BfLoadFontFile E s Device FontPath).2.Trace = DeviceLookups s.Trace := by
  refine ⟨?_, ?_, ?_, ?_⟩
  · simp [BfLoadFontFile, State.step, HeapAllocations_append, HeapAllocations_cons,
      HeapAllocations_nil, Event.HeapAllocation]
  · simp [BfLoadFontFile, State.step, HeapFrees_append, HeapFrees_cons, HeapFrees_nil,
      Event.HeapFree]
  · simp [BfLoadFontFile, State.step, FontFileLoads_append, FontFileLoads_cons,
      FontFileLoads_nil, Event.FontFileLoad]
  · simp [BfLoadFontFile, State.step, DeviceLookups_append, DeviceLookups_cons,
      DeviceLookups_nil, Event.DeviceLookup]

/-- What the loading part of `DsppLoadFontFile` allocates and frees: at most one buffer,
the path, freed again after the device and the directory. -/
theorem DsppLoadFontFile.Load_heap (E : Externals W) (s : State W)
    (FontFileName : List WCHAR) (CustomDevice : Bool) (FontDevice : PVOID)
    (CustomDirectory : Bool) (FontDirectory : PWCHAR) :
    ∃ Path : List PVOID, Path.length ≤ 1 ∧
      HeapAllocations (DsppLoadFontFile.Load E s FontFileName CustomDevice FontDevice
          CustomDirectory FontDirectory).2.Trace = HeapAllocations s.Trace ++ Path ∧
      HeapFrees (DsppLoadFontFile.Load E s FontFileName CustomDevice FontDevice
          CustomDirectory FontDirectory).2.Trace
        = HeapFrees s.Trace ++
          DsppLoadFontFile.Released CustomDevice FontDevice CustomDirectory FontDirectory ++
          Path := by
  simp only [DsppLoadFontFile.Load]
  split_ifs with h1 h2 h3 h4
  · exact ⟨[], by simp, by simp [(DsppLoadFontFile.Quickie_heap E _ _ _ _ _ _ _ _).2.1],
      by simp [(DsppLoadFontFile.Quickie_heap E _ _ _ _ _ _ _ _).1]⟩
  · exact ⟨[], by simp, by simp [(DsppLoadFontFile.Quickie_heap E _ _ _ _ _ _ _ _).2.1],
      by simp [(DsppLoadFontFile.Quickie_heap E _ _ _ _ _ _ _ _).1]⟩
  · exact ⟨[], by simp, by simp [(DsppLoadFontFile.Quickie_heap E _ _ _ _ _ _ _ _).2.1],
      by simp [(DsppLoadFontFile.Quickie_heap E _ _ _ _ _ _ _ _).1]⟩
  · refine ⟨[], by simp, ?_, ?_⟩
    · rw [(DsppLoadFontFile.Quickie_heap E _ _ _ _ _ _ _ _).2.1,
        (BlMmAllocateHeap_trace E _ _).1, if_pos h4]
    · rw [(DsppLoadFontFile.Quickie_heap E _ _ _ _ _ _ _ _).1,
        (BlMmAllocateHeap_trace E _ _).2.1]
      simp
  · have ha := (BlMmAllocateHeap_trace E s (RtlULongAdd (RtlULongLongToULong
        ((RtlULongAdd (wcslen FontFileName % 2 ^ 32) (wcslen FontDirectory.Chars % 2 ^ 32)).2 *
          sizeof_WCHAR % 2 ^ E.SIZE_T_BITS)).2 sizeof_WCHAR).2)
    rw [if_neg h4] at ha
    refine ⟨[(BlMmAllocateHeap E s (RtlULongAdd (RtlULongLongToULong
        ((RtlULongAdd (wcslen FontFileName % 2 ^ 32) (wcslen FontDirectory.Chars % 2 ^ 32)).2 *
          sizeof_WCHAR % 2 ^ E.SIZE_T_BITS)).2 sizeof_WCHAR).2).1], by simp, ?_, ?_⟩
    · rw [(DsppLoadFontFile.Quickie_heap E _ _ _ _ _ _ _ _).2.1,
        (BfLoadFontFile_trace E _ _ _).1, ha.1]
    · rw [(DsppLoadFontFile.Quickie_heap E _ _ _ _ _ _ _ _).1,
        (BfLoadFontFile_trace E _ _ _).2.1, ha.2.1, if_pos h4]

/-- The loading part of `DsppLoadFontFile` calls `BfLoadFontFile` at most once, for the
directory followed by the file name, on the device it was given; it looks up no device. -/
theorem DsppLoadFontFile.Load_loads (E : Externals W) (s : State W)
    (FontFileName : List WCHAR) (CustomDevice : Bool) (FontDevice : PVOID)
    (CustomDirectory : Bool) (FontDirectory : PWCHAR) :
    LoadsOnly s
      (DsppLoadFontFile.Load E s FontFileName CustomDevice FontDevice CustomDirectory
        FontDirectory) FontDevice (FontDirectory.Chars ++ FontFileName) ∧
    DeviceLookups (DsppLoadFontFile.Load E s FontFileName CustomDevice FontDevice
        CustomDirectory FontDirectory).2.Trace = DeviceLookups s.Trace := by
  simp only [DsppLoadFontFile.Load, LoadsOnly]
  split_ifs with h1 h2 h3 h4
  · exact ⟨Or.inl ⟨(DsppLoadFontFile.Quickie_heap E _ _ _ _ _ _ _ _).2.2.1, h1⟩,
      (DsppLoadFontFile.Quickie_heap E _ _ _ _ _ _ _ _).2.2.2⟩
  · exact ⟨Or.inl ⟨(DsppLoadFontFile.Quickie_heap E _ _ _ _ _ _ _ _).2.2.1, h2⟩,
      (DsppLoadFontFile.Quickie_heap E _ _ _ _ _ _ _ _).2.2.2⟩
  · exact ⟨Or.inl ⟨(DsppLoadFontFile.Quickie_heap E _ _ _ _ _ _ _ _).2.2.1, h3⟩,
      (DsppLoadFontFile.Quickie_heap E _ _ _ _ _ _ _ _).2.2.2⟩
  · refine ⟨Or.inl ⟨?_, ?_⟩, ?_⟩
    · rw [(DsppLoadFontFile.Quickie_heap E _ _ _ _ _ _ _ _).2.2.1,
        (BlMmAllocateHeap_trace E _ _).2.2.1]
    · rw [DsppLoadFontFile.Quickie_status]
      decide
    · rw [(DsppLoadFontFile.Quickie_heap E _ _ _ _ _ _ _ _).2.2.2,
        (BlMmAllocateHeap_trace E _ _).2.2.2]
  · refine ⟨Or.inr ?_, ?_⟩
    · rw [(DsppLoadFontFile.Quickie_heap E _ _ _ _ _ _ _ _).2.2.1,
        (BfLoadFontFile_trace E _ _ _).2.2.1, (BlMmAllocateHeap_trace E _ _).2.2.1,
        DsppLoadFontFile.Quickie_status]
    · rw [(DsppLoadFontFile.Quickie_heap E _ _ _ _ _ _ _ _).2.2.2,
        (BfLoadFontFile_trace E _ _ _).2.2.2, (BlMmAllocateHeap_trace E _ _).2.2.2]

theorem BlGetBootOptionString_trace (E : Externals W) (s : State W) (Key : BcdKey) :
    HeapAllocations (BlGetBootOptionString E s Key).2.Trace = HeapAllocations s.Trace ∧
    HeapFrees (BlGetBootOptionString E s Key).2.Trace = HeapFrees s.Trace ∧
    FontFileLoads (BlGetBootOptionString E s Key).2.Trace = FontFileLoads s.Trace ∧
    DeviceLookups (BlGetBootOptionString E s Key).2.Trace = DeviceLookups s.Trace := by
  refine ⟨?_, ?_, ?_, ?_⟩
  · simp [BlGetBootOptionString, State.step, HeapAllocations_append, HeapAllocations_cons,
      HeapAllocations_nil, Event.HeapAllocation]
  · simp [BlGetBootOptionString, State.step, HeapFrees_append, HeapFrees_cons, HeapFrees_nil,
      Event.HeapFree]
  · simp [BlGetBootOptionString, State.step, FontFileLoads_append, FontFileLoads_cons,
      FontFileLoads_nil, Event.FontFileLoad]
  · simp [BlGetBootOptionString, State.step, DeviceLookups_append, DeviceLookups_cons,
      DeviceLookups_nil, Event.DeviceLookup]

theorem BlGetBootOptionDevice_trace (E : Externals W) (s : State W) (Key : BcdKey) :
    HeapAllocations (BlGetBootOptionDevice E s Key).2.Trace = HeapAllocations s.Trace ∧
    HeapFrees (BlGetBootOptionDevice E s Key).2.Trace = HeapFrees s.Trace ∧
    FontFileLoads (BlGetBootOptionDevice E s Key).2.Trace = FontFileLoads s.Trace ∧
    DeviceLookups (BlGetBootOptionDevice E s Key).2.Trace
      = DeviceLookups s.Trace ++ [(BlGetBootOptionDevice E s Key).1] := by
  refine ⟨?_, ?_, ?_, ?_⟩
  · simp [BlGetBootOptionDevice, State.step, HeapAllocations_append, HeapAllocations_cons,
      HeapAllocations_nil, Event.HeapAllocation]
  · simp [BlGetBootOptionDevice, State.step, HeapFrees_append, HeapFrees_cons, HeapFrees_nil,
      Event.HeapFree]
  · simp [BlGetBootOptionDevice, State.step, FontFileLoads_append, FontFileLoads_cons,
      FontFileLoads_nil, Event.FontFileLoad]
  · simp [BlGetBootOptionDevice, State.step, DeviceLookups_append, DeviceLookups_cons,
      DeviceLookups_nil, Event.DeviceLookup]

/-- The loads counted from a state are the loads counted from any earlier state with the
same record of loads. -/
theorem LoadsOnly_of_loads (s t : State W) (r : NTSTATUS × State W) (Device : PVOID)
    (Path : List WCHAR) (h : FontFileLoads t.Trace = FontFileLoads s.Trace)
    (hl : LoadsOnly t r Device Path) : LoadsOnly s r Device Path := by
  unfold LoadsOnly at *
  rw [h] at hl
  exact hl

/-- The three ways `DsppLoadFontFile` runs, by the directory it has after the font path
lookup. -/
theorem DsppLoadFontFile_run (E : Externals W) (s : State W) (FontFileName : List WCHAR) :
    (NT_SUCCESS (DsppLoadFontFile.FontPathOption E s).1.1 = true →
      (DsppLoadFontFile.FontPathOption E s).1.2.Pointer ≠ 0 →
      DsppLoadFontFile E s FontFileName =
        if NT_SUCCESS (DsppLoadFontFile.ApplicationDevice E s).1.1 = false then
          DsppLoadFontFile.Quickie E (DsppLoadFontFile.ApplicationDevice E s).2 FontFileName
            true (DsppLoadFontFile.ApplicationDevice E s).1.2 true
            (DsppLoadFontFile.FontPathOption E s).1.2 0
            (DsppLoadFontFile.ApplicationDevice E s).1.1
        else
          DsppLoadFontFile.Load E (DsppLoadFontFile.ApplicationDevice E s).2 FontFileName
            true (DsppLoadFontFile.ApplicationDevice E s).1.2 true
            (DsppLoadFontFile.FontPathOption E s).1.2) ∧
    (NT_SUCCESS (DsppLoadFontFile.FontPathOption E s).1.1 = false →
      (DsppLoadFontFile.LibraryDirectory E s).Pointer ≠ 0 →
      DsppLoadFontFile E s FontFileName =
        if NT_SUCCESS (DsppLoadFontFile.ApplicationDevice E s).1.1 = false then
          DsppLoadFontFile.Quickie E (DsppLoadFontFile.ApplicationDevice E s).2 FontFileName
            true (DsppLoadFontFile.ApplicationDevice E s).1.2 false
            (DsppLoadFontFile.LibraryDirectory E s) 0
            (DsppLoadFontFile.ApplicationDevice E s).1.1
        else
          DsppLoadFontFile.Load E (DsppLoadFontFile.ApplicationDevice E s).2 FontFileName
            true (DsppLoadFontFile.ApplicationDevice E s).1.2 false
            (DsppLoadFontFile.LibraryDirectory E s)) ∧
    (NT_SUCCESS (DsppLoadFontFile.FontPathOption E s).1.1 = false →
      (DsppLoadFontFile.LibraryDirectory E s).Pointer = 0 →
      DsppLoadFontFile E s FontFileName =
        DsppLoadFontFile.Load E (DsppLoadFontFile.FontPathOption E s).2 FontFileName false
          (DsppLoadFontFile.BootDevice E s) false
          ⟨E.FontsDirectoryLiteral, L "\\EFI\\Microsoft\\Boot\\Fonts"⟩) := by
  refine ⟨?_, ?_, ?_⟩
  · intro ho hp
    simp only [DsppLoadFontFile.FontPathOption] at ho hp
    simp only [DsppLoadFontFile, DsppLoadFontFile.FontPathOption,
      DsppLoadFontFile.ApplicationDevice, ho, if_true, if_neg hp]
  · intro ho hp
    simp only [DsppLoadFontFile.FontPathOption, DsppLoadFontFile.LibraryDirectory] at ho hp
    simp only [DsppLoadFontFile, DsppLoadFontFile.FontPathOption,
      DsppLoadFontFile.ApplicationDevice, DsppLoadFontFile.LibraryDirectory, ho,
      Bool.false_eq_true, if_false, if_neg hp]
  · intro ho hp
    simp only [DsppLoadFontFile.FontPathOption, DsppLoadFontFile.LibraryDirectory] at ho hp
    simp only [DsppLoadFontFile, DsppLoadFontFile.FontPathOption,
      DsppLoadFontFile.BootDevice, ho, Bool.false_eq_true, if_false, hp, if_true]

/-- The part of `DsppLoadFontFile` after the application device lookup `d`, for a directory
`Dir`: the lookup is the only one; when it fails its status is returned and nothing is
loaded; when it succeeds the only load is of `Dir` followed by the file name, on the device
found. -/
theorem DsppLoadFontFile.Device_loads (E : Externals W) (s : State W)
    (d : (NTSTATUS × PVOID) × State W) (FontFileName : List WCHAR) (CustomDirectory : Bool)
    (Dir : PWCHAR) (R : NTSTATUS × State W)
    (hR : R = if NT_SUCCESS d.1.1 = false then
        DsppLoadFontFile.Quickie E d.2 FontFileName true d.1.2 CustomDirectory Dir 0 d.1.1
      else DsppLoadFontFile.Load E d.2 FontFileName true d.1.2 CustomDirectory Dir)
    (hl : FontFileLoads d.2.Trace = FontFileLoads s.Trace)
    (hd : DeviceLookups d.2.Trace = DeviceLookups s.Trace ++ [d.1]) :
    DeviceLookups R.2.Trace = DeviceLookups s.Trace ++ [d.1] ∧
    (NT_SUCCESS d.1.1 = false →
      R.1 = d.1.1 ∧ FontFileLoads R.2.Trace = FontFileLoads s.Trace) ∧
    (NT_SUCCESS d.1.1 = true → LoadsOnly s R d.1.2 (Dir.Chars ++ FontFileName)) := by
  by_cases h : NT_SUCCESS d.1.1 = false
  · rw [if_pos h] at hR
    subst hR
    refine ⟨?_, fun _ => ⟨DsppLoadFontFile.Quickie_status E _ _ _ _ _ _ _ _, ?_⟩, ?_⟩
    · rw [(DsppLoadFontFile.Quickie_heap E _ _ _ _ _ _ _ _).2.2.2, hd]
    · rw [(DsppLoadFontFile.Quickie_heap E _ _ _ _ _ _ _ _).2.2.1, hl]
    · intro h2
      rw [h2] at h
      exact absurd h (by decide)
  · rw [if_neg h] at hR
    subst hR
    refine ⟨?_, fun h2 => absurd h2 h, fun _ => ?_⟩
    · rw [(DsppLoadFontFile.Load_loads E _ _ _ _ _ _).2, hd]
    · exact LoadsOnly_of_loads s d.2 _ _ _ hl (DsppLoadFontFile.Load_loads E _ _ _ _ _ _).1

/-- C17: `DsppLoadFontFile` resolves its directory and device by precedence.  When the font
path lookup succeeds with a string, or fails while the library directory is not NULL, the
application device is looked up, once; if that lookup fails its status is returned and
`BfLoadFontFile` is not called; if it succeeds `BfLoadFontFile` is called at most once, on
the device found, for the option string (first case) or the library directory (second
case) followed by the file name.  When the lookup fails and the library directory is NULL,
no device is looked up and `BfLoadFontFile` is called at most once, on the boot device, for
`\EFI\Microsoft\Boot\Fonts` followed by the file name.  In each case no call means a
failure is returned, and a call means its status is returned. -/
theorem DsppLoadFontFile_resolves (E : Externals W) (s : State W)
    (FontFileName : List WCHAR) :
    (NT_SUCCESS (DsppLoadFontFile.FontPathOption E s).1.1 = true →
      (DsppLoadFontFile.FontPathOption E s).1.2.Pointer ≠ 0 →
      DeviceLookups (DsppLoadFontFile E s FontFileName).2.Trace
        = DeviceLookups s.Trace ++ [(DsppLoadFontFile.ApplicationDevice E s).1] ∧
      (NT_SUCCESS (DsppLoadFontFile.ApplicationDevice E s).1.1 = false →
        (DsppLoadFontFile E s FontFileName).1 = (DsppLoadFontFile.ApplicationDevice E s).1.1 ∧
        FontFileLoads (DsppLoadFontFile E s FontFileName).2.Trace = FontFileLoads s.Trace) ∧
      (NT_SUCCESS (DsppLoadFontFile.ApplicationDevice E s).1.1 = true →
        LoadsOnly s (DsppLoadFontFile E s FontFileName)
          (DsppLoadFontFile.ApplicationDevice E s).1.2
          ((DsppLoadFontFile.FontPathOption E s).1.2.Chars ++ FontFileName))) ∧
    (NT_SUCCESS (DsppLoadFontFile.FontPathOption E s).1.1 = false →
      (DsppLoadFontFile.LibraryDirectory E s).Pointer ≠ 0 →
      DeviceLookups (DsppLoadFontFile E s FontFileName).2.Trace
        = DeviceLookups s.Trace ++ [(DsppLoadFontFile.ApplicationDevice E s).1] ∧
      (NT_SUCCESS (DsppLoadFontFile.ApplicationDevice E s).1.1 = false →
        (DsppLoadFontFile E s FontFileName).1 = (DsppLoadFontFile.ApplicationDevice E s).1.1 ∧
        FontFileLoads (DsppLoadFontFile E s FontFileName).2.Trace = FontFileLoads s.Trace) ∧
      (NT_SUCCESS (DsppLoadFontFile.ApplicationDevice E s).1.1 = true →
        LoadsOnly s (DsppLoadFontFile E s FontFileName)
          (DsppLoadFontFile.ApplicationDevice E s).1.2
          ((DsppLoadFontFile.LibraryDirectory E s).Chars ++ FontFileName))) ∧
    (NT_SUCCESS (DsppLoadFontFile.FontPathOption E s).1.1 = false →
      (DsppLoadFontFile.LibraryDirectory E s).Pointer = 0 →
      DeviceLookups (DsppLoadFontFile E s FontFileName).2.Trace = DeviceLookups s.Trace ∧
      LoadsOnly s (DsppLoadFontFile E s FontFileName) (DsppLoadFontFile.BootDevice E s)
        (L "\\EFI\\Microsoft\\Boot\\Fonts" ++ FontFileName)) := by
  have ho := BlGetBootOptionString_trace E s BcdKey.BcdLibraryString_FontPath
  have hd := BlGetBootOptionDevice_trace E (DsppLoadFontFile.FontPathOption E s).2
    BcdKey.BcdLibraryDevice_ApplicationDevice
  have hl : FontFileLoads (DsppLoadFontFile.ApplicationDevice E s).2.Trace
      = FontFileLoads s.Trace := hd.2.2.1.trans ho.2.2.1
  have hk : DeviceLookups (DsppLoadFontFile.ApplicationDevice E s).2.Trace
      = DeviceLookups s.Trace ++ [(DsppLoadFontFile.ApplicationDevice E s).1] := by
    rw [← ho.2.2.2]
    exact hd.2.2.2
  refine ⟨fun h1 h2 => ?_, fun h1 h2 => ?_, fun h1 h2 => ?_⟩
  · exact DsppLoadFontFile.Device_loads E s _ FontFileName true _ _
      ((DsppLoadFontFile_run E s FontFileName).1 h1 h2) hl hk
  · exact DsppLoadFontFile.Device_loads E s _ FontFileName false _ _
      ((DsppLoadFontFile_run E s FontFileName).2.1 h1 h2) hl hk
  · rw [(DsppLoadFontFile_run E s FontFileName).2.2 h1 h2]
    refine ⟨?_, ?_⟩
    · rw [(DsppLoadFontFile.Load_loads E _ _ _ _ _ _).2]
      exact ho.2.2.2
    · exact LoadsOnly_of_loads s _ _ _ _ ho.2.2.1 (DsppLoadFontFile.Load_loads E _ _ _ _ _ _).1

/-- C17 at four runs from the boot state for the file `\a`: with the font path option
`\Fonts` and the application device 6000 the load is of `\Fonts\a` on 6000; with the
library directory `\Lib` it is of `\Lib\a` on 6000; with the library directory and no
application device the lookup status is returned and nothing is loaded; with neither
directory the load is of `\EFI\Microsoft\Boot\Fonts\a` on the boot device 8192. -/
theorem DsppLoadFontFile_resolves_witness :
    (LoadsOnly Firmware.Boot (DsppLoadFontFile Firmware.CustomFonts Firmware.Boot (L "\\a"))
        6000 (L "\\Fonts" ++ L "\\a") ∧
      NT_SUCCESS (DsppLoadFontFile Firmware.CustomFonts Firmware.Boot (L "\\a")).1 = true) ∧
    (LoadsOnly Firmware.Boot (DsppLoadFontFile Firmware.LibraryFonts Firmware.Boot (L "\\a"))
        6000 (L "\\Lib" ++ L "\\a") ∧
      NT_SUCCESS (DsppLoadFontFile Firmware.LibraryFonts Firmware.Boot (L "\\a")).1 = true) ∧
    ((DsppLoadFontFile Firmware.LibraryFontsNoDevice Firmware.Boot (L "\\a")).1
        = STATUS_UNSUCCESSFUL ∧
      FontFileLoads (DsppLoadFontFile Firmware.LibraryFontsNoDevice Firmware.Boot
        (L "\\a")).2.Trace = FontFileLoads Firmware.Boot.Trace) ∧
    (DeviceLookups (DsppLoadFontFile Firmware.Env Firmware.Boot (L "\\a")).2.Trace
        = DeviceLookups Firmware.Boot.Trace ∧
      LoadsOnly Firmware.Boot (DsppLoadFontFile Firmware.Env Firmware.Boot (L "\\a"))
        8192 (L "\\EFI\\Microsoft\\Boot\\Fonts" ++ L "\\a") ∧
      NT_SUCCESS (DsppLoadFontFile Firmware.Env Firmware.Boot (L "\\a")).1 = true) :=
  ⟨⟨((DsppLoadFontFile_resolves Firmware.CustomFonts Firmware.Boot (L "\\a")).1
      (by decide) (by decide)).2.2 (by decide), by decide⟩,
    ⟨((DsppLoadFontFile_resolves Firmware.LibraryFonts Firmware.Boot (L "\\a")).2.1
      (by decide) (by decide)).2.2 (by decide), by decide⟩,
    ((DsppLoadFontFile_resolves Firmware.LibraryFontsNoDevice Firmware.Boot (L "\\a")).2.1
      (by decide) (by decide)).2.1 (by decide),
    ((DsppLoadFontFile_resolves Firmware.Env Firmware.Boot (L "\\a")).2.2
      (by decide) (by decide)).1,
    ((DsppLoadFontFile_resolves Firmware.Env Firmware.Boot (L "\\a")).2.2
      (by decide) (by decide)).2, by decide⟩

/-- The part of `DsppLoadFontFile` after the application device lookup `d`, for a directory
`Dir` that is not NULL: the device is freed when the lookup succeeded, the directory when
it is custom, and the path, the only buffer allocated, when it was allocated. -/
theorem DsppLoadFontFile.Device_heap (E : Externals W) (s : State W)
    (d : (NTSTATUS × PVOID) × State W) (FontFileName : List WCHAR) (CustomDirectory : Bool)
    (Dir : PWCHAR) (R : NTSTATUS × State W)
    (hR : R = if NT_SUCCESS d.1.1 = false then
        DsppLoadFontFile.Quickie E d.2 FontFileName true d.1.2 CustomDirectory Dir 0 d.1.1
      else DsppLoadFontFile.Load E d.2 FontFileName true d.1.2 CustomDirectory Dir)
    (ha : HeapAllocations d.2.Trace = HeapAllocations s.Trace)
    (hf : HeapFrees d.2.Trace = HeapFrees s.Trace)
    (hdev : NT_SUCCESS d.1.1 = true ↔ d.1.2 ≠ 0) (hdir : Dir.Pointer ≠ 0) :
    ∃ Path : List PVOID, Path.length ≤ 1 ∧
      HeapAllocations R.2.Trace = HeapAllocations s.Trace ++ Path ∧
      HeapFrees R.2.Trace = HeapFrees s.Trace ++
        (if NT_SUCCESS d.1.1 = true then [d.1.2] else []) ++
        (if CustomDirectory = true then [Dir.Pointer] else []) ++ Path := by
  by_cases h : NT_SUCCESS d.1.1 = false
  · have h0 : d.1.2 = 0 := by
      by_contra hne
      rw [hdev.2 hne] at h
      exact absurd h (by decide)
    rw [if_pos h] at hR
    subst hR
    refine ⟨[], by simp, ?_, ?_⟩
    · rw [(DsppLoadFontFile.Quickie_heap E _ _ _ _ _ _ _ _).2.1, ha, List.append_nil]
    · rw [(DsppLoadFontFile.Quickie_heap E _ _ _ _ _ _ _ _).1, hf]
      simp [DsppLoadFontFile.Released, h0, h, hdir]
  · have h1 : NT_SUCCESS d.1.1 = true := by simpa using h
    have hne : d.1.2 ≠ 0 := hdev.1 h1
    rw [if_neg h] at hR
    subst hR
    obtain ⟨Path, hlen, hall, hfree⟩ :=
      DsppLoadFontFile.Load_heap E d.2 FontFileName true d.1.2 CustomDirectory Dir
    refine ⟨Path, hlen, ?_, ?_⟩
    · rw [hall, ha]
    · rw [hfree, hf]
      simp [DsppLoadFontFile.Released, h1, hne, hdir]

/-- C18: given lookups that keep their contract (`OptionContract`), on every exit of
`DsppLoadFontFile` the buffers freed are, in this order and nothing else: the device, exactly
when the application device was looked up (a directory came from the font path option or
the library) and found; the directory, exactly when the font path option was found, and
then it is that option string; and the path buffer, exactly when it was allocated, which
is the only allocation. -/
theorem DsppLoadFontFile_releases (E : Externals W) (s : State W)
    (FontFileName : List WCHAR) (hc : OptionContract E) :
    ∃ Path : List PVOID, Path.length ≤ 1 ∧
      HeapAllocations (DsppLoadFontFile E s FontFileName).2.Trace
        = HeapAllocations s.Trace ++ Path ∧
      HeapFrees (DsppLoadFontFile E s FontFileName).2.Trace
        = HeapFrees s.Trace ++
          (if (NT_SUCCESS (DsppLoadFontFile.FontPathOption E s).1.1 = true ∨
                (DsppLoadFontFile.LibraryDirectory E s).Pointer ≠ 0) ∧
              NT_SUCCESS (DsppLoadFontFile.ApplicationDevice E s).1.1 = true then
            [(DsppLoadFontFile.ApplicationDevice E s).1.2] else []) ++
          (if NT_SUCCESS (DsppLoadFontFile.FontPathOption E s).1.1 = true then
            [(DsppLoadFontFile.FontPathOption E s).1.2.Pointer] else []) ++ Path := by
  have ho := BlGetBootOptionString_trace E s BcdKey.BcdLibraryString_FontPath
  have hd := BlGetBootOptionDevice_trace E (DsppLoadFontFile.FontPathOption E s).2
    BcdKey.BcdLibraryDevice_ApplicationDevice
  have ha : HeapAllocations (DsppLoadFontFile.ApplicationDevice E s).2.Trace
      = HeapAllocations s.Trace := hd.1.trans ho.1
  have hf : HeapFrees (DsppLoadFontFile.ApplicationDevice E s).2.Trace
      = HeapFrees s.Trace := hd.2.1.trans ho.2.1
  have hdev : NT_SUCCESS (DsppLoadFontFile.ApplicationDevice E s).1.1 = true ↔
      (DsppLoadFontFile.ApplicationDevice E s).1.2 ≠ 0 := hc.2 _ _
  by_cases h1 : NT_SUCCESS (DsppLoadFontFile.FontPathOption E s).1.1 = true
  · have hp : (DsppLoadFontFile.FontPathOption E s).1.2.Pointer ≠ 0 := hc.1 _ _ h1
    obtain ⟨Path, hlen, hall, hfree⟩ :=
      DsppLoadFontFile.Device_heap E s _ FontFileName true _ _
        ((DsppLoadFontFile_run E s FontFileName).1 h1 hp) ha hf hdev hp
    refine ⟨Path, hlen, hall, ?_⟩
    rw [hfree]
    simp [h1]
  · have h0 : NT_SUCCESS (DsppLoadFontFile.FontPathOption E s).1.1 = false := by
      simpa using h1
    by_cases h2 : (DsppLoadFontFile.LibraryDirectory E s).Pointer = 0
    · obtain ⟨Path, hlen, hall, hfree⟩ :=
        DsppLoadFontFile.Load_heap E (DsppLoadFontFile.FontPathOption E s).2 FontFileName
          false (DsppLoadFontFile.BootDevice E s) false
          ⟨E.FontsDirectoryLiteral, L "\\EFI\\Microsoft\\Boot\\Fonts"⟩
      refine ⟨Path, hlen, ?_, ?_⟩
      · rw [(DsppLoadFontFile_run E s FontFileName).2.2 h0 h2, hall]
        exact congrArg (· ++ Path) ho.1
      · rw [(DsppLoadFontFile_run E s FontFileName).2.2 h0 h2, hfree]
        have hf0 : HeapFrees (DsppLoadFontFile.FontPathOption E s).2.Trace
            = HeapFrees s.Trace := ho.2.1
        rw [hf0]
        simp [DsppLoadFontFile.Released, h0, h2]
    · obtain ⟨Path, hlen, hall, hfree⟩ :=
        DsppLoadFontFile.Device_heap E s _ FontFileName false _ _
          ((DsppLoadFontFile_run E s FontFileName).2.1 h0 h2) ha hf hdev h2
      refine ⟨Path, hlen, hall, ?_⟩
      rw [hfree]
      simp [h0, h2]

/-- The collaborators `Firmware.CustomFonts` keep the contract of the option lookups. -/
theorem Firmware.CustomFonts_contract : OptionContract Firmware.CustomFonts :=
  ⟨fun _ _ _ => (by decide : (5000 : Nat) ≠ 0),
    fun _ _ => ⟨fun _ => (by decide : (6000 : Nat) ≠ 0),
      fun _ => (by decide : NT_SUCCESS STATUS_SUCCESS = true)⟩⟩

/-- C18 at the boot state with the font path option at 5000 and the application device at
6000, for the file `\a`: the path buffer 16 is the only allocation, and the frees are the
device 6000, the directory 5000 and the path 16. -/
theorem DsppLoadFontFile_releases_witness :
    OptionContract Firmware.CustomFonts ∧
    (∃ Path : List PVOID, Path.length ≤ 1 ∧
      HeapAllocations (DsppLoadFontFile Firmware.CustomFonts Firmware.Boot (L "\\a")).2.Trace
        = HeapAllocations Firmware.Boot.Trace ++ Path ∧
      HeapFrees (DsppLoadFontFile Firmware.CustomFonts Firmware.Boot (L "\\a")).2.Trace
        = HeapFrees Firmware.Boot.Trace ++
          (if (NT_SUCCESS
                  (DsppLoadFontFile.FontPathOption Firmware.CustomFonts Firmware.Boot).1.1
                    = true ∨
                (DsppLoadFontFile.LibraryDirectory Firmware.CustomFonts Firmware.Boot).Pointer
                  ≠ 0) ∧
              NT_SUCCESS
                (DsppLoadFontFile.ApplicationDevice Firmware.CustomFonts Firmware.Boot).1.1
                  = true then
            [(DsppLoadFontFile.ApplicationDevice Firmware.CustomFonts Firmware.Boot).1.2]
            else []) ++
          (if NT_SUCCESS
              (DsppLoadFontFile.FontPathOption Firmware.CustomFonts Firmware.Boot).1.1 = true
            then [(DsppLoadFontFile.FontPathOption Firmware.CustomFonts Firmware.Boot).1.2.Pointer]
            else []) ++ Path) ∧
    HeapAllocations (DsppLoadFontFile Firmware.CustomFonts Firmware.Boot (L "\\a")).2.Trace
      = [16] ∧
    HeapFrees (DsppLoadFontFile Firmware.CustomFonts Firmware.Boot (L "\\a")).2.Trace
      = [6000, 5000, 16] :=
  ⟨Firmware.CustomFonts_contract,
    DsppLoadFontFile_releases Firmware.CustomFonts Firmware.Boot (L "\\a")
      Firmware.CustomFonts_contract,
    by decide, by decide⟩

/-! ## The force-highest-mode branch and the flags word -/

/-- C22.  Take a run of `DsppReinitialize` that reaches the force-highest-mode step, in
state `s'`, and takes its branch: the option is present, its read succeeds and gives true.
Then on return the word `ConsoleGraphicalResolutionListFlags` is 0xFFFFFFFF, whatever it
was in `s'` and whatever the two masks are: the forced-high-res-mode bit is set, not
cleared, and the forced-video-mode bit is set as well. -/
theorem DsppReinitialize_saturates (E : Externals W) (s : State W) (Flags : Nat)
    (s' : State W) (Status : NTSTATUS)
    (hreach : DsppReinitialize E s Flags = DsppReinitialize.HighestMode E s' Status)
    (hp : E.MiscGetBootOption s'.World BcdKey.BcdLibraryBoolean_GraphicsForceHighestMode ≠ 0)
    (hs : NT_SUCCESS (E.BlGetBootOptionBoolean s'.World
      BcdKey.BcdLibraryBoolean_GraphicsForceHighestMode).1 = true)
    (hv : (E.BlGetBootOptionBoolean s'.World
      BcdKey.BcdLibraryBoolean_GraphicsForceHighestMode).2 = true) :
    ( DsppReinitialize E s Flags).2.ConsoleGraphicalResolutionListFlags = 0xFFFFFFFF ∧
    BitsSet ( DsppReinitialize E s Flags).2.ConsoleGraphicalResolutionListFlags
      E.BL_DISPLAY_GRAPHICS_FORCED_HIGH_RES_MODE_FLAG ∧
    BitsSet ( DsppReinitialize E s Flags).2.ConsoleGraphicalResolutionListFlags
      E.BL_DISPLAY_GRAPHICS_FORCED_VIDEO_MODE_FLAG := by
  have e : ( DsppReinitialize E s Flags).2.ConsoleGraphicalResolutionListFlags
      = ULONG_MAX := by
    rw [hreach, ( DsppReinitialize.HighestMode_cases E s' Status).1 hp hs hv]
    show ULONG_OR (ULONG_OR s'.ConsoleGraphicalResolutionListFlags
      E.BL_DISPLAY_GRAPHICS_FORCED_HIGH_RES_MODE_FLAG)
      (ULONG_NOT E.BL_DISPLAY_GRAPHICS_FORCED_HIGH_RES_MODE_FLAG) = ULONG_MAX
    exact ULONG_OR_NOT _ _
  rw [e]
  exact ⟨rfl, BitsSet_ULONG_MAX _, BitsSet_ULONG_MAX _⟩

/-- C22 at concrete inputs: on a running graphics console with a flags word of 0 and the
force-highest-mode option true, and on one with a flags word of 4 where the resolution
option asks for the value 3 first, the word is 0xFFFFFFFF on return. -/
theorem DsppReinitialize_saturates_witness :
    ( DsppReinitialize (Firmware.HighestOption true) Firmware.Running
        4).2.ConsoleGraphicalResolutionListFlags = 0xFFFFFFFF ∧
    ( DsppReinitialize Firmware.ResolutionBeyond
        { Firmware.Running with ConsoleGraphicalResolutionListFlags := 4 }
        4).2.ConsoleGraphicalResolutionListFlags = 0xFFFFFFFF :=
  ⟨( DsppReinitialize_saturates (Firmware.HighestOption true) Firmware.Running 4 _ _
      ( DsppReinitialize_reaches_highest (Firmware.HighestOption true) Firmware.Running 4
        (by decide) (by decide) (by decide) (by decide) (by decide))
      (by decide) (by decide) (by decide)).1,
    ( DsppReinitialize_saturates Firmware.ResolutionBeyond
      { Firmware.Running with ConsoleGraphicalResolutionListFlags := 4 } 4 _ _
      ( DsppReinitialize_reaches_highest_beyond Firmware.ResolutionBeyond
        { Firmware.Running with ConsoleGraphicalResolutionListFlags := 4 } 4
        (by decide) (by decide) (by decide) (by decide) _ rfl (by decide) (by decide)
        (by decide) (by decide))
      (by decide) (by decide) (by decide)).1⟩

/-! ## The slots across sequences of calls -/

theorem Keeps.refl (s : State W) : Keeps s s := ⟨rfl, rfl, List.prefix_refl _⟩

theorem Keeps.trans {s t u : State W} (h : Keeps s t) (k : Keeps t u) : Keeps s u :=
  ⟨k.1.trans h.1, k.2.1.trans h.2.1, h.2.2.trans k.2.2⟩

theorem Keeps_step (s : State W) (w : W) (e : Event) : Keeps s (s.step w e) :=
  ⟨rfl, rfl, List.prefix_append _ _⟩

theorem Keeps_log (s : State W) (e : Event) : Keeps s (s.log e) :=
  ⟨rfl, rfl, List.prefix_append _ _⟩

/-- The relation between the slots survives every step that keeps the slots and only adds
to the trace. -/
theorem SlotsAgree_of_Keeps {s t : State W} (h : SlotsAgree s) (k : Keeps s t) :
    SlotsAgree t := by
  obtain ⟨kt, kg, kp⟩ := k
  refine ⟨fun hg => ?_, fun hg => ?_⟩
  · rw [kt, kg]
    exact h.1 (by rw [← kg]; exact hg)
  · rcases h.2 (by rw [← kg]; exact hg) with h0 | ⟨Status, hs, hm⟩
    · exact Or.inl (by rw [kt]; exact h0)
    · refine Or.inr ⟨Status, hs, ?_⟩
      rw [kt]
      exact kp.subset hm

theorem DsppLoadFontFile.Quickie_keeps (E : Externals W) (s : State W)
    (FontFileName : List WCHAR) (CustomDevice : Bool) (FontDevice : PVOID)
    (CustomDirectory : Bool) (FontDirectory : PWCHAR) (FontPath : PVOID) (Status : NTSTATUS) :
    Keeps s (DsppLoadFontFile.Quickie E s FontFileName CustomDevice FontDevice
      CustomDirectory FontDirectory FontPath Status).2 := by
  simp only [DsppLoadFontFile.Quickie]
  split_ifs <;> simp [Keeps, BlMmFreeHeap, State.step, State.log]

theorem DsppLoadFontFile.Load_keeps (E : Externals W) (s : State W)
    (FontFileName : List WCHAR) (CustomDevice : Bool) (FontDevice : PVOID)
    (CustomDirectory : Bool) (FontDirectory : PWCHAR) :
    Keeps s (DsppLoadFontFile.Load E s FontFileName CustomDevice FontDevice CustomDirectory
      FontDirectory).2 := by
  simp only [DsppLoadFontFile.Load]
  split_ifs <;>
    (refine Keeps.trans ?_ (DsppLoadFontFile.Quickie_keeps E _ _ _ _ _ _ _ _)
     simp [Keeps, BlMmAllocateHeap, BfLoadFontFile, State.step])

theorem DsppLoadFontFile_keeps (E : Externals W) (s : State W) (FontFileName : List WCHAR) :
    Keeps s (DsppLoadFontFile E s FontFileName).2 := by
  simp only [DsppLoadFontFile]
  split_ifs <;>
    first
    | (refine Keeps.trans ?_ (DsppLoadFontFile.Load_keeps E _ _ _ _ _ _)
       simp [Keeps, BlGetBootOptionString, BlGetBootOptionDevice, State.step])
    | (refine Keeps.trans ?_ (DsppLoadFontFile.Quickie_keeps E _ _ _ _ _ _ _ _)
       simp [Keeps, BlGetBootOptionString, BlGetBootOptionDevice, State.step])

theorem BlpDisplayRegisterLocale.Loop_keeps (E : Externals W) (l : List PVOID) (s : State W) :
    Keeps s (BlpDisplayRegisterLocale.Loop E l s) := by
  induction l generalizing s with
  | nil => exact Keeps.refl s
  | cons d l ih =>
    simp only [BlpDisplayRegisterLocale.Loop]
    refine Keeps.trans ?_ (ih _)
    simp [Keeps, BfiFreeDeferredFontFile, RemoveEntryList, State.step]

theorem BlpDisplayRegisterLocale_keeps (E : Externals W) (s : State W) (Locale : List WCHAR) :
    Keeps s (BlpDisplayRegisterLocale E s Locale).2 := by
  simp only [BlpDisplayRegisterLocale]
  split_ifs
  · exact Keeps.refl s
  · exact (BlpDisplayRegisterLocale.Loop_keeps E _ s).trans
      ((DsppLoadFontFile_keeps E _ _).trans (DsppLoadFontFile_keeps E _ _))
  · exact (BlpDisplayRegisterLocale.Loop_keeps E _ s).trans (DsppLoadFontFile_keeps E _ _)

theorem BlDisplaySetScreenResolution_keeps (E : Externals W) (s : State W) :
    Keeps s (BlDisplaySetScreenResolution E s).2 := by
  simp only [BlDisplaySetScreenResolution]
  split_ifs <;> simp [Keeps, Enable, State.step]

theorem BlDisplayGetScreenResolution_keeps (E : Externals W) (s : State W) (HRes VRes : Nat) :
    Keeps s (BlDisplayGetScreenResolution E s HRes VRes).2.2 := by
  simp only [BlDisplayGetScreenResolution]
  split_ifs <;> simp [Keeps, GetGraphicalResolution, State.step, State.log]

theorem BlDisplayGetTextCellResolution_keeps (E : Externals W) (s : State W)
    (TextWidth TextHeight : Option Nat) :
    Keeps s (BlDisplayGetTextCellResolution E s TextWidth TextHeight).2 := by
  simp only [BlDisplayGetTextCellResolution]
  split_ifs <;> simp [Keeps, EfiPrintf, State.log]

theorem DsppReinitialize.Consoles_keeps (E : Externals W) (s : State W) :
    Keeps s ( DsppReinitialize.Consoles E s).2 := by
  simp only [ DsppReinitialize.Consoles]
  split_ifs <;>
    simp [Keeps, ConsoleCreateLocalInputConsole, ConsoleCreateRemoteConsole, State.step]

theorem DsppReinitialize.HighestMode_keeps (E : Externals W) (s : State W)
    (Status : NTSTATUS) : Keeps s ( DsppReinitialize.HighestMode E s Status).2 := by
  simp only [ DsppReinitialize.HighestMode]
  split_ifs <;> simp [Keeps, EfiPrintf, State.log]

theorem DsppReinitialize.Disable_keeps (E : Externals W) (s : State W) (G : PVOID) :
    Keeps s ( DsppReinitialize.Disable E s G).2 := by
  simp only [ DsppReinitialize.Disable]
  split_ifs <;> simp [Keeps, Enable, State.step]

theorem DsppReinitialize.Apply_keeps (E : Externals W) (s : State W) (G : PVOID) :
    Keeps s ( DsppReinitialize.Apply E s G).2 := by
  have hd : (if DsppGraphicsDisabledByBcd E s = true then Enable E s G false
      else (STATUS_SUCCESS, s)) = DsppReinitialize.Disable E s G := rfl
  have hk := DsppReinitialize.Disable_keeps E s G
  simp only [ DsppReinitialize.Apply, hd]
  generalize DsppReinitialize.Disable E s G = e at hk ⊢
  split_ifs
  · exact hk
  · exact hk.trans (by simp [Keeps, GetGraphicalResolution, State.step, State.log])
  · exact hk.trans
      (by simp [Keeps, GetGraphicalResolution, State.step, State.log, EfiPrintf])
  · exact hk.trans
      (by simp [Keeps, GetGraphicalResolution, State.step, State.log, EfiPrintf])
  · exact hk.trans
      (by simp [Keeps, GetGraphicalResolution, State.step, State.log, EfiPrintf])
  · refine hk.trans (Keeps.trans ?_ ( DsppReinitialize.HighestMode_keeps E _ _))
    simp [Keeps, GetGraphicalResolution, State.step, State.log]
  · exact hk.trans ( DsppReinitialize.HighestMode_keeps E _ _)

theorem DsppReinitialize_keeps (E : Externals W) (s : State W) (Flags : Nat) :
    Keeps s ( DsppReinitialize E s Flags).2 := by
  have hk := DsppReinitialize.Consoles_keeps E s
  simp only [ DsppReinitialize]
  split_ifs
  · exact hk.trans (Keeps_log _ _)
  · exact hk.trans (Keeps_log _ _)
  · exact hk.trans ( DsppReinitialize.Apply_keeps E _ _)

theorem BlpDisplayReinitialize_keeps (E : Externals W) (s : State W) (Status : NTSTATUS) :
    Keeps s ( BlpDisplayReinitialize E s Status).2 := by
  simp only [ BlpDisplayReinitialize]
  split_ifs <;> simp [Keeps, Reinitialize, State.step]

theorem DsppInitialize.FontData_keeps (E : Externals W) (s : State W) :
    Keeps s (DsppInitialize.FontData E s) := by
  simp [Keeps, DsppInitialize.FontData, BlMmAllocateHeap, State.step]

/-- A text-only console that `DsppInitialize` built was constructed successfully, as an
active console, by `ConsoleTextLocalConstruct`. -/
theorem DsppInitialize.Text_constructed (E : Externals W) (s : State W) (G : PVOID)
    (h : (DsppInitialize.Text E s G).1 ≠ 0) :
    ∃ Status, NT_SUCCESS Status = true ∧
      Event.ConsoleTextLocalConstruct (DsppInitialize.Text E s G).1 true Status
        ∈ (DsppInitialize.Text E s G).2.Trace := by
  simp only [DsppInitialize.Text] at h ⊢
  split_ifs at h ⊢ with h1 h2 h3
  · exact absurd rfl h
  · refine ⟨(ConsoleTextLocalConstruct E
      (BlMmAllocateHeap E s E.sizeof_BL_TEXT_CONSOLE).2
      (BlMmAllocateHeap E s E.sizeof_BL_TEXT_CONSOLE).1 true).1, by simpa using h3, ?_⟩
    simp [ConsoleTextLocalConstruct, State.step]
  · exact absurd rfl h
  · exact absurd rfl h

/-- The text-only console is built only when there is no graphics console. -/
theorem DsppInitialize.Text_graphics (E : Externals W) (s : State W) (G : PVOID)
    (h : G ≠ 0) : DsppInitialize.Text E s G = (0, s) := by
  simp only [DsppInitialize.Text, if_neg h]

/-- Whatever the state before, the installation code of `DsppInitialize` leaves the slots
in agreement: the graphics console in both slots, or the text-only console in the text
slot, or both slots NULL. -/
theorem DsppInitialize.Install_agree (E : Externals W) (s : State W) (G : PVOID) :
    SlotsAgree (DsppInitialize.Install E s G).2 := by
  by_cases hG : G = 0
  · have hc := DsppInitialize.Text_constructed E s G
    simp only [DsppInitialize.Install, SlotsAgree, TextStandalone]
    split_ifs with h1 h2 h3 h4 h5 <;>
      simp_all [ConsoleCreateRemoteConsole, State.step, EfiPrintf, State.log]
  · simp only [DsppInitialize.Install, SlotsAgree, TextStandalone,
      DsppInitialize.Text_graphics E s G hG]
    split_ifs <;>
      simp_all [ConsoleCreateRemoteConsole, State.step, EfiPrintf, State.log]

/-- Every return of `DsppInitialize` leaves the slots in agreement when they were so on
entry: the early returns keep the slots, the others install them. -/
theorem DsppInitialize_agree (E : Externals W) (s : State W) (Flags : Nat)
    (h : SlotsAgree s) : SlotsAgree (DsppInitialize E s Flags).2 := by
  have hk := DsppInitialize.FontData_keeps E s
  simp only [DsppInitialize]
  split_ifs
  · exact SlotsAgree_of_Keeps h hk
  · exact SlotsAgree_of_Keeps h (hk.trans (Keeps_log _ _))
  · exact SlotsAgree_of_Keeps h
      (hk.trans (by simp [Keeps, EfiPrintf, State.log]))
  · exact SlotsAgree_of_Keeps h
      (hk.trans (by simp [Keeps, EfiPrintf, State.log]))
  · rename_i hmode
    exact absurd rfl hmode
  · exact DsppInitialize.Install_agree E _ _
  · exact DsppInitialize.Install_agree E _ _

theorem BlpDisplayInitialize_agree (E : Externals W) (s : State W) (Flags : Nat)
    (Status : NTSTATUS) (h : SlotsAgree s) :
    SlotsAgree (BlpDisplayInitialize E s Flags Status).2 := by
  simp only [BlpDisplayInitialize]
  split_ifs
  · exact SlotsAgree_of_Keeps h
      (( DsppReinitialize_keeps E s Flags).trans ( BlpDisplayReinitialize_keeps E _ _))
  · exact SlotsAgree_of_Keeps h ( DsppReinitialize_keeps E s Flags)
  · exact DsppInitialize_agree E s Flags h

theorem Call.run_agree (E : Externals W) (s : State W) (c : Call) (h : SlotsAgree s) :
    SlotsAgree (Call.run E s c) := by
  cases c with
  | BlpDisplayInitialize Flags Status => exact BlpDisplayInitialize_agree E s Flags Status h
  | BlpDisplayRegisterLocale Locale =>
    exact SlotsAgree_of_Keeps h (BlpDisplayRegisterLocale_keeps E s Locale)
  | BlDisplaySetScreenResolution =>
    exact SlotsAgree_of_Keeps h (BlDisplaySetScreenResolution_keeps E s)
  | BlDisplayGetScreenResolution HRes VRes =>
    exact SlotsAgree_of_Keeps h (BlDisplayGetScreenResolution_keeps E s HRes VRes)
  | BlDisplayGetTextCellResolution TextWidth TextHeight =>
    exact SlotsAgree_of_Keeps h
      (BlDisplayGetTextCellResolution_keeps E s TextWidth TextHeight)

theorem Calls_agree (E : Externals W) (Sequence : List Call) (s : State W)
    (h : SlotsAgree s) : SlotsAgree (Calls E s Sequence) := by
  induction Sequence generalizing s with
  | nil => exact h
  | cons c cs ih => exact ih _ (Call.run_agree E s c h)

theorem SlotsAgree_of_AllNull (s : State W) (h : AllNull s) : SlotsAgree s :=
  ⟨fun hg => absurd h.2.1 hg, fun _ => Or.inl h.1⟩

/-- C21, as stated, fails.  From the all-null boot state, `BlpDisplayInitialize` followed by
`BlDisplaySetScreenResolution` gives a state whose graphics slot holds the console 17, that
console reports disabled, and the text slot is not NULL and holds the same console 17, not
an object other than the graphics console. -/
theorem Calls_slots_counterexample :
    AllNull Firmware.Boot ∧
    (Calls Firmware.Env Firmware.Boot
      [Call.BlpDisplayInitialize 0 0, Call.BlDisplaySetScreenResolution]).DspGraphicalConsole
      = 17 ∧
    IsEnabled Firmware.Env
      (Calls Firmware.Env Firmware.Boot
        [Call.BlpDisplayInitialize 0 0, Call.BlDisplaySetScreenResolution]) 17 = false ∧
    (Calls Firmware.Env Firmware.Boot
      [Call.BlpDisplayInitialize 0 0, Call.BlDisplaySetScreenResolution]).DspTextConsole
      ≠ 0 ∧
    (Calls Firmware.Env Firmware.Boot
      [Call.BlpDisplayInitialize 0 0, Call.BlDisplaySetScreenResolution]).DspTextConsole
      = (Calls Firmware.Env Firmware.Boot
          [Call.BlpDisplayInitialize 0 0,
            Call.BlDisplaySetScreenResolution]).DspGraphicalConsole := by
  decide

/-- C21, amended.  In every display state reached from a state with all four slots NULL by
any sequence of `BlpDisplayInitialize`, `BlpDisplayRegisterLocale`,
`BlDisplaySetScreenResolution`, `BlDisplayGetScreenResolution` and
`BlDisplayGetTextCellResolution` calls, with any arguments: if the graphics slot is not
NULL then the text slot holds the same object, whether that console reports enabled or
disabled; and if the graphics slot is NULL then the text slot is NULL or holds a text
console of its own, one that `ConsoleTextLocalConstruct` constructed successfully. -/
theorem Calls_slots (E : Externals W) (s : State W) (Sequence : List Call)
    (hnull : AllNull s) :
    ((Calls E s Sequence).DspGraphicalConsole ≠ 0 →
      (Calls E s Sequence).DspTextConsole = (Calls E s Sequence).DspGraphicalConsole) ∧
    ((Calls E s Sequence).DspGraphicalConsole = 0 →
      (Calls E s Sequence).DspTextConsole = 0 ∨ TextStandalone (Calls E s Sequence)) :=
  Calls_agree E Sequence s (SlotsAgree_of_AllNull s hnull)

/-- C21, amended, at concrete inputs: the session of five calls from the boot state.  On
the plain firmware it ends with the graphics console 17 in both slots; where the graphics
console cannot be constructed it ends with a NULL graphics slot and the text console 18,
a console of its own, in the text slot. -/
theorem Calls_slots_witness :
    AllNull Firmware.Boot ∧
    ((Calls Firmware.Env Firmware.Boot Firmware.Session).DspGraphicalConsole = 17 ∧
      (Calls Firmware.Env Firmware.Boot Firmware.Session).DspTextConsole
        = (Calls Firmware.Env Firmware.Boot Firmware.Session).DspGraphicalConsole) ∧
    ((Calls Firmware.GraphicsFails Firmware.Boot Firmware.Session).DspGraphicalConsole = 0 ∧
      (Calls Firmware.GraphicsFails Firmware.Boot Firmware.Session).DspTextConsole = 18 ∧
      ((Calls Firmware.GraphicsFails Firmware.Boot Firmware.Session).DspTextConsole = 0 ∨
        TextStandalone (Calls Firmware.GraphicsFails Firmware.Boot Firmware.Session))) :=
  ⟨by decide,
    ⟨by decide,
      (Calls_slots Firmware.Env Firmware.Boot Firmware.Session (by decide)).1 (by decide)⟩,
    ⟨by decide, by decide,
      (Calls_slots Firmware.GraphicsFails Firmware.Boot Firmware.Session (by decide)).2
        (by decide)⟩⟩

end Display
